import Mathlib

/-!
# ChaCha20-Poly1305 AEAD composition layer (library/aead_chacha20_poly1305.c)

A shallow embedding of the AEAD session state machine, its padding and
length-encoding rules, the one-shot entry point and the self-test, followed by
theorems about them.

Conventions of the embedding

* A byte is a natural number; a value stored through `(unsigned char)` is
  reduced modulo 256.  `uint64_t` fields are natural numbers, every addition
  on them is reduced modulo `2^64`.
* A `(length, pointer)` pair of the C interface is one `Option (List Byte)`:
  `none` is the NULL pointer, `some bs` a buffer of which the callee reads the
  `bs.length` bytes `bs`.
* A pointer that is only written through (`output`, `mac`) is a `Bool`
  (`false` is NULL); the bytes written through it are part of the result.
* A context pointer is an `Option` of the context; functions return the
  context as they leave it.
* A local that is read or handed on before the function has written it (the
  array `poly1305_key` of `starts`, the context `ctx` of the one-shot function)
  has an indeterminate content, which is an argument of the function.
* The ChaCha20 and Poly1305 modules are collaborators whose code is not part
  of the sources: the session is parametrised by a record of their operations,
  each returning its `int` result code together with the state it leaves.  A
  concrete record, `rfc7539`, follows RFC 7539; the self-test vector is
  evaluated on it.
-/

namespace AeadChacha20Poly1305

abbrev Byte := Nat

/-! ## Constants of the header -/

def AEAD_CHACHA20_POLY1305_STATE_INIT : Int := 0
def AEAD_CHACHA20_POLY1305_STATE_AAD : Int := 1
def AEAD_CHACHA20_POLY1305_STATE_CIPHERTEXT : Int := 2
def AEAD_CHACHA20_POLY1305_STATE_FINISHED : Int := 3

/-- Modelled from the spec: the header defining this macro is absent; it is the
`BadInput` error code of the spec, a nonzero `int` (the value is the one of
`mbedtls/aead_chacha20_poly1305.h`). -/
def MBEDTLS_ERR_AEAD_CHACHA20_POLY1305_BAD_INPUT_DATA : Int := -0x47

/-- Modelled from the spec: the header defining this macro is absent; it is the
`BadState` error code of the spec, a nonzero `int` different from `BadInput`
(the value is the one of `mbedtls/aead_chacha20_poly1305.h`). -/
def MBEDTLS_ERR_AEAD_CHACHA20_POLY1305_BAD_STATE : Int := -0x49

/-- Modelled from the spec: the enumeration `mbedtls_aead_chacha20_poly1305_mode_t`
of the absent header, the `direction` of the spec: one of ENCRYPT, DECRYPT. -/
inductive mbedtls_aead_chacha20_poly1305_mode_t
  | MBEDTLS_AEAD_CHACHA20_POLY1305_ENCRYPT
  | MBEDTLS_AEAD_CHACHA20_POLY1305_DECRYPT
  deriving DecidableEq, Repr

open mbedtls_aead_chacha20_poly1305_mode_t

/-! ## Collaborators -/

/-- The operations of the ChaCha20 module (state `CS`) and of the Poly1305
module (state `PS`) that the AEAD layer calls.  Each operation returns its
result code and the state it leaves; `mbedtls_chacha20_keystream_block` returns
the content of its 64-byte out buffer after the call, `mbedtls_chacha20_update`
the bytes at `output[0 .. len)` after the call, `mbedtls_poly1305_finish` the
content of `mac[0 .. 16)` after the call.  The `init` operations overwrite the
whole structure, so they are the state they leave. -/
structure Collaborators (CS PS : Type) where
  mbedtls_chacha20_init : CS
  mbedtls_chacha20_free : CS → CS
  mbedtls_chacha20_setkey : CS → List Byte → Int × CS
  mbedtls_chacha20_starts : CS → List Byte → Nat → Int × CS
  mbedtls_chacha20_keystream_block : CS → Nat → Int × List Byte
  mbedtls_chacha20_update : CS → List Byte → Int × CS × List Byte
  mbedtls_poly1305_init : PS
  mbedtls_poly1305_free : PS → PS
  mbedtls_poly1305_setkey : PS → List Byte → Int × PS
  mbedtls_poly1305_update : PS → List Byte → Int × PS
  mbedtls_poly1305_finish : PS → Int × PS × List Byte

/-! ## Data model -/

/-- The session, `mbedtls_aead_chacha20_poly1305_context`. -/
structure mbedtls_aead_chacha20_poly1305_context (CS PS : Type) where
  chacha20_ctx : CS
  poly1305_ctx : PS
  aad_len : Nat
  ciphertext_len : Nat
  state : Int
  mode : mbedtls_aead_chacha20_poly1305_mode_t

/-- What a session function leaves behind: its return value, the context, and
the bytes written through its out pointer (none on the error returns). -/
structure Ret (CS PS : Type) where
  result : Int
  ctx : Option (mbedtls_aead_chacha20_poly1305_context CS PS)
  out : List Byte

/-- What `mbedtls_aead_chacha20_poly1305_starts` leaves behind: its return
value, the context, and the content of its local array `poly1305_key`. -/
structure StartsRet (CS PS : Type) where
  result : Int
  ctx : Option (mbedtls_aead_chacha20_poly1305_context CS PS)
  poly1305_key : List Byte

/-- What `mbedtls_aead_chacha20_poly1305_crypt_and_mac` leaves behind: its
return value, the bytes written to `output` and to `mac`, and its local
context `ctx` as it is when the function returns. -/
structure CryptRet (CS PS : Type) where
  result : Int
  output : List Byte
  mac : List Byte
  ctx : Option (mbedtls_aead_chacha20_poly1305_context CS PS)

section Session

variable {CS PS : Type}

/-! ## Operations -/

/-- `mbedtls_zeroize( v, n )`: `while( n-- ) *p++ = 0`. -/
def mbedtls_zeroize : List Byte → Nat → List Byte
  | v, 0 => v
  | [], _ + 1 => []
  | _ :: v, n + 1 => 0 :: mbedtls_zeroize v n

/-- `mbedtls_aead_chacha20_poly1305_pad_aad`. -/
def mbedtls_aead_chacha20_poly1305_pad_aad (C : Collaborators CS PS)
    (ctx : mbedtls_aead_chacha20_poly1305_context CS PS) :
    mbedtls_aead_chacha20_poly1305_context CS PS :=
  let partial_block_len := (ctx.aad_len % 16) % 2 ^ 32
  if partial_block_len > 0 then
    let zeroes : List Byte := List.replicate 15 0
    { ctx with
      poly1305_ctx :=
        (C.mbedtls_poly1305_update ctx.poly1305_ctx
          (zeroes.take (16 - partial_block_len))).2 }
  else ctx

/-- `mbedtls_aead_chacha20_poly1305_pad_ciphertext`. -/
def mbedtls_aead_chacha20_poly1305_pad_ciphertext (C : Collaborators CS PS)
    (ctx : mbedtls_aead_chacha20_poly1305_context CS PS) :
    mbedtls_aead_chacha20_poly1305_context CS PS :=
  let partial_block_len := (ctx.ciphertext_len % 16) % 2 ^ 32
  if partial_block_len > 0 then
    let zeroes : List Byte := List.replicate 15 0
    { ctx with
      poly1305_ctx :=
        (C.mbedtls_poly1305_update ctx.poly1305_ctx
          (zeroes.take (16 - partial_block_len))).2 }
  else ctx

/-- `mbedtls_aead_chacha20_poly1305_init`. -/
def mbedtls_aead_chacha20_poly1305_init (C : Collaborators CS PS)
    (ctx : Option (mbedtls_aead_chacha20_poly1305_context CS PS)) :
    Option (mbedtls_aead_chacha20_poly1305_context CS PS) :=
  match ctx with
  | none => none
  | some _ =>
    some { chacha20_ctx := C.mbedtls_chacha20_init
           poly1305_ctx := C.mbedtls_poly1305_init
           aad_len := 0
           ciphertext_len := 0
           state := AEAD_CHACHA20_POLY1305_STATE_INIT
           mode := MBEDTLS_AEAD_CHACHA20_POLY1305_ENCRYPT }

/-- `mbedtls_aead_chacha20_poly1305_free`. -/
def mbedtls_aead_chacha20_poly1305_free (C : Collaborators CS PS)
    (ctx : Option (mbedtls_aead_chacha20_poly1305_context CS PS)) :
    Option (mbedtls_aead_chacha20_poly1305_context CS PS) :=
  match ctx with
  | none => none
  | some c =>
    some { chacha20_ctx := C.mbedtls_chacha20_free c.chacha20_ctx
           poly1305_ctx := C.mbedtls_poly1305_free c.poly1305_ctx
           aad_len := 0
           ciphertext_len := 0
           state := AEAD_CHACHA20_POLY1305_STATE_INIT
           mode := MBEDTLS_AEAD_CHACHA20_POLY1305_ENCRYPT }

/-- `mbedtls_aead_chacha20_poly1305_setkey`. -/
def mbedtls_aead_chacha20_poly1305_setkey (C : Collaborators CS PS)
    (ctx : Option (mbedtls_aead_chacha20_poly1305_context CS PS))
    (key : Option (List Byte)) : Ret CS PS :=
  match ctx, key with
  | some c, some k =>
    let r := C.mbedtls_chacha20_setkey c.chacha20_ctx k
    { result := r.1, ctx := some { c with chacha20_ctx := r.2 }, out := [] }
  | _, _ =>
    { result := MBEDTLS_ERR_AEAD_CHACHA20_POLY1305_BAD_INPUT_DATA, ctx := ctx, out := [] }

/-- `mbedtls_aead_chacha20_poly1305_starts`.  The last argument is the
indeterminate content the local array `poly1305_key[64]` has at entry. -/
def mbedtls_aead_chacha20_poly1305_starts (C : Collaborators CS PS)
    (ctx : Option (mbedtls_aead_chacha20_poly1305_context CS PS))
    (nonce : Option (List Byte)) (mode : mbedtls_aead_chacha20_poly1305_mode_t)
    (poly1305_key : List Byte) : StartsRet CS PS :=
  match ctx, nonce with
  | some c, some n =>
    let r1 := C.mbedtls_chacha20_starts c.chacha20_ctx n 1
    let c1 := { c with chacha20_ctx := r1.2 }
    if r1.1 ≠ 0 then
      { result := r1.1, ctx := some c1, poly1305_key := mbedtls_zeroize poly1305_key 64 }
    else
      let r2 := C.mbedtls_chacha20_keystream_block c1.chacha20_ctx 0
      if r2.1 ≠ 0 then
        { result := r2.1, ctx := some c1, poly1305_key := mbedtls_zeroize r2.2 64 }
      else
        let r3 := C.mbedtls_poly1305_setkey c1.poly1305_ctx (r2.2.take 32)
        let c2 := { c1 with poly1305_ctx := r3.2 }
        let c3 :=
          if r3.1 = 0 then
            { c2 with
              aad_len := 0
              ciphertext_len := 0
              state := AEAD_CHACHA20_POLY1305_STATE_AAD
              mode := mode }
          else c2
        { result := r3.1, ctx := some c3, poly1305_key := mbedtls_zeroize r2.2 64 }
  | _, _ =>
    { result := MBEDTLS_ERR_AEAD_CHACHA20_POLY1305_BAD_INPUT_DATA
      ctx := ctx
      poly1305_key := poly1305_key }

/-- `mbedtls_aead_chacha20_poly1305_update_aad`. -/
def mbedtls_aead_chacha20_poly1305_update_aad (C : Collaborators CS PS)
    (ctx : Option (mbedtls_aead_chacha20_poly1305_context CS PS))
    (aad : Option (List Byte)) : Ret CS PS :=
  match ctx, aad with
  | some c, some a =>
    if c.state ≠ AEAD_CHACHA20_POLY1305_STATE_AAD then
      { result := MBEDTLS_ERR_AEAD_CHACHA20_POLY1305_BAD_STATE, ctx := some c, out := [] }
    else
      let c1 := { c with aad_len := (c.aad_len + a.length) % 2 ^ 64 }
      let r := C.mbedtls_poly1305_update c1.poly1305_ctx a
      { result := r.1, ctx := some { c1 with poly1305_ctx := r.2 }, out := [] }
  | _, _ =>
    { result := MBEDTLS_ERR_AEAD_CHACHA20_POLY1305_BAD_INPUT_DATA, ctx := ctx, out := [] }

/-- `mbedtls_aead_chacha20_poly1305_update`. -/
def mbedtls_aead_chacha20_poly1305_update (C : Collaborators CS PS)
    (ctx : Option (mbedtls_aead_chacha20_poly1305_context CS PS))
    (input : Option (List Byte)) (output : Bool) : Ret CS PS :=
  match ctx, input, output with
  | some c, some inp, true =>
    if c.state ≠ AEAD_CHACHA20_POLY1305_STATE_AAD ∧
        c.state ≠ AEAD_CHACHA20_POLY1305_STATE_CIPHERTEXT then
      { result := MBEDTLS_ERR_AEAD_CHACHA20_POLY1305_BAD_STATE, ctx := some c, out := [] }
    else
      let c1 :=
        if c.state = AEAD_CHACHA20_POLY1305_STATE_AAD then
          mbedtls_aead_chacha20_poly1305_pad_aad C
            { c with state := AEAD_CHACHA20_POLY1305_STATE_CIPHERTEXT }
        else c
      let c2 := { c1 with ciphertext_len := (c1.ciphertext_len + inp.length) % 2 ^ 64 }
      if c2.mode = MBEDTLS_AEAD_CHACHA20_POLY1305_ENCRYPT then
        let rc := C.mbedtls_chacha20_update c2.chacha20_ctx inp
        let rp := C.mbedtls_poly1305_update c2.poly1305_ctx rc.2.2
        { result := 0
          ctx := some { c2 with chacha20_ctx := rc.2.1, poly1305_ctx := rp.2 }
          out := rc.2.2 }
      else
        let rp := C.mbedtls_poly1305_update c2.poly1305_ctx inp
        let rc := C.mbedtls_chacha20_update c2.chacha20_ctx inp
        { result := 0
          ctx := some { c2 with chacha20_ctx := rc.2.1, poly1305_ctx := rp.2 }
          out := rc.2.2 }
  | _, _, _ =>
    { result := MBEDTLS_ERR_AEAD_CHACHA20_POLY1305_BAD_INPUT_DATA, ctx := ctx, out := [] }

/-- The 16 bytes `len_block[0 .. 15]` that `mbedtls_aead_chacha20_poly1305_finish`
stores: each is the `(unsigned char)` cast of a shifted length. -/
def len_block (ctx : mbedtls_aead_chacha20_poly1305_context CS PS) : List Byte :=
  [ ctx.aad_len % 256,
    (ctx.aad_len >>> 8) % 256,
    (ctx.aad_len >>> 16) % 256,
    (ctx.aad_len >>> 24) % 256,
    (ctx.aad_len >>> 32) % 256,
    (ctx.aad_len >>> 40) % 256,
    (ctx.aad_len >>> 48) % 256,
    (ctx.aad_len >>> 56) % 256,
    ctx.ciphertext_len % 256,
    (ctx.ciphertext_len >>> 8) % 256,
    (ctx.ciphertext_len >>> 16) % 256,
    (ctx.ciphertext_len >>> 24) % 256,
    (ctx.ciphertext_len >>> 32) % 256,
    (ctx.ciphertext_len >>> 40) % 256,
    (ctx.ciphertext_len >>> 48) % 256,
    (ctx.ciphertext_len >>> 56) % 256 ]

/-- `mbedtls_aead_chacha20_poly1305_finish`. -/
def mbedtls_aead_chacha20_poly1305_finish (C : Collaborators CS PS)
    (ctx : Option (mbedtls_aead_chacha20_poly1305_context CS PS))
    (mac : Bool) : Ret CS PS :=
  match ctx, mac with
  | some c, true =>
    if c.state = AEAD_CHACHA20_POLY1305_STATE_INIT then
      { result := MBEDTLS_ERR_AEAD_CHACHA20_POLY1305_BAD_STATE, ctx := some c, out := [] }
    else
      let c1 :=
        if c.state = AEAD_CHACHA20_POLY1305_STATE_AAD then
          mbedtls_aead_chacha20_poly1305_pad_aad C c
        else if c.state = AEAD_CHACHA20_POLY1305_STATE_CIPHERTEXT then
          mbedtls_aead_chacha20_poly1305_pad_ciphertext C c
        else c
      let c2 := { c1 with state := AEAD_CHACHA20_POLY1305_STATE_FINISHED }
      let ru := C.mbedtls_poly1305_update c2.poly1305_ctx ((len_block c2).take 16)
      let rf := C.mbedtls_poly1305_finish ru.2
      { result := 0, ctx := some { c2 with poly1305_ctx := rf.2.1 }, out := rf.2.2 }
  | _, _ =>
    { result := MBEDTLS_ERR_AEAD_CHACHA20_POLY1305_BAD_INPUT_DATA, ctx := ctx, out := [] }

/-- `mbedtls_aead_chacha20_poly1305_crypt_and_mac`.  The last two arguments
are the indeterminate contents that the local `ctx` and the local array
`poly1305_key` of `starts` have at entry. -/
def mbedtls_aead_chacha20_poly1305_crypt_and_mac (C : Collaborators CS PS)
    (key nonce : Option (List Byte)) (mode : mbedtls_aead_chacha20_poly1305_mode_t)
    (aad input : Option (List Byte)) (output mac : Bool)
    (ctx0 : mbedtls_aead_chacha20_poly1305_context CS PS)
    (poly1305_key : List Byte) : CryptRet CS PS :=
  let ctx := mbedtls_aead_chacha20_poly1305_init C (some ctx0)
  let r1 := mbedtls_aead_chacha20_poly1305_setkey C ctx key
  if r1.result ≠ 0 then
    { result := r1.result, output := [], mac := []
      ctx := mbedtls_aead_chacha20_poly1305_free C r1.ctx }
  else
    let r2 := mbedtls_aead_chacha20_poly1305_starts C r1.ctx nonce mode poly1305_key
    if r2.result ≠ 0 then
      { result := r2.result, output := [], mac := []
        ctx := mbedtls_aead_chacha20_poly1305_free C r2.ctx }
    else
      let r3 := mbedtls_aead_chacha20_poly1305_update_aad C r2.ctx aad
      if r3.result ≠ 0 then
        { result := r3.result, output := [], mac := []
          ctx := mbedtls_aead_chacha20_poly1305_free C r3.ctx }
      else
        let r4 := mbedtls_aead_chacha20_poly1305_update C r3.ctx input output
        if r4.result ≠ 0 then
          { result := r4.result, output := r4.out, mac := []
            ctx := mbedtls_aead_chacha20_poly1305_free C r4.ctx }
        else
          let r5 := mbedtls_aead_chacha20_poly1305_finish C r4.ctx mac
          { result := r5.result, output := r4.out, mac := r5.out
            ctx := mbedtls_aead_chacha20_poly1305_free C r5.ctx }

/-! ## Drivers and reference notions used to state the properties -/

/-- Driving `mbedtls_aead_chacha20_poly1305_update` with a sequence of chunks,
one call per chunk with present buffers: the context after the last call and
the concatenation of the outputs; `result` is the first nonzero return value,
0 if there is none. -/
def update_chunks (C : Collaborators CS PS)
    (ctx : Option (mbedtls_aead_chacha20_poly1305_context CS PS)) :
    List (List Byte) → Ret CS PS
  | [] => { result := 0, ctx := ctx, out := [] }
  | ch :: rest =>
    let r := mbedtls_aead_chacha20_poly1305_update C ctx (some ch) true
    let r' := update_chunks C r.ctx rest
    { result := if r.result ≠ 0 then r.result else r'.result
      ctx := r'.ctx
      out := r.out ++ r'.out }

/-- Zero bytes that bring a stream of `n` bytes to a multiple of 16. -/
def pad16 (n : Nat) : List Byte := List.replicate ((16 - n % 16) % 16) 0

/-- The authenticator state that the padding rule leaves for a stream of `n`
bytes absorbed into `ps`: the zero padding is absorbed when `n` is not a
multiple of 16, nothing is absorbed otherwise. -/
def absorb_pad (C : Collaborators CS PS) (ps : PS) (n : Nat) : PS :=
  if n % 16 = 0 then ps else (C.mbedtls_poly1305_update ps (pad16 n)).2

/-- The 64-bit little-endian encoding of `n`: byte `i` is `(n >> 8i) mod 256`. -/
def le64 (n : Nat) : List Byte := (List.range 8).map fun i => (n >>> (8 * i)) % 256

/-- Little-endian decoding of a byte string. -/
def le_decode : List Byte → Nat
  | [] => 0
  | b :: bs => b + 256 * le_decode bs

/-- The byte stream of RFC 7539 section 2.8 for associated data `A` and
ciphertext `Ct`: `A || pad || Ct || pad || le64(len A) || le64(len Ct)`. -/
def mac_data (A Ct : List Byte) : List Byte :=
  A ++ pad16 A.length ++ Ct ++ pad16 Ct.length ++ le64 A.length ++ le64 Ct.length

/-- The cipher state of a fresh session after `setkey` with `key` and `starts`
with `nonce` (block counter 1). -/
def keyed_cipher (C : Collaborators CS PS) (key nonce : List Byte) : CS :=
  (C.mbedtls_chacha20_starts (C.mbedtls_chacha20_setkey C.mbedtls_chacha20_init key).2 nonce 1).2

/-- The one-time authenticator key: the first 32 bytes of keystream block 0 of
the cipher state `cs`. -/
def one_time_key (C : Collaborators CS PS) (cs : CS) : List Byte :=
  (C.mbedtls_chacha20_keystream_block cs 0).2.take 32

/-- The tag an authenticator in state `ps` gives when it is keyed with `otk`,
absorbs `stream` in one piece and is finalised. -/
def authenticate (C : Collaborators CS PS) (ps : PS) (otk stream : List Byte) : List Byte :=
  (C.mbedtls_poly1305_finish
    (C.mbedtls_poly1305_update (C.mbedtls_poly1305_setkey ps otk).2 stream).2).2.2

/-- The authenticator state of a fresh session after `setkey` with `key` and
`starts` with `nonce`. -/
def keyed_authenticator (C : Collaborators CS PS) (key nonce : List Byte) : PS :=
  (C.mbedtls_poly1305_setkey C.mbedtls_poly1305_init
    (one_time_key C (keyed_cipher C key nonce))).2

/-- The bytes the authenticator is given in `update`: the output when
encrypting, the input when decrypting. -/
def authenticated_text (mode : mbedtls_aead_chacha20_poly1305_mode_t)
    (input output : List Byte) : List Byte :=
  if mode = MBEDTLS_AEAD_CHACHA20_POLY1305_ENCRYPT then output else input

/-- The sequence of authenticator calls of a whole message, call by call, from
the state `ps`: absorb `aad`, apply the padding rule, absorb `text`, apply the
padding rule, absorb the length block. -/
def absorb_message (C : Collaborators CS PS) (ps : PS) (aad text : List Byte)
    (text_len : Nat) : PS :=
  (C.mbedtls_poly1305_update
    (absorb_pad C
      (C.mbedtls_poly1305_update
        (absorb_pad C (C.mbedtls_poly1305_update ps aad).2 aad.length) text).2
      text_len)
    (le64 aad.length ++ le64 text_len)).2

/-- The authenticator state in `finish` when the length block is about to be
absorbed: the one the padding branch taken for the state of `ctx` leaves. -/
def authenticator_after_padding (C : Collaborators CS PS)
    (ctx : mbedtls_aead_chacha20_poly1305_context CS PS) : PS :=
  if ctx.state = AEAD_CHACHA20_POLY1305_STATE_AAD then
    (mbedtls_aead_chacha20_poly1305_pad_aad C ctx).poly1305_ctx
  else if ctx.state = AEAD_CHACHA20_POLY1305_STATE_CIPHERTEXT then
    (mbedtls_aead_chacha20_poly1305_pad_ciphertext C ctx).poly1305_ctx
  else ctx.poly1305_ctx

/-- The five steps of `mbedtls_aead_chacha20_poly1305_crypt_and_mac`, each on
the context its predecessor left: `setkey` on the initialised local context. -/
def one_shot_setkey (C : Collaborators CS PS) (key : Option (List Byte))
    (ctx0 : mbedtls_aead_chacha20_poly1305_context CS PS) : Ret CS PS :=
  mbedtls_aead_chacha20_poly1305_setkey C (mbedtls_aead_chacha20_poly1305_init C (some ctx0)) key

/-- Second step of the one-shot function: `starts`. -/
def one_shot_starts (C : Collaborators CS PS) (key nonce : Option (List Byte))
    (mode : mbedtls_aead_chacha20_poly1305_mode_t)
    (ctx0 : mbedtls_aead_chacha20_poly1305_context CS PS)
    (poly1305_key : List Byte) : StartsRet CS PS :=
  mbedtls_aead_chacha20_poly1305_starts C (one_shot_setkey C key ctx0).ctx nonce mode poly1305_key

/-- Third step of the one-shot function: `update_aad`. -/
def one_shot_update_aad (C : Collaborators CS PS) (key nonce : Option (List Byte))
    (mode : mbedtls_aead_chacha20_poly1305_mode_t) (aad : Option (List Byte))
    (ctx0 : mbedtls_aead_chacha20_poly1305_context CS PS)
    (poly1305_key : List Byte) : Ret CS PS :=
  mbedtls_aead_chacha20_poly1305_update_aad C
    (one_shot_starts C key nonce mode ctx0 poly1305_key).ctx aad

/-- Fourth step of the one-shot function: `update`. -/
def one_shot_update (C : Collaborators CS PS) (key nonce : Option (List Byte))
    (mode : mbedtls_aead_chacha20_poly1305_mode_t) (aad input : Option (List Byte))
    (output : Bool) (ctx0 : mbedtls_aead_chacha20_poly1305_context CS PS)
    (poly1305_key : List Byte) : Ret CS PS :=
  mbedtls_aead_chacha20_poly1305_update C
    (one_shot_update_aad C key nonce mode aad ctx0 poly1305_key).ctx input output

/-- Fifth step of the one-shot function: `finish`. -/
def one_shot_finish (C : Collaborators CS PS) (key nonce : Option (List Byte))
    (mode : mbedtls_aead_chacha20_poly1305_mode_t) (aad input : Option (List Byte))
    (output mac : Bool) (ctx0 : mbedtls_aead_chacha20_poly1305_context CS PS)
    (poly1305_key : List Byte) : Ret CS PS :=
  mbedtls_aead_chacha20_poly1305_finish C
    (one_shot_update C key nonce mode aad input output ctx0 poly1305_key).ctx mac

/-- The values of the `state` field: the four phases of the session. -/
def valid_state (s : Int) : Prop :=
  s = AEAD_CHACHA20_POLY1305_STATE_INIT ∨ s = AEAD_CHACHA20_POLY1305_STATE_AAD ∨
    s = AEAD_CHACHA20_POLY1305_STATE_CIPHERTEXT ∨ s = AEAD_CHACHA20_POLY1305_STATE_FINISHED

/-- A call of one of the four session functions that a message is driven with
after `starts`, with its arguments. -/
inductive SessionCall
  | set_key (key : Option (List Byte))
  | absorb_aad (aad : Option (List Byte))
  | process (input : Option (List Byte)) (output : Bool)
  | finish (mac : Bool)

/-- One call on the session: `setkey`, `update_aad`, `update` or `finish`. -/
def session_call (C : Collaborators CS PS)
    (ctx : Option (mbedtls_aead_chacha20_poly1305_context CS PS)) : SessionCall → Ret CS PS
  | SessionCall.set_key key => mbedtls_aead_chacha20_poly1305_setkey C ctx key
  | SessionCall.absorb_aad aad => mbedtls_aead_chacha20_poly1305_update_aad C ctx aad
  | SessionCall.process input output => mbedtls_aead_chacha20_poly1305_update C ctx input output
  | SessionCall.finish mac => mbedtls_aead_chacha20_poly1305_finish C ctx mac

/-- A sequence of calls on the session, whatever each returns: the context
after the last one. -/
def session_calls (C : Collaborators CS PS)
    (ctx : Option (mbedtls_aead_chacha20_poly1305_context CS PS)) :
    List SessionCall → Option (mbedtls_aead_chacha20_poly1305_context CS PS)
  | [] => ctx
  | k :: ks => session_calls C (session_call C ctx k).ctx ks

/-- The lengths of the `update_aad` calls of a sequence, added up. -/
def aad_bytes : List SessionCall → Nat
  | [] => 0
  | SessionCall.absorb_aad (some a) :: ks => a.length + aad_bytes ks
  | _ :: ks => aad_bytes ks

/-- The lengths of the `update` calls of a sequence, added up. -/
def text_bytes : List SessionCall → Nat
  | [] => 0
  | SessionCall.process (some i) _ :: ks => i.length + text_bytes ks
  | _ :: ks => text_bytes ks

/-- Driving `mbedtls_aead_chacha20_poly1305_update_aad` with a sequence of
chunks, one call per chunk: the context after the last call. -/
def update_aad_chunks (C : Collaborators CS PS)
    (ctx : Option (mbedtls_aead_chacha20_poly1305_context CS PS)) :
    List (List Byte) → Option (mbedtls_aead_chacha20_poly1305_context CS PS)
  | [] => ctx
  | a :: rest =>
    update_aad_chunks C (mbedtls_aead_chacha20_poly1305_update_aad C ctx (some a)).ctx rest

/-- The authenticator state after a sequence of `mbedtls_poly1305_update`
calls, one per element of `chunks`, from the state `ps`. -/
def absorb_all (C : Collaborators CS PS) (ps : PS) (chunks : List (List Byte)) : PS :=
  chunks.foldl (fun s x => (C.mbedtls_poly1305_update s x).2) ps

/-- The authenticator calls of the padding rule for a stream of `n` bytes: one
call with `16 - n mod 16` zero bytes when `n` is not a multiple of 16, no call
otherwise. -/
def pad_chunk (n : Nat) : List (List Byte) :=
  if n % 16 = 0 then [] else [List.replicate (16 - n % 16) 0]

/-- What the authenticator is given by a sequence of `update` calls on the
chunks `texts`, from the cipher state `cs`: for each chunk the output when
encrypting, the chunk itself when decrypting. -/
def authenticated_chunks (C : Collaborators CS PS)
    (mode : mbedtls_aead_chacha20_poly1305_mode_t) : CS → List (List Byte) → List (List Byte)
  | _, [] => []
  | cs, t :: ts =>
    authenticated_text mode t (C.mbedtls_chacha20_update cs t).2.2 ::
      authenticated_chunks C mode (C.mbedtls_chacha20_update cs t).2.1 ts

/-- The lengths of a list of chunks, added up. -/
def total_length (chunks : List (List Byte)) : Nat := chunks.flatten.length

/-- The collaborators `C` with the authenticator replaced by a recorder, to
observe the byte stream that a session gives to its authenticator.  The state
of the recorder is the list of the bytes it was given since it was keyed:
`mbedtls_poly1305_setkey` empties the list, `mbedtls_poly1305_update` appends
its argument to it, `mbedtls_poly1305_finish` returns the list in place of a
tag.  Every call of the recorder succeeds; the cipher is that of `C`. -/
def recording (C : Collaborators CS PS) : Collaborators CS (List Byte) where
  mbedtls_chacha20_init := C.mbedtls_chacha20_init
  mbedtls_chacha20_free := C.mbedtls_chacha20_free
  mbedtls_chacha20_setkey := C.mbedtls_chacha20_setkey
  mbedtls_chacha20_starts := C.mbedtls_chacha20_starts
  mbedtls_chacha20_keystream_block := C.mbedtls_chacha20_keystream_block
  mbedtls_chacha20_update := C.mbedtls_chacha20_update
  mbedtls_poly1305_init := []
  mbedtls_poly1305_free := fun _ => []
  mbedtls_poly1305_setkey := fun _ _ => (0, [])
  mbedtls_poly1305_update := fun s x => (0, s ++ x)
  mbedtls_poly1305_finish := fun s => (0, s, s)

/-! ## Contracts of the collaborators, used as hypotheses -/

/-- The collaborator calls whose result code the session does not discard
succeed on the given key, nonce and associated data, in a fresh session. -/
def CollaboratorsSucceed (C : Collaborators CS PS) (key nonce aad : List Byte) : Prop :=
  (C.mbedtls_chacha20_setkey C.mbedtls_chacha20_init key).1 = 0 ∧
  (C.mbedtls_chacha20_starts (C.mbedtls_chacha20_setkey C.mbedtls_chacha20_init key).2
      nonce 1).1 = 0 ∧
  (C.mbedtls_chacha20_keystream_block (keyed_cipher C key nonce) 0).1 = 0 ∧
  (C.mbedtls_poly1305_setkey C.mbedtls_poly1305_init
      (one_time_key C (keyed_cipher C key nonce))).1 = 0 ∧
  (C.mbedtls_poly1305_update
      (C.mbedtls_poly1305_setkey C.mbedtls_poly1305_init
        (one_time_key C (keyed_cipher C key nonce))).2 aad).1 = 0

/-- The collaborator calls whose result code the session does not discard
succeed whatever their arguments. -/
def CollaboratorsNeverFail (C : Collaborators CS PS) : Prop :=
  (∀ s key, (C.mbedtls_chacha20_setkey s key).1 = 0) ∧
  (∀ s nonce counter, (C.mbedtls_chacha20_starts s nonce counter).1 = 0) ∧
  (∀ s counter, (C.mbedtls_chacha20_keystream_block s counter).1 = 0) ∧
  (∀ s key, (C.mbedtls_poly1305_setkey s key).1 = 0) ∧
  (∀ s input, (C.mbedtls_poly1305_update s input).1 = 0)

/-- The authenticator's absorb is streaming: absorbing `a` then `b` leaves the
state that absorbing `a ++ b` leaves. -/
def AbsorbStreaming (C : Collaborators CS PS) : Prop :=
  ∀ (s : PS) (a b : List Byte),
    (C.mbedtls_poly1305_update (C.mbedtls_poly1305_update s a).2 b).2 =
      (C.mbedtls_poly1305_update s (a ++ b)).2

/-- The cipher transform is streaming: transforming `a` then `b` leaves the
state, and writes the bytes, that transforming `a ++ b` does. -/
def TransformStreaming (C : Collaborators CS PS) : Prop :=
  ∀ (s : CS) (a b : List Byte),
    (C.mbedtls_chacha20_update (C.mbedtls_chacha20_update s a).2.1 b).2.1 =
        (C.mbedtls_chacha20_update s (a ++ b)).2.1 ∧
    (C.mbedtls_chacha20_update s a).2.2 ++
        (C.mbedtls_chacha20_update (C.mbedtls_chacha20_update s a).2.1 b).2.2 =
      (C.mbedtls_chacha20_update s (a ++ b)).2.2

/-- The cipher transform writes as many bytes as it reads. -/
def TransformKeepsLength (C : Collaborators CS PS) : Prop :=
  ∀ (s : CS) (a : List Byte), (C.mbedtls_chacha20_update s a).2.2.length = a.length

/-- The cipher transform is XOR with a keystream that the cipher state
determines: `keystream s n` is the next `n` keystream bytes in state `s`. -/
def TransformIsXor (C : Collaborators CS PS) (keystream : CS → Nat → List Byte) : Prop :=
  ∀ (s : CS) (a : List Byte),
    (keystream s a.length).length = a.length ∧
    (C.mbedtls_chacha20_update s a).2.2 = List.zipWith (· ^^^ ·) a (keystream s a.length)

/-! ## A concrete instance of the collaborators -/

/-- Modelled from the spec: part of the Stream Cipher Engine (ChaCha20 of
RFC 7539, absent from the sources): rotation of a 32-bit word to the left by
`n` bits. -/
def rotl32 (x n : Nat) : Nat := ((x <<< n) ||| (x >>> (32 - n))) % 2 ^ 32

/-- Modelled from the spec: part of the Stream Cipher Engine (ChaCha20 of
RFC 7539, absent from the sources): addition of 32-bit words. -/
def add32 (x y : Nat) : Nat := (x + y) % 2 ^ 32

/-- Modelled from the spec: part of the Stream Cipher Engine (absent from the
sources): the ChaCha quarter round of RFC 7539 section 2.1. -/
def quarter_round : Nat × Nat × Nat × Nat → Nat × Nat × Nat × Nat
  | (a, b, c, d) =>
    let a := add32 a b
    let d := rotl32 (d ^^^ a) 16
    let c := add32 c d
    let b := rotl32 (b ^^^ c) 12
    let a := add32 a b
    let d := rotl32 (d ^^^ a) 8
    let c := add32 c d
    let b := rotl32 (b ^^^ c) 7
    (a, b, c, d)

/-- Modelled from the spec: part of the Stream Cipher Engine (absent from the
sources): a column round followed by a diagonal round on the 16-word state,
RFC 7539 section 2.3. -/
def double_round : List Nat → List Nat
  | [x0, x1, x2, x3, x4, x5, x6, x7, x8, x9, x10, x11, x12, x13, x14, x15] =>
    match quarter_round (x0, x4, x8, x12), quarter_round (x1, x5, x9, x13),
          quarter_round (x2, x6, x10, x14), quarter_round (x3, x7, x11, x15) with
    | (x0, x4, x8, x12), (x1, x5, x9, x13), (x2, x6, x10, x14), (x3, x7, x11, x15) =>
      match quarter_round (x0, x5, x10, x15), quarter_round (x1, x6, x11, x12),
            quarter_round (x2, x7, x8, x13), quarter_round (x3, x4, x9, x14) with
      | (x0, x5, x10, x15), (x1, x6, x11, x12), (x2, x7, x8, x13), (x3, x4, x9, x14) =>
        [x0, x1, x2, x3, x4, x5, x6, x7, x8, x9, x10, x11, x12, x13, x14, x15]
  | s => s

/-- Modelled from the spec: part of the Stream Cipher Engine (absent from the
sources): the first `n` little-endian 32-bit words of a byte string. -/
def words : Nat → List Byte → List Nat
  | 0, _ => []
  | n + 1, bs => le_decode (bs.take 4) :: words n (bs.drop 4)

/-- Modelled from the spec: part of the Stream Cipher Engine (absent from the
sources): the four bytes of a 32-bit word, little-endian. -/
def word_bytes (w : Nat) : List Byte :=
  [w % 256, (w >>> 8) % 256, (w >>> 16) % 256, (w >>> 24) % 256]

/-- Modelled from the spec: part of the Stream Cipher Engine (absent from the
sources): the ChaCha20 block function of RFC 7539 section 2.3, which gives 64
keystream bytes. -/
def chacha20_block (key nonce : List Byte) (counter : Nat) : List Byte :=
  let init := [0x61707865, 0x3320646e, 0x79622d32, 0x6b206574] ++ words 8 key ++
    [counter % 2 ^ 32] ++ words 3 nonce
  let fin := Nat.iterate double_round 10 init
  (List.zipWith add32 fin init).flatMap word_bytes

/-- Modelled from the spec: the state of the Stream Cipher Engine (the ChaCha20
module, absent from the sources): key, nonce, initial block counter, and the
number of keystream bytes consumed since `starts`. -/
structure chacha20_context where
  key : List Byte
  nonce : List Byte
  counter : Nat
  used : Nat
  deriving DecidableEq, Repr

/-- Modelled from the spec: part of the Stream Cipher Engine (absent from the
sources): keystream byte number `p` of the stream that starts at block
`counter`. -/
def keystream_byte (key nonce : List Byte) (counter p : Nat) : Byte :=
  (chacha20_block key nonce (counter + p / 64)).getD (p % 64) 0

/-- Modelled from the spec: part of the Stream Cipher Engine (absent from the
sources): the `n` keystream bytes that follow the ones already consumed. -/
def chacha20_keystream (s : chacha20_context) (n : Nat) : List Byte :=
  (List.range' s.used n).map (keystream_byte s.key s.nonce s.counter)

/-- Modelled from the spec: part of the One-Time Authenticator (Poly1305 of
RFC 7539, absent from the sources): the block loop of RFC 7539 section 2.5;
`fuel` bounds the number of 16-byte blocks. -/
def poly1305_blocks (r : Nat) : Nat → Nat → List Byte → Nat
  | 0, acc, _ => acc
  | fuel + 1, acc, msg =>
    if msg = [] then acc
    else
      let blk := msg.take 16
      let n := le_decode blk + 2 ^ (8 * blk.length)
      poly1305_blocks r fuel (((acc + n) * r) % (2 ^ 130 - 5)) (msg.drop 16)

/-- Modelled from the spec: part of the One-Time Authenticator (absent from the
sources): the Poly1305 tag of RFC 7539 section 2.5 of `msg` under the 32-byte
`key`. -/
def poly1305_mac (key msg : List Byte) : List Byte :=
  let r := le_decode (key.take 16) &&& 0x0ffffffc0ffffffc0ffffffc0fffffff
  let s := le_decode ((key.drop 16).take 16)
  let acc := poly1305_blocks r msg.length 0 msg
  (List.range 16).map fun i => (((acc + s) % 2 ^ 128) >>> (8 * i)) % 256

/-- Modelled from the spec: the state of the One-Time Authenticator (the
Poly1305 module, absent from the sources): the one-time key and the bytes
absorbed since it was set. -/
structure poly1305_context where
  key : List Byte
  absorbed : List Byte
  deriving DecidableEq, Repr

/-- Modelled from the spec: the Stream Cipher Engine and the One-Time
Authenticator of section 6 of the spec, which are ChaCha20 and Poly1305 of
RFC 7539; their code is absent from the sources.  Every operation succeeds. -/
def rfc7539 : Collaborators chacha20_context poly1305_context where
  mbedtls_chacha20_init := { key := [], nonce := [], counter := 0, used := 0 }
  mbedtls_chacha20_free := fun _ => { key := [], nonce := [], counter := 0, used := 0 }
  mbedtls_chacha20_setkey := fun s key => (0, { s with key := key })
  mbedtls_chacha20_starts := fun s nonce counter =>
    (0, { s with nonce := nonce, counter := counter, used := 0 })
  mbedtls_chacha20_keystream_block := fun s counter =>
    (0, chacha20_block s.key s.nonce counter)
  mbedtls_chacha20_update := fun s input =>
    (0, { s with used := s.used + input.length },
      List.zipWith (· ^^^ ·) input (chacha20_keystream s input.length))
  mbedtls_poly1305_init := { key := [], absorbed := [] }
  mbedtls_poly1305_free := fun _ => { key := [], absorbed := [] }
  mbedtls_poly1305_setkey := fun _ key => (0, { key := key, absorbed := [] })
  mbedtls_poly1305_update := fun s input => (0, { s with absorbed := s.absorbed ++ input })
  mbedtls_poly1305_finish := fun s => (0, s, poly1305_mac s.key s.absorbed)

/-- Modelled from the spec: collaborators that compute what `rfc7539`
computes but report the given result codes from the cipher's `starts`, the
keystream-block derivation, the authenticator's `setkey` and its `update` (the
modules are absent from the sources, and an alternative implementation may
fail). -/
def rfc7539_failing (e_starts e_block e_setkey e_update : Int) :
    Collaborators chacha20_context poly1305_context :=
  { rfc7539 with
    mbedtls_chacha20_starts := fun s nonce counter =>
      (e_starts, (rfc7539.mbedtls_chacha20_starts s nonce counter).2)
    mbedtls_chacha20_keystream_block := fun s counter =>
      (e_block, (rfc7539.mbedtls_chacha20_keystream_block s counter).2)
    mbedtls_poly1305_setkey := fun s key =>
      (e_setkey, (rfc7539.mbedtls_poly1305_setkey s key).2)
    mbedtls_poly1305_update := fun s input =>
      (e_update, (rfc7539.mbedtls_poly1305_update s input).2) }

/-- Modelled from the spec: the collaborators of RFC 7539 with a keystream-block
derivation that reports the error code -1 (the modules are absent from the
sources). -/
def keystream_failing : Collaborators chacha20_context poly1305_context :=
  rfc7539_failing 0 (-1) 0 0

/-- The array `test_key[0]` of the self-test. -/
def test_key : List Byte :=
  [ 0x80, 0x81, 0x82, 0x83, 0x84, 0x85, 0x86, 0x87,
    0x88, 0x89, 0x8a, 0x8b, 0x8c, 0x8d, 0x8e, 0x8f,
    0x90, 0x91, 0x92, 0x93, 0x94, 0x95, 0x96, 0x97,
    0x98, 0x99, 0x9a, 0x9b, 0x9c, 0x9d, 0x9e, 0x9f ]

/-- The array `test_nonce[0]` of the self-test. -/
def test_nonce : List Byte :=
  [ 0x07, 0x00, 0x00, 0x00,
    0x40, 0x41, 0x42, 0x43, 0x44, 0x45, 0x46, 0x47 ]

/-- The array `test_aad[0]` of the self-test (`test_aad_len[0]` is its length, 12). -/
def test_aad : List Byte :=
  [ 0x50, 0x51, 0x52, 0x53, 0xc0, 0xc1, 0xc2, 0xc3,
    0xc4, 0xc5, 0xc6, 0xc7 ]

/-- The array `test_input[0]` of the self-test (`test_input_len[0]` is its length, 114). -/
def test_input : List Byte :=
  [ 0x4c, 0x61, 0x64, 0x69, 0x65, 0x73, 0x20, 0x61,
    0x6e, 0x64, 0x20, 0x47, 0x65, 0x6e, 0x74, 0x6c,
    0x65, 0x6d, 0x65, 0x6e, 0x20, 0x6f, 0x66, 0x20,
    0x74, 0x68, 0x65, 0x20, 0x63, 0x6c, 0x61, 0x73,
    0x73, 0x20, 0x6f, 0x66, 0x20, 0x27, 0x39, 0x39,
    0x3a, 0x20, 0x49, 0x66, 0x20, 0x49, 0x20, 0x63,
    0x6f, 0x75, 0x6c, 0x64, 0x20, 0x6f, 0x66, 0x66,
    0x65, 0x72, 0x20, 0x79, 0x6f, 0x75, 0x20, 0x6f,
    0x6e, 0x6c, 0x79, 0x20, 0x6f, 0x6e, 0x65, 0x20,
    0x74, 0x69, 0x70, 0x20, 0x66, 0x6f, 0x72, 0x20,
    0x74, 0x68, 0x65, 0x20, 0x66, 0x75, 0x74, 0x75,
    0x72, 0x65, 0x2c, 0x20, 0x73, 0x75, 0x6e, 0x73,
    0x63, 0x72, 0x65, 0x65, 0x6e, 0x20, 0x77, 0x6f,
    0x75, 0x6c, 0x64, 0x20, 0x62, 0x65, 0x20, 0x69,
    0x74, 0x2e ]

/-- The array `test_output[0]` of the self-test. -/
def test_output : List Byte :=
  [ 0xd3, 0x1a, 0x8d, 0x34, 0x64, 0x8e, 0x60, 0xdb,
    0x7b, 0x86, 0xaf, 0xbc, 0x53, 0xef, 0x7e, 0xc2,
    0xa4, 0xad, 0xed, 0x51, 0x29, 0x6e, 0x08, 0xfe,
    0xa9, 0xe2, 0xb5, 0xa7, 0x36, 0xee, 0x62, 0xd6,
    0x3d, 0xbe, 0xa4, 0x5e, 0x8c, 0xa9, 0x67, 0x12,
    0x82, 0xfa, 0xfb, 0x69, 0xda, 0x92, 0x72, 0x8b,
    0x1a, 0x71, 0xde, 0x0a, 0x9e, 0x06, 0x0b, 0x29,
    0x05, 0xd6, 0xa5, 0xb6, 0x7e, 0xcd, 0x3b, 0x36,
    0x92, 0xdd, 0xbd, 0x7f, 0x2d, 0x77, 0x8b, 0x8c,
    0x98, 0x03, 0xae, 0xe3, 0x28, 0x09, 0x1b, 0x58,
    0xfa, 0xb3, 0x24, 0xe4, 0xfa, 0xd6, 0x75, 0x94,
    0x55, 0x85, 0x80, 0x8b, 0x48, 0x31, 0xd7, 0xbc,
    0x3f, 0xf4, 0xde, 0xf0, 0x8e, 0x4b, 0x7a, 0x9d,
    0xe5, 0x76, 0xd2, 0x65, 0x86, 0xce, 0xc6, 0x4b,
    0x61, 0x16 ]

/-- The array `test_mac[0]` of the self-test. -/
def test_mac : List Byte :=
  [ 0x1a, 0xe1, 0x0b, 0x59, 0x4f, 0x09, 0xe2, 0x6a,
    0x7e, 0x90, 0x2e, 0xcb, 0xd0, 0x60, 0x06, 0x91 ]

/-- A value standing for the content of the uninitialised array
`poly1305_key[64]`. -/
def junk_scratch : List Byte := List.replicate 64 0xaa

/-- Another value standing for the content of the uninitialised array
`poly1305_key[64]`. -/
def junk_scratch2 : List Byte := List.replicate 64 0x55

/-- A context value standing for the content of uninitialised storage. -/
def junk_context : mbedtls_aead_chacha20_poly1305_context chacha20_context poly1305_context :=
  { chacha20_ctx := { key := [1], nonce := [2], counter := 3, used := 4 }
    poly1305_ctx := { key := [5], absorbed := [6] }
    aad_len := 7
    ciphertext_len := 8
    state := AEAD_CHACHA20_POLY1305_STATE_FINISHED
    mode := MBEDTLS_AEAD_CHACHA20_POLY1305_DECRYPT }

/-- A context with arbitrary content whose authenticator is a recorder: the
uninitialised local `ctx` of a one-shot call observed with `recording`. -/
def junk_recording_context :
    mbedtls_aead_chacha20_poly1305_context chacha20_context (List Byte) :=
  { chacha20_ctx := { key := [1], nonce := [2], counter := 3, used := 4 }
    poly1305_ctx := [5, 6]
    aad_len := 7
    ciphertext_len := 8
    state := AEAD_CHACHA20_POLY1305_STATE_FINISHED
    mode := MBEDTLS_AEAD_CHACHA20_POLY1305_DECRYPT }

/-- The session of the self-test message after `setkey`, `starts` (ENCRYPT) and
`update_aad`, with the ChaCha20 and Poly1305 of RFC 7539. -/
def self_test_session :
    mbedtls_aead_chacha20_poly1305_context chacha20_context poly1305_context :=
  { chacha20_ctx := { key := test_key, nonce := test_nonce, counter := 1, used := 0 }
    poly1305_ctx := { key := (chacha20_block test_key test_nonce 0).take 32, absorbed := test_aad }
    aad_len := 12
    ciphertext_len := 0
    state := AEAD_CHACHA20_POLY1305_STATE_AAD
    mode := MBEDTLS_AEAD_CHACHA20_POLY1305_ENCRYPT }

/-- The self-test input cut into three chunks of 7, 64 and 43 bytes. -/
def test_chunks : List (List Byte) :=
  [test_input.take 7, (test_input.drop 7).take 64, test_input.drop 71]

/-- A session in STATE_CIPHERTEXT with the largest AAD counter and a ciphertext
counter whose eight bytes differ. -/
def trailer_session :
    mbedtls_aead_chacha20_poly1305_context chacha20_context poly1305_context :=
  { self_test_session with
    aad_len := 2 ^ 64 - 1
    ciphertext_len := 0x0102030405060708
    state := AEAD_CHACHA20_POLY1305_STATE_CIPHERTEXT }

/-- `mbedtls_aead_chacha20_poly1305_self_test` (its `verbose` argument only
controls printing): the one-shot call on the single test vector, then the two
`memcmp`.  The last two arguments are the indeterminate contents of the locals
of the one-shot function. -/
def mbedtls_aead_chacha20_poly1305_self_test (C : Collaborators CS PS)
    (ctx0 : mbedtls_aead_chacha20_poly1305_context CS PS) (poly1305_key : List Byte) : Int :=
  let r := mbedtls_aead_chacha20_poly1305_crypt_and_mac C (some test_key) (some test_nonce)
    MBEDTLS_AEAD_CHACHA20_POLY1305_ENCRYPT (some (test_aad.take 12)) (some (test_input.take 114))
    true true ctx0 poly1305_key
  if r.result ≠ 0 then -1
  else if r.output.take 114 ≠ test_output.take 114 then -1
  else if r.mac.take 16 ≠ test_mac.take 16 then -1
  else 0

/-- The session of the self-test message after `setkey` and `starts` (ENCRYPT),
with the ChaCha20 and Poly1305 of RFC 7539. -/
def started_session :
    mbedtls_aead_chacha20_poly1305_context chacha20_context poly1305_context :=
  { chacha20_ctx := { key := test_key, nonce := test_nonce, counter := 1, used := 0 }
    poly1305_ctx := { key := (chacha20_block test_key test_nonce 0).take 32, absorbed := [] }
    aad_len := 0
    ciphertext_len := 0
    state := AEAD_CHACHA20_POLY1305_STATE_AAD
    mode := MBEDTLS_AEAD_CHACHA20_POLY1305_ENCRYPT }

/-- The self-test associated data cut into two chunks of 5 and 7 bytes. -/
def test_aad_chunks : List (List Byte) := [test_aad.take 5, test_aad.drop 5]

/-- Calls on the self-test session: more associated data, then the first seven
bytes of the input. -/
def test_calls_before : List SessionCall :=
  [SessionCall.absorb_aad (some test_aad), SessionCall.process (some (test_input.take 7)) true]

/-- Further calls on the self-test session: a key change, the rest of the
input, associated data (rejected), an absent buffer (rejected), `finish`. -/
def test_calls_after : List SessionCall :=
  [SessionCall.set_key (some test_key), SessionCall.process (some (test_input.drop 7)) true,
    SessionCall.absorb_aad (some test_aad), SessionCall.process none true,
    SessionCall.finish true]

/-- The one-shot call of `mbedtls_aead_chacha20_poly1305_self_test`. -/
def self_test_call : CryptRet chacha20_context poly1305_context :=
  mbedtls_aead_chacha20_poly1305_crypt_and_mac rfc7539 (some test_key) (some test_nonce)
    MBEDTLS_AEAD_CHACHA20_POLY1305_ENCRYPT (some test_aad) (some test_input) true true
    junk_context junk_scratch

/-! ## Basic facts -/

theorem bad_input_ne_zero : MBEDTLS_ERR_AEAD_CHACHA20_POLY1305_BAD_INPUT_DATA ≠ 0 := by
  decide

theorem bad_state_ne_zero : MBEDTLS_ERR_AEAD_CHACHA20_POLY1305_BAD_STATE ≠ 0 := by
  decide

theorem state_ciphertext_ne_aad :
    AEAD_CHACHA20_POLY1305_STATE_CIPHERTEXT ≠ AEAD_CHACHA20_POLY1305_STATE_AAD := by
  decide

theorem state_ciphertext_ne_init :
    AEAD_CHACHA20_POLY1305_STATE_CIPHERTEXT ≠ AEAD_CHACHA20_POLY1305_STATE_INIT := by
  decide

theorem state_aad_ne_init :
    AEAD_CHACHA20_POLY1305_STATE_AAD ≠ AEAD_CHACHA20_POLY1305_STATE_INIT := by
  decide

theorem take_zeroes (n : Nat) (h : 0 < n % 16 % 2 ^ 32) :
    List.take (16 - n % 16 % 2 ^ 32) (List.replicate 15 (0 : Byte)) = pad16 n := by
  have h16 : n % 16 < 16 := Nat.mod_lt _ (by norm_num)
  have hlt : n % 16 % 2 ^ 32 = n % 16 := Nat.mod_eq_of_lt (by omega)
  rw [hlt] at h ⊢
  unfold pad16
  rw [List.take_replicate]
  congr 1
  omega

theorem pad16_nil (n : Nat) (h : n % 16 = 0) : pad16 n = [] := by
  simp [pad16, h]

theorem pad16_mod (n : Nat) : pad16 (n % 2 ^ 64) = pad16 n := by
  unfold pad16
  have : n % 2 ^ 64 % 16 = n % 16 := Nat.mod_mod_of_dvd n (by norm_num)
  rw [this]

theorem absorb_pad_mod (C : Collaborators CS PS) (ps : PS) (n : Nat) :
    absorb_pad C ps (n % 2 ^ 64) = absorb_pad C ps n := by
  have : n % 2 ^ 64 % 16 = n % 16 := Nat.mod_mod_of_dvd n (by norm_num)
  unfold absorb_pad
  rw [pad16_mod, this]

theorem absorb_pad_mod_lit (C : Collaborators CS PS) (ps : PS) (n : Nat) :
    absorb_pad C ps (n % 18446744073709551616) = absorb_pad C ps n :=
  absorb_pad_mod C ps n

/-- The AAD padding helper only touches the authenticator, which absorbs the
zero padding when the AAD length is not a multiple of 16. -/
theorem pad_aad_eq (C : Collaborators CS PS)
    (c : mbedtls_aead_chacha20_poly1305_context CS PS) :
    mbedtls_aead_chacha20_poly1305_pad_aad C c =
      { c with poly1305_ctx := absorb_pad C c.poly1305_ctx c.aad_len } := by
  have h16 : c.aad_len % 16 < 16 := Nat.mod_lt _ (by norm_num)
  have hlt : c.aad_len % 16 % 2 ^ 32 = c.aad_len % 16 := Nat.mod_eq_of_lt (by omega)
  unfold mbedtls_aead_chacha20_poly1305_pad_aad absorb_pad
  by_cases h : c.aad_len % 16 = 0
  · simp [h]
  · have hp : 0 < c.aad_len % 16 % 2 ^ 32 := by omega
    have ht := take_zeroes c.aad_len hp
    simp only [gt_iff_lt, hp, if_true, h, if_false, ht]

/-- The ciphertext padding helper only touches the authenticator, which absorbs
the zero padding when the ciphertext length is not a multiple of 16. -/
theorem pad_ciphertext_eq (C : Collaborators CS PS)
    (c : mbedtls_aead_chacha20_poly1305_context CS PS) :
    mbedtls_aead_chacha20_poly1305_pad_ciphertext C c =
      { c with poly1305_ctx := absorb_pad C c.poly1305_ctx c.ciphertext_len } := by
  have h16 : c.ciphertext_len % 16 < 16 := Nat.mod_lt _ (by norm_num)
  have hlt : c.ciphertext_len % 16 % 2 ^ 32 = c.ciphertext_len % 16 :=
    Nat.mod_eq_of_lt (by omega)
  unfold mbedtls_aead_chacha20_poly1305_pad_ciphertext absorb_pad
  by_cases h : c.ciphertext_len % 16 = 0
  · simp [h]
  · have hp : 0 < c.ciphertext_len % 16 % 2 ^ 32 := by omega
    have ht := take_zeroes c.ciphertext_len hp
    simp only [gt_iff_lt, hp, if_true, h, if_false, ht]

/-- With a streaming authenticator, applying the padding rule and then
absorbing `x` is absorbing the zero padding followed by `x`. -/
theorem pad_then_absorb (C : Collaborators CS PS) (hS : AbsorbStreaming C)
    (ps : PS) (n : Nat) (x : List Byte) :
    (C.mbedtls_poly1305_update (absorb_pad C ps n) x).2 =
      (C.mbedtls_poly1305_update ps (pad16 n ++ x)).2 := by
  unfold absorb_pad
  by_cases h : n % 16 = 0
  · simp [h, pad16_nil]
  · simp only [h, if_false]
    rw [hS]

theorem len_block_eq (c : mbedtls_aead_chacha20_poly1305_context CS PS) :
    (len_block c).take 16 = le64 c.aad_len ++ le64 c.ciphertext_len := by
  simp [len_block, le64, List.range, List.range.loop]

/-! ## Normal forms of the session operations -/

/-- What `update_aad` does in STATE_AAD. -/
theorem update_aad_eq (C : Collaborators CS PS)
    (c : mbedtls_aead_chacha20_poly1305_context CS PS) (a : List Byte)
    (h : c.state = AEAD_CHACHA20_POLY1305_STATE_AAD) :
    mbedtls_aead_chacha20_poly1305_update_aad C (some c) (some a) =
      { result := (C.mbedtls_poly1305_update c.poly1305_ctx a).1
        ctx := some
          { c with
            aad_len := (c.aad_len + a.length) % 2 ^ 64
            poly1305_ctx := (C.mbedtls_poly1305_update c.poly1305_ctx a).2 }
        out := [] } := by
  simp [mbedtls_aead_chacha20_poly1305_update_aad, h]

/-- What `update` does in the states that accept it. -/
theorem update_eq (C : Collaborators CS PS)
    (c : mbedtls_aead_chacha20_poly1305_context CS PS) (inp : List Byte)
    (h : c.state = AEAD_CHACHA20_POLY1305_STATE_AAD ∨
      c.state = AEAD_CHACHA20_POLY1305_STATE_CIPHERTEXT) :
    mbedtls_aead_chacha20_poly1305_update C (some c) (some inp) true =
      { result := 0
        ctx := some
          { chacha20_ctx := (C.mbedtls_chacha20_update c.chacha20_ctx inp).2.1
            poly1305_ctx :=
              (C.mbedtls_poly1305_update
                (if c.state = AEAD_CHACHA20_POLY1305_STATE_AAD then
                  absorb_pad C c.poly1305_ctx c.aad_len
                else c.poly1305_ctx)
                (if c.mode = MBEDTLS_AEAD_CHACHA20_POLY1305_ENCRYPT then
                  (C.mbedtls_chacha20_update c.chacha20_ctx inp).2.2
                else inp)).2
            aad_len := c.aad_len
            ciphertext_len := (c.ciphertext_len + inp.length) % 2 ^ 64
            state := AEAD_CHACHA20_POLY1305_STATE_CIPHERTEXT
            mode := c.mode }
        out := (C.mbedtls_chacha20_update c.chacha20_ctx inp).2.2 } := by
  have h12 : AEAD_CHACHA20_POLY1305_STATE_CIPHERTEXT ≠ AEAD_CHACHA20_POLY1305_STATE_AAD := by
    decide
  simp only [mbedtls_aead_chacha20_poly1305_update, pad_aad_eq]
  rcases h with h | h
  · by_cases hm : c.mode = MBEDTLS_AEAD_CHACHA20_POLY1305_ENCRYPT <;> simp [h, hm]
  · by_cases hm : c.mode = MBEDTLS_AEAD_CHACHA20_POLY1305_ENCRYPT <;> simp [h, hm, h12]

/-- What `update` does in the other states. -/
theorem update_bad_state (C : Collaborators CS PS)
    (c : mbedtls_aead_chacha20_poly1305_context CS PS) (inp : List Byte)
    (h : c.state ≠ AEAD_CHACHA20_POLY1305_STATE_AAD ∧
      c.state ≠ AEAD_CHACHA20_POLY1305_STATE_CIPHERTEXT) :
    mbedtls_aead_chacha20_poly1305_update C (some c) (some inp) true =
      { result := MBEDTLS_ERR_AEAD_CHACHA20_POLY1305_BAD_STATE, ctx := some c, out := [] } := by
  simp [mbedtls_aead_chacha20_poly1305_update, h]

/-- What `finish` does once `starts` has been called. -/
theorem finish_eq (C : Collaborators CS PS)
    (c : mbedtls_aead_chacha20_poly1305_context CS PS)
    (h : c.state ≠ AEAD_CHACHA20_POLY1305_STATE_INIT) :
    mbedtls_aead_chacha20_poly1305_finish C (some c) true =
      { result := 0
        ctx := some
          { chacha20_ctx := c.chacha20_ctx
            poly1305_ctx :=
              (C.mbedtls_poly1305_finish
                (C.mbedtls_poly1305_update
                  (if c.state = AEAD_CHACHA20_POLY1305_STATE_AAD then
                    absorb_pad C c.poly1305_ctx c.aad_len
                  else if c.state = AEAD_CHACHA20_POLY1305_STATE_CIPHERTEXT then
                    absorb_pad C c.poly1305_ctx c.ciphertext_len
                  else c.poly1305_ctx)
                  (le64 c.aad_len ++ le64 c.ciphertext_len)).2).2.1
            aad_len := c.aad_len
            ciphertext_len := c.ciphertext_len
            state := AEAD_CHACHA20_POLY1305_STATE_FINISHED
            mode := c.mode }
        out :=
          (C.mbedtls_poly1305_finish
            (C.mbedtls_poly1305_update
              (if c.state = AEAD_CHACHA20_POLY1305_STATE_AAD then
                absorb_pad C c.poly1305_ctx c.aad_len
              else if c.state = AEAD_CHACHA20_POLY1305_STATE_CIPHERTEXT then
                absorb_pad C c.poly1305_ctx c.ciphertext_len
              else c.poly1305_ctx)
              (le64 c.aad_len ++ le64 c.ciphertext_len)).2).2.2 } := by
  have h12 : AEAD_CHACHA20_POLY1305_STATE_CIPHERTEXT ≠ AEAD_CHACHA20_POLY1305_STATE_AAD := by
    decide
  simp only [mbedtls_aead_chacha20_poly1305_finish, pad_aad_eq, pad_ciphertext_eq, h, if_false,
    len_block_eq]
  by_cases h1 : c.state = AEAD_CHACHA20_POLY1305_STATE_AAD
  · simp [h1]
  · by_cases h2 : c.state = AEAD_CHACHA20_POLY1305_STATE_CIPHERTEXT
    · simp [h2, h12]
    · simp [h1, h2]

/-- What `starts` does when its collaborators succeed. -/
theorem starts_eq (C : Collaborators CS PS)
    (c : mbedtls_aead_chacha20_poly1305_context CS PS) (nonce : List Byte)
    (mode : mbedtls_aead_chacha20_poly1305_mode_t) (scratch : List Byte)
    (h : (mbedtls_aead_chacha20_poly1305_starts C (some c) (some nonce) mode scratch).result = 0) :
    (mbedtls_aead_chacha20_poly1305_starts C (some c) (some nonce) mode scratch).ctx =
      some
        { chacha20_ctx := (C.mbedtls_chacha20_starts c.chacha20_ctx nonce 1).2
          poly1305_ctx :=
            (C.mbedtls_poly1305_setkey c.poly1305_ctx
              (one_time_key C (C.mbedtls_chacha20_starts c.chacha20_ctx nonce 1).2)).2
          aad_len := 0
          ciphertext_len := 0
          state := AEAD_CHACHA20_POLY1305_STATE_AAD
          mode := mode } := by
  simp only [mbedtls_aead_chacha20_poly1305_starts, one_time_key] at h ⊢
  by_cases h1 : (C.mbedtls_chacha20_starts c.chacha20_ctx nonce 1).1 = 0
  · by_cases h2 : (C.mbedtls_chacha20_keystream_block
        (C.mbedtls_chacha20_starts c.chacha20_ctx nonce 1).2 0).1 = 0
    · simp only [h1, h2, ne_eq, not_true_eq_false, if_false] at h ⊢
      simp only [h, if_true]
    · simp [h1, h2] at h
  · simp [h1] at h

/-! ## Length encoding -/

theorem le64_eq (n : Nat) :
    le64 n =
      [n % 256, n / 2 ^ 8 % 256, n / 2 ^ 16 % 256, n / 2 ^ 24 % 256, n / 2 ^ 32 % 256,
        n / 2 ^ 40 % 256, n / 2 ^ 48 % 256, n / 2 ^ 56 % 256] := by
  simp [le64, List.range, List.range.loop, Nat.shiftRight_eq_div_pow]

theorem le64_length (n : Nat) : (le64 n).length = 8 := by
  simp [le64]

theorem le64_mod (n : Nat) : le64 (n % 2 ^ 64) = le64 n := by
  rw [le64_eq, le64_eq]
  norm_num
  refine ⟨?_, ?_, ?_, ?_, ?_, ?_, ?_⟩ <;> omega

theorem le64_mod_lit (n : Nat) : le64 (n % 18446744073709551616) = le64 n :=
  le64_mod n

theorem le_decode_le64 (n : Nat) (h : n < 2 ^ 64) : le_decode (le64 n) = n := by
  rw [le64_eq]
  simp only [le_decode]
  norm_num at h ⊢
  omega

/-! ## The one-shot function -/

/-- The one-shot function is its five steps in order, stopping at the first
nonzero result, followed by `free`. -/
theorem crypt_and_mac_steps (C : Collaborators CS PS)
    (key nonce : Option (List Byte)) (mode : mbedtls_aead_chacha20_poly1305_mode_t)
    (aad input : Option (List Byte)) (output mac : Bool)
    (ctx0 : mbedtls_aead_chacha20_poly1305_context CS PS) (scratch : List Byte) :
    mbedtls_aead_chacha20_poly1305_crypt_and_mac C key nonce mode aad input output mac
        ctx0 scratch =
      if (one_shot_setkey C key ctx0).result ≠ 0 then
        { result := (one_shot_setkey C key ctx0).result, output := [], mac := []
          ctx := mbedtls_aead_chacha20_poly1305_free C (one_shot_setkey C key ctx0).ctx }
      else if (one_shot_starts C key nonce mode ctx0 scratch).result ≠ 0 then
        { result := (one_shot_starts C key nonce mode ctx0 scratch).result
          output := [], mac := []
          ctx := mbedtls_aead_chacha20_poly1305_free C
            (one_shot_starts C key nonce mode ctx0 scratch).ctx }
      else if (one_shot_update_aad C key nonce mode aad ctx0 scratch).result ≠ 0 then
        { result := (one_shot_update_aad C key nonce mode aad ctx0 scratch).result
          output := [], mac := []
          ctx := mbedtls_aead_chacha20_poly1305_free C
            (one_shot_update_aad C key nonce mode aad ctx0 scratch).ctx }
      else if (one_shot_update C key nonce mode aad input output ctx0 scratch).result ≠ 0 then
        { result := (one_shot_update C key nonce mode aad input output ctx0 scratch).result
          output := (one_shot_update C key nonce mode aad input output ctx0 scratch).out
          mac := []
          ctx := mbedtls_aead_chacha20_poly1305_free C
            (one_shot_update C key nonce mode aad input output ctx0 scratch).ctx }
      else
        { result := (one_shot_finish C key nonce mode aad input output mac ctx0 scratch).result
          output := (one_shot_update C key nonce mode aad input output ctx0 scratch).out
          mac := (one_shot_finish C key nonce mode aad input output mac ctx0 scratch).out
          ctx := mbedtls_aead_chacha20_poly1305_free C
            (one_shot_finish C key nonce mode aad input output mac ctx0 scratch).ctx } := by
  rfl

/-- First step of a one-shot call with a present key. -/
theorem one_shot_setkey_eq (C : Collaborators CS PS) (key : List Byte)
    (ctx0 : mbedtls_aead_chacha20_poly1305_context CS PS) :
    one_shot_setkey C (some key) ctx0 =
      { result := (C.mbedtls_chacha20_setkey C.mbedtls_chacha20_init key).1
        ctx := some
          { chacha20_ctx := (C.mbedtls_chacha20_setkey C.mbedtls_chacha20_init key).2
            poly1305_ctx := C.mbedtls_poly1305_init
            aad_len := 0
            ciphertext_len := 0
            state := AEAD_CHACHA20_POLY1305_STATE_INIT
            mode := MBEDTLS_AEAD_CHACHA20_POLY1305_ENCRYPT }
        out := [] } := by
  rfl

/-- Second step of a one-shot call with present key and nonce, when the
collaborators succeed. -/
theorem one_shot_starts_eq (C : Collaborators CS PS) (key nonce aad : List Byte)
    (mode : mbedtls_aead_chacha20_poly1305_mode_t)
    (ctx0 : mbedtls_aead_chacha20_poly1305_context CS PS) (scratch : List Byte)
    (hOk : CollaboratorsSucceed C key nonce aad) :
    (one_shot_starts C (some key) (some nonce) mode ctx0 scratch).result = 0 ∧
    (one_shot_starts C (some key) (some nonce) mode ctx0 scratch).ctx =
      some
        { chacha20_ctx := keyed_cipher C key nonce
          poly1305_ctx := keyed_authenticator C key nonce
          aad_len := 0
          ciphertext_len := 0
          state := AEAD_CHACHA20_POLY1305_STATE_AAD
          mode := mode } := by
  obtain ⟨_, h2, h3, h4, _⟩ := hOk
  have hr : (one_shot_starts C (some key) (some nonce) mode ctx0 scratch).result = 0 := by
    simp only [one_shot_starts, one_shot_setkey_eq, mbedtls_aead_chacha20_poly1305_starts]
    simp only [keyed_cipher, one_time_key] at h3 h4
    simp [h2, h3, h4]
  refine ⟨hr, ?_⟩
  simp only [one_shot_starts, one_shot_setkey_eq] at hr ⊢
  rw [starts_eq C _ nonce mode scratch hr]
  rfl

/-- Third step of a one-shot call with present key, nonce and associated data,
when the collaborators succeed. -/
theorem one_shot_update_aad_eq (C : Collaborators CS PS) (key nonce aad : List Byte)
    (mode : mbedtls_aead_chacha20_poly1305_mode_t)
    (ctx0 : mbedtls_aead_chacha20_poly1305_context CS PS) (scratch : List Byte)
    (hOk : CollaboratorsSucceed C key nonce aad) :
    one_shot_update_aad C (some key) (some nonce) mode (some aad) ctx0 scratch =
      { result := 0
        ctx := some
          { chacha20_ctx := keyed_cipher C key nonce
            poly1305_ctx := (C.mbedtls_poly1305_update (keyed_authenticator C key nonce) aad).2
            aad_len := aad.length % 2 ^ 64
            ciphertext_len := 0
            state := AEAD_CHACHA20_POLY1305_STATE_AAD
            mode := mode }
        out := [] } := by
  obtain ⟨_, e2⟩ := one_shot_starts_eq C key nonce aad mode ctx0 scratch hOk
  unfold one_shot_update_aad
  rw [e2, update_aad_eq C _ aad rfl]
  have h5 := hOk.2.2.2.2
  simp only [keyed_authenticator, Nat.zero_add] at h5 ⊢
  rw [h5]

/-- A one-shot call with present buffers whose collaborators succeed: what it
returns, with the authenticator calls one by one. -/
theorem crypt_and_mac_eq (C : Collaborators CS PS) (key nonce aad input : List Byte)
    (mode : mbedtls_aead_chacha20_poly1305_mode_t)
    (ctx0 : mbedtls_aead_chacha20_poly1305_context CS PS) (scratch : List Byte)
    (hOk : CollaboratorsSucceed C key nonce aad) :
    mbedtls_aead_chacha20_poly1305_crypt_and_mac C (some key) (some nonce) mode (some aad)
        (some input) true true ctx0 scratch =
      { result := 0
        output := (C.mbedtls_chacha20_update (keyed_cipher C key nonce) input).2.2
        mac :=
          (C.mbedtls_poly1305_finish
            (absorb_message C (keyed_authenticator C key nonce) aad
              (authenticated_text mode input
                (C.mbedtls_chacha20_update (keyed_cipher C key nonce) input).2.2)
              input.length)).2.2
        ctx := some
          { chacha20_ctx :=
              C.mbedtls_chacha20_free
                (C.mbedtls_chacha20_update (keyed_cipher C key nonce) input).2.1
            poly1305_ctx :=
              C.mbedtls_poly1305_free
                (C.mbedtls_poly1305_finish
                  (absorb_message C (keyed_authenticator C key nonce) aad
                    (authenticated_text mode input
                      (C.mbedtls_chacha20_update (keyed_cipher C key nonce) input).2.2)
                    input.length)).2.1
            aad_len := 0
            ciphertext_len := 0
            state := AEAD_CHACHA20_POLY1305_STATE_INIT
            mode := MBEDTLS_AEAD_CHACHA20_POLY1305_ENCRYPT } } := by
  have h1 : (one_shot_setkey C (some key) ctx0).result = 0 := hOk.1
  obtain ⟨h2, e2⟩ := one_shot_starts_eq C key nonce aad mode ctx0 scratch hOk
  have e3 := one_shot_update_aad_eq C key nonce aad mode ctx0 scratch hOk
  have e4 : one_shot_update C (some key) (some nonce) mode (some aad) (some input) true
      ctx0 scratch =
      { result := 0
        ctx := some
          { chacha20_ctx := (C.mbedtls_chacha20_update (keyed_cipher C key nonce) input).2.1
            poly1305_ctx :=
              (C.mbedtls_poly1305_update
                (absorb_pad C (C.mbedtls_poly1305_update (keyed_authenticator C key nonce) aad).2
                  aad.length)
                (authenticated_text mode input
                  (C.mbedtls_chacha20_update (keyed_cipher C key nonce) input).2.2)).2
            aad_len := aad.length % 2 ^ 64
            ciphertext_len := input.length % 2 ^ 64
            state := AEAD_CHACHA20_POLY1305_STATE_CIPHERTEXT
            mode := mode }
        out := (C.mbedtls_chacha20_update (keyed_cipher C key nonce) input).2.2 } := by
    unfold one_shot_update
    rw [e3, update_eq C _ input (Or.inl rfl)]
    simp [authenticated_text, absorb_pad_mod_lit]
  have e5 : one_shot_finish C (some key) (some nonce) mode (some aad) (some input) true true
      ctx0 scratch =
      { result := 0
        ctx := some
          { chacha20_ctx := (C.mbedtls_chacha20_update (keyed_cipher C key nonce) input).2.1
            poly1305_ctx :=
              (C.mbedtls_poly1305_finish
                (absorb_message C (keyed_authenticator C key nonce) aad
                  (authenticated_text mode input
                    (C.mbedtls_chacha20_update (keyed_cipher C key nonce) input).2.2)
                  input.length)).2.1
            aad_len := aad.length % 2 ^ 64
            ciphertext_len := input.length % 2 ^ 64
            state := AEAD_CHACHA20_POLY1305_STATE_FINISHED
            mode := mode }
        out :=
          (C.mbedtls_poly1305_finish
            (absorb_message C (keyed_authenticator C key nonce) aad
              (authenticated_text mode input
                (C.mbedtls_chacha20_update (keyed_cipher C key nonce) input).2.2)
              input.length)).2.2 } := by
    unfold one_shot_finish
    rw [e4, finish_eq C _ state_ciphertext_ne_init]
    simp [absorb_message, state_ciphertext_ne_aad, absorb_pad_mod_lit, le64_mod_lit]
  rw [crypt_and_mac_steps, e5, e4, e3, h2, h1]
  simp [mbedtls_aead_chacha20_poly1305_free]


/-- With a streaming authenticator the calls of a whole message amount to
absorbing the RFC 7539 byte stream in one piece. -/
theorem absorb_message_eq (C : Collaborators CS PS) (hS : AbsorbStreaming C) (ps : PS)
    (aad text : List Byte) :
    absorb_message C ps aad text text.length =
      (C.mbedtls_poly1305_update ps (mac_data aad text)).2 := by
  unfold absorb_message mac_data
  rw [pad_then_absorb C hS, hS, pad_then_absorb C hS, hS]
  simp only [List.append_assoc]

/-! ## The concrete collaborators satisfy the contracts -/

theorem rfc7539_succeed (key nonce aad : List Byte) :
    CollaboratorsSucceed rfc7539 key nonce aad :=
  ⟨rfl, rfl, rfl, rfl, rfl⟩

theorem never_fail_succeed (C : Collaborators CS PS) (h : CollaboratorsNeverFail C)
    (key nonce aad : List Byte) : CollaboratorsSucceed C key nonce aad :=
  ⟨h.1 _ _, h.2.1 _ _ _, h.2.2.1 _ _, h.2.2.2.1 _ _, h.2.2.2.2 _ _⟩

theorem rfc7539_never_fail : CollaboratorsNeverFail rfc7539 :=
  ⟨fun _ _ => rfl, fun _ _ _ => rfl, fun _ _ => rfl, fun _ _ => rfl, fun _ _ => rfl⟩

/-- The session `self_test_session` is the one that `setkey`, `starts` and
`update_aad` leave on the self-test vector. -/
theorem self_test_session_reached :
    one_shot_update_aad rfc7539 (some test_key) (some test_nonce)
        MBEDTLS_AEAD_CHACHA20_POLY1305_ENCRYPT (some test_aad) junk_context
        junk_scratch =
      { result := 0, ctx := some self_test_session, out := [] } := by
  rfl

theorem rfc7539_absorb_streaming : AbsorbStreaming rfc7539 := by
  intro s a b
  simp [rfc7539, List.append_assoc]

theorem chacha20_keystream_length (s : chacha20_context) (n : Nat) :
    (chacha20_keystream s n).length = n := by
  simp [chacha20_keystream]

theorem rfc7539_transform_is_xor : TransformIsXor rfc7539 chacha20_keystream := by
  intro s a
  exact ⟨chacha20_keystream_length s a.length, rfl⟩

theorem rfc7539_transform_keeps_length : TransformKeepsLength rfc7539 := by
  intro s a
  simp [rfc7539, chacha20_keystream_length]

theorem rfc7539_transform_streaming : TransformStreaming rfc7539 := by
  intro s a b
  refine ⟨?_, ?_⟩
  · simp [rfc7539, Nat.add_assoc]
  · simp only [rfc7539, chacha20_keystream, List.length_append]
    have hr : List.range' s.used (a.length + b.length) =
        List.range' s.used a.length ++ List.range' (s.used + a.length) b.length := by
      rw [List.range'_append_1, Nat.add_comm]
    rw [hr, List.map_append, List.zipWith_append]
    simp

/-! ## XOR with a keystream -/

theorem zipWith_xor_length (p k : List Byte) (h : k.length = p.length) :
    (List.zipWith (· ^^^ ·) p k).length = p.length := by
  simp [h]

theorem zipWith_xor_cancel (p k : List Byte) (h : k.length = p.length) :
    List.zipWith (· ^^^ ·) (List.zipWith (· ^^^ ·) p k) k = p := by
  induction p generalizing k with
  | nil => simp
  | cons x xs ih =>
    cases k with
    | nil => simp at h
    | cons y ys =>
      simp only [List.length_cons, Nat.add_right_cancel_iff] at h
      simp only [List.zipWith_cons_cons, ih ys h, Nat.xor_assoc, Nat.xor_self, Nat.xor_zero]

/-! ## Chunked processing -/

/-- After an accepted `update` the state is STATE_CIPHERTEXT. -/
theorem update_state (C : Collaborators CS PS)
    (c : mbedtls_aead_chacha20_poly1305_context CS PS) (inp : List Byte)
    (h : c.state = AEAD_CHACHA20_POLY1305_STATE_AAD ∨
      c.state = AEAD_CHACHA20_POLY1305_STATE_CIPHERTEXT) :
    ∃ c1, (mbedtls_aead_chacha20_poly1305_update C (some c) (some inp) true).ctx = some c1 ∧
      c1.state = AEAD_CHACHA20_POLY1305_STATE_CIPHERTEXT := by
  rw [update_eq C c inp h]
  exact ⟨_, rfl, rfl⟩

/-- With streaming collaborators, two `update` calls in a row leave the context
and write the bytes that one call on the concatenated input does. -/
theorem update_update (C : Collaborators CS PS) (hT : TransformStreaming C)
    (hS : AbsorbStreaming C) (c : mbedtls_aead_chacha20_poly1305_context CS PS)
    (a b : List Byte)
    (h : c.state = AEAD_CHACHA20_POLY1305_STATE_AAD ∨
      c.state = AEAD_CHACHA20_POLY1305_STATE_CIPHERTEXT) :
    (mbedtls_aead_chacha20_poly1305_update C
        (mbedtls_aead_chacha20_poly1305_update C (some c) (some a) true).ctx
        (some b) true).ctx =
      (mbedtls_aead_chacha20_poly1305_update C (some c) (some (a ++ b)) true).ctx ∧
    (mbedtls_aead_chacha20_poly1305_update C (some c) (some a) true).out ++
        (mbedtls_aead_chacha20_poly1305_update C
          (mbedtls_aead_chacha20_poly1305_update C (some c) (some a) true).ctx
          (some b) true).out =
      (mbedtls_aead_chacha20_poly1305_update C (some c) (some (a ++ b)) true).out := by
  obtain ⟨hT1, hT2⟩ := hT c.chacha20_ctx a b
  have hlen : ((c.ciphertext_len + a.length) % 18446744073709551616 + b.length) %
      18446744073709551616 = (c.ciphertext_len + (a.length + b.length)) %
        18446744073709551616 := by
    omega
  rw [update_eq C c a h, update_eq C c (a ++ b) h]
  simp only []
  rw [update_eq C _ b (Or.inr rfl)]
  by_cases hm : c.mode = MBEDTLS_AEAD_CHACHA20_POLY1305_ENCRYPT
  · simp [hm, state_ciphertext_ne_aad, hT1, hT2, hlen]
    rw [← hT2]
    exact hS _ _ _
  · simp [hm, state_ciphertext_ne_aad, hT1, hT2, hlen]
    exact hS _ _ _


/-- With streaming collaborators, driving `update` with the chunks
`ch :: chunks` leaves the context and writes the bytes that one call on their
concatenation does. -/
theorem update_chunks_cons (C : Collaborators CS PS) (hT : TransformStreaming C)
    (hS : AbsorbStreaming C) (chunks : List (List Byte)) :
    ∀ (c : mbedtls_aead_chacha20_poly1305_context CS PS) (ch : List Byte),
      (c.state = AEAD_CHACHA20_POLY1305_STATE_AAD ∨
        c.state = AEAD_CHACHA20_POLY1305_STATE_CIPHERTEXT) →
      (update_chunks C (some c) (ch :: chunks)).ctx =
          (mbedtls_aead_chacha20_poly1305_update C (some c)
            (some (ch ++ chunks.flatten)) true).ctx ∧
        (update_chunks C (some c) (ch :: chunks)).out =
          (mbedtls_aead_chacha20_poly1305_update C (some c)
            (some (ch ++ chunks.flatten)) true).out ∧
        (update_chunks C (some c) (ch :: chunks)).result = 0 := by
  induction chunks with
  | nil =>
    intro c ch h
    simp [update_chunks, update_eq C c ch h]
  | cons ch2 rest ih =>
    intro c ch h
    obtain ⟨c1, hc1, hs1⟩ := update_state C c ch h
    obtain ⟨i1, i2, i3⟩ := ih c1 ch2 (Or.inr hs1)
    obtain ⟨u1, u2⟩ := update_update C hT hS c ch (ch2 ++ rest.flatten) h
    have hr : (mbedtls_aead_chacha20_poly1305_update C (some c) (some ch) true).result = 0 := by
      rw [update_eq C c ch h]
    rw [hc1] at u1 u2
    refine ⟨?_, ?_, ?_⟩
    · show (update_chunks C
          (mbedtls_aead_chacha20_poly1305_update C (some c) (some ch) true).ctx
          (ch2 :: rest)).ctx = _
      rw [hc1, i1, u1]
      simp
    · show (mbedtls_aead_chacha20_poly1305_update C (some c) (some ch) true).out ++
          (update_chunks C
            (mbedtls_aead_chacha20_poly1305_update C (some c) (some ch) true).ctx
            (ch2 :: rest)).out = _
      rw [hc1, i2, u2]
      simp
    · show (if (mbedtls_aead_chacha20_poly1305_update C (some c) (some ch) true).result ≠ 0 then
          (mbedtls_aead_chacha20_poly1305_update C (some c) (some ch) true).result
        else (update_chunks C
          (mbedtls_aead_chacha20_poly1305_update C (some c) (some ch) true).ctx
          (ch2 :: rest)).result) = 0
      rw [hr, hc1, i3]
      simp

/-- The tag of a one-shot call with present buffers whose collaborators
succeed, the authenticator being streaming: it is the authenticator's
finalisation over the RFC 7539 byte stream. -/
theorem crypt_and_mac_spec (C : Collaborators CS PS) (key nonce aad input : List Byte)
    (mode : mbedtls_aead_chacha20_poly1305_mode_t)
    (ctx0 : mbedtls_aead_chacha20_poly1305_context CS PS) (scratch : List Byte)
    (hOk : CollaboratorsSucceed C key nonce aad) (hS : AbsorbStreaming C)
    (hL : TransformKeepsLength C) :
    (mbedtls_aead_chacha20_poly1305_crypt_and_mac C (some key) (some nonce) mode (some aad)
        (some input) true true ctx0 scratch).result = 0 ∧
    (mbedtls_aead_chacha20_poly1305_crypt_and_mac C (some key) (some nonce) mode (some aad)
        (some input) true true ctx0 scratch).output =
      (C.mbedtls_chacha20_update (keyed_cipher C key nonce) input).2.2 ∧
    (mbedtls_aead_chacha20_poly1305_crypt_and_mac C (some key) (some nonce) mode (some aad)
        (some input) true true ctx0 scratch).mac =
      authenticate C C.mbedtls_poly1305_init (one_time_key C (keyed_cipher C key nonce))
        (mac_data aad
          (authenticated_text mode input
            (mbedtls_aead_chacha20_poly1305_crypt_and_mac C (some key) (some nonce) mode
              (some aad) (some input) true true ctx0 scratch).output)) := by
  rw [crypt_and_mac_eq C key nonce aad input mode ctx0 scratch hOk]
  refine ⟨rfl, rfl, ?_⟩
  have hlen : (authenticated_text mode input
      (C.mbedtls_chacha20_update (keyed_cipher C key nonce) input).2.2).length = input.length := by
    unfold authenticated_text
    split
    · exact hL _ _
    · rfl
  simp only [authenticate]
  rw [← hlen, absorb_message_eq C hS]
  rfl

theorem le64_zero : le64 0 = List.replicate 8 0 := by
  decide

theorem mac_data_nil_text (A : List Byte) :
    mac_data A [] = A ++ pad16 A.length ++ le64 A.length ++ le64 0 := by
  simp [mac_data, pad16]

theorem mac_data_nil_aad (Ct : List Byte) :
    mac_data [] Ct = Ct ++ pad16 Ct.length ++ le64 0 ++ le64 Ct.length := by
  simp [mac_data, pad16]

theorem mac_data_nil_nil : mac_data [] [] = List.replicate 16 0 := by
  decide

/-! ## The context pointer stays what it is -/

theorem setkey_ctx_isSome (C : Collaborators CS PS)
    (ctx : Option (mbedtls_aead_chacha20_poly1305_context CS PS)) (key : Option (List Byte)) :
    (mbedtls_aead_chacha20_poly1305_setkey C ctx key).ctx.isSome = ctx.isSome := by
  cases ctx <;> cases key <;> rfl

theorem starts_ctx_isSome (C : Collaborators CS PS)
    (ctx : Option (mbedtls_aead_chacha20_poly1305_context CS PS)) (nonce : Option (List Byte))
    (mode : mbedtls_aead_chacha20_poly1305_mode_t) (scratch : List Byte) :
    (mbedtls_aead_chacha20_poly1305_starts C ctx nonce mode scratch).ctx.isSome = ctx.isSome := by
  cases ctx with
  | none => cases nonce <;> rfl
  | some c =>
    cases nonce with
    | none => rfl
    | some n =>
      simp only [mbedtls_aead_chacha20_poly1305_starts]
      split
      · rfl
      · split <;> rfl

theorem update_aad_ctx_isSome (C : Collaborators CS PS)
    (ctx : Option (mbedtls_aead_chacha20_poly1305_context CS PS)) (aad : Option (List Byte)) :
    (mbedtls_aead_chacha20_poly1305_update_aad C ctx aad).ctx.isSome = ctx.isSome := by
  cases ctx with
  | none => cases aad <;> rfl
  | some c =>
    cases aad with
    | none => rfl
    | some a =>
      simp only [mbedtls_aead_chacha20_poly1305_update_aad]
      split <;> rfl

theorem update_ctx_isSome (C : Collaborators CS PS)
    (ctx : Option (mbedtls_aead_chacha20_poly1305_context CS PS)) (input : Option (List Byte))
    (output : Bool) :
    (mbedtls_aead_chacha20_poly1305_update C ctx input output).ctx.isSome = ctx.isSome := by
  cases ctx with
  | none => cases input <;> cases output <;> rfl
  | some c =>
    cases input with
    | none => cases output <;> rfl
    | some inp =>
      cases output with
      | false => rfl
      | true =>
        by_cases hs : c.state = AEAD_CHACHA20_POLY1305_STATE_AAD ∨
            c.state = AEAD_CHACHA20_POLY1305_STATE_CIPHERTEXT
        · rw [update_eq C c inp hs]
          rfl
        · rw [update_bad_state C c inp (not_or.mp hs)]

theorem finish_ctx_isSome (C : Collaborators CS PS)
    (ctx : Option (mbedtls_aead_chacha20_poly1305_context CS PS)) (mac : Bool) :
    (mbedtls_aead_chacha20_poly1305_finish C ctx mac).ctx.isSome = ctx.isSome := by
  cases ctx with
  | none => cases mac <;> rfl
  | some c =>
    cases mac with
    | false => rfl
    | true =>
      by_cases hs : c.state = AEAD_CHACHA20_POLY1305_STATE_INIT
      · simp [mbedtls_aead_chacha20_poly1305_finish, hs]
      · rw [finish_eq C c hs]
        rfl

/-- What `free` leaves in a present context. -/
theorem free_fields (C : Collaborators CS PS)
    (ctx : Option (mbedtls_aead_chacha20_poly1305_context CS PS)) (h : ctx.isSome = true) :
    ∃ d, mbedtls_aead_chacha20_poly1305_free C ctx = some d ∧ d.aad_len = 0 ∧
      d.ciphertext_len = 0 ∧ d.state = AEAD_CHACHA20_POLY1305_STATE_INIT ∧
      d.mode = MBEDTLS_AEAD_CHACHA20_POLY1305_ENCRYPT := by
  cases ctx with
  | none => simp at h
  | some c => exact ⟨_, rfl, rfl, rfl, rfl, rfl⟩

theorem one_shot_ctx_isSome (C : Collaborators CS PS)
    (key nonce : Option (List Byte)) (mode : mbedtls_aead_chacha20_poly1305_mode_t)
    (aad input : Option (List Byte)) (output mac : Bool)
    (ctx0 : mbedtls_aead_chacha20_poly1305_context CS PS) (scratch : List Byte) :
    (one_shot_setkey C key ctx0).ctx.isSome = true ∧
    (one_shot_starts C key nonce mode ctx0 scratch).ctx.isSome = true ∧
    (one_shot_update_aad C key nonce mode aad ctx0 scratch).ctx.isSome = true ∧
    (one_shot_update C key nonce mode aad input output ctx0 scratch).ctx.isSome = true ∧
    (one_shot_finish C key nonce mode aad input output mac ctx0 scratch).ctx.isSome = true := by
  have h1 : (one_shot_setkey C key ctx0).ctx.isSome = true := by
    unfold one_shot_setkey
    rw [setkey_ctx_isSome]
    rfl
  have h2 : (one_shot_starts C key nonce mode ctx0 scratch).ctx.isSome = true := by
    unfold one_shot_starts
    rw [starts_ctx_isSome, h1]
  have h3 : (one_shot_update_aad C key nonce mode aad ctx0 scratch).ctx.isSome = true := by
    unfold one_shot_update_aad
    rw [update_aad_ctx_isSome, h2]
  have h4 : (one_shot_update C key nonce mode aad input output ctx0 scratch).ctx.isSome =
      true := by
    unfold one_shot_update
    rw [update_ctx_isSome, h3]
  refine ⟨h1, h2, h3, h4, ?_⟩
  unfold one_shot_finish
  rw [finish_ctx_isSome, h4]

/-- The session functions return BAD_INPUT_DATA on an absent buffer. -/
theorem absent_buffer_results (C : Collaborators CS PS)
    (ctx : Option (mbedtls_aead_chacha20_poly1305_context CS PS))
    (mode : mbedtls_aead_chacha20_poly1305_mode_t) (scratch : List Byte)
    (input : Option (List Byte)) (output : Bool) :
    (mbedtls_aead_chacha20_poly1305_setkey C ctx none).result =
        MBEDTLS_ERR_AEAD_CHACHA20_POLY1305_BAD_INPUT_DATA ∧
    (mbedtls_aead_chacha20_poly1305_starts C ctx none mode scratch).result =
        MBEDTLS_ERR_AEAD_CHACHA20_POLY1305_BAD_INPUT_DATA ∧
    (mbedtls_aead_chacha20_poly1305_update_aad C ctx none).result =
        MBEDTLS_ERR_AEAD_CHACHA20_POLY1305_BAD_INPUT_DATA ∧
    (mbedtls_aead_chacha20_poly1305_update C ctx none output).result =
        MBEDTLS_ERR_AEAD_CHACHA20_POLY1305_BAD_INPUT_DATA ∧
    (mbedtls_aead_chacha20_poly1305_update C ctx input false).result =
        MBEDTLS_ERR_AEAD_CHACHA20_POLY1305_BAD_INPUT_DATA ∧
    (mbedtls_aead_chacha20_poly1305_finish C ctx false).result =
        MBEDTLS_ERR_AEAD_CHACHA20_POLY1305_BAD_INPUT_DATA := by
  refine ⟨?_, ?_, ?_, ?_, ?_, ?_⟩
  · cases ctx <;> rfl
  · cases ctx <;> rfl
  · cases ctx <;> rfl
  · cases ctx <;> cases output <;> rfl
  · cases ctx <;> cases input <;> rfl
  · cases ctx <;> rfl

/-- On a nonzero return `update` leaves the context as it was and writes
nothing. -/
theorem update_error_contract_aux (C : Collaborators CS PS)
    (ctx : Option (mbedtls_aead_chacha20_poly1305_context CS PS))
    (input : Option (List Byte)) (output : Bool) :
    (mbedtls_aead_chacha20_poly1305_update C ctx input output).result ≠ 0 →
      (mbedtls_aead_chacha20_poly1305_update C ctx input output).ctx = ctx ∧
      (mbedtls_aead_chacha20_poly1305_update C ctx input output).out = [] := by
  intro hr
  cases ctx with
  | none => cases input <;> cases output <;> exact ⟨rfl, rfl⟩
  | some c =>
    cases input with
    | none => cases output <;> exact ⟨rfl, rfl⟩
    | some inp =>
      cases output with
      | false => exact ⟨rfl, rfl⟩
      | true =>
        by_cases hs : c.state = AEAD_CHACHA20_POLY1305_STATE_AAD ∨
            c.state = AEAD_CHACHA20_POLY1305_STATE_CIPHERTEXT
        · rw [update_eq C c inp hs] at hr
          exact absurd rfl hr
        · rw [update_bad_state C c inp (not_or.mp hs)]
          exact ⟨rfl, rfl⟩

/-- A one-shot call returns 0 only when its five steps do, and then it writes
what `update` and `finish` wrote. -/
theorem crypt_and_mac_zero (C : Collaborators CS PS)
    (key nonce : Option (List Byte)) (mode : mbedtls_aead_chacha20_poly1305_mode_t)
    (aad input : Option (List Byte)) (output mac : Bool)
    (ctx0 : mbedtls_aead_chacha20_poly1305_context CS PS) (scratch : List Byte)
    (h : (mbedtls_aead_chacha20_poly1305_crypt_and_mac C key nonce mode aad input output mac
        ctx0 scratch).result = 0) :
    (one_shot_setkey C key ctx0).result = 0 ∧
    (one_shot_starts C key nonce mode ctx0 scratch).result = 0 ∧
    (one_shot_update_aad C key nonce mode aad ctx0 scratch).result = 0 ∧
    (one_shot_update C key nonce mode aad input output ctx0 scratch).result = 0 ∧
    (one_shot_finish C key nonce mode aad input output mac ctx0 scratch).result = 0 ∧
    (mbedtls_aead_chacha20_poly1305_crypt_and_mac C key nonce mode aad input output mac
        ctx0 scratch).output =
      (one_shot_update C key nonce mode aad input output ctx0 scratch).out ∧
    (mbedtls_aead_chacha20_poly1305_crypt_and_mac C key nonce mode aad input output mac
        ctx0 scratch).mac =
      (one_shot_finish C key nonce mode aad input output mac ctx0 scratch).out := by
  rw [crypt_and_mac_steps] at h ⊢
  by_cases h1 : (one_shot_setkey C key ctx0).result = 0
  · by_cases h2 : (one_shot_starts C key nonce mode ctx0 scratch).result = 0
    · by_cases h3 : (one_shot_update_aad C key nonce mode aad ctx0 scratch).result = 0
      · by_cases h4 : (one_shot_update C key nonce mode aad input output ctx0 scratch).result = 0
        · simp only [h1, h2, h3, h4, ne_eq, not_true_eq_false, if_false] at h ⊢
          exact ⟨trivial, trivial, trivial, trivial, h, trivial, trivial⟩
        · simp only [h1, h2, h3, h4, ne_eq, not_true_eq_false, not_false_eq_true, if_false,
            if_true] at h
      · simp only [h1, h2, h3, ne_eq, not_true_eq_false, not_false_eq_true, if_false,
          if_true] at h
    · simp only [h1, h2, ne_eq, not_true_eq_false, not_false_eq_true, if_false, if_true] at h
  · simp only [h1, ne_eq, not_false_eq_true, if_true] at h

/-! ## The effect of one call on counters and state -/

/-- What `setkey` does with a present context and key. -/
theorem setkey_eq (C : Collaborators CS PS)
    (c : mbedtls_aead_chacha20_poly1305_context CS PS) (k : List Byte) :
    mbedtls_aead_chacha20_poly1305_setkey C (some c) (some k) =
      { result := (C.mbedtls_chacha20_setkey c.chacha20_ctx k).1
        ctx := some { c with chacha20_ctx := (C.mbedtls_chacha20_setkey c.chacha20_ctx k).2 }
        out := [] } := by
  rfl

/-- One call of `setkey`, `update_aad`, `update` or `finish` leaves the context
present, keeps the mode, leaves each counter as it was or adds the length of
the call to it modulo `2^64`, and leaves the state as it was or moves it from
STATE_AAD to STATE_CIPHERTEXT or from a state other than STATE_INIT to
STATE_FINISHED. -/
theorem session_call_effect (C : Collaborators CS PS)
    (c : mbedtls_aead_chacha20_poly1305_context CS PS) (k : SessionCall) :
    ∃ d, (session_call C (some c) k).ctx = some d ∧ d.mode = c.mode ∧
      (d.aad_len = c.aad_len ∨
        ∃ a, k = SessionCall.absorb_aad (some a) ∧
          d.aad_len = (c.aad_len + a.length) % 2 ^ 64) ∧
      (d.ciphertext_len = c.ciphertext_len ∨
        ∃ i o, k = SessionCall.process (some i) o ∧
          d.ciphertext_len = (c.ciphertext_len + i.length) % 2 ^ 64) ∧
      (d.state = c.state ∨
        (c.state = AEAD_CHACHA20_POLY1305_STATE_AAD ∧
          d.state = AEAD_CHACHA20_POLY1305_STATE_CIPHERTEXT) ∨
        (c.state ≠ AEAD_CHACHA20_POLY1305_STATE_INIT ∧
          d.state = AEAD_CHACHA20_POLY1305_STATE_FINISHED)) := by
  have same : ∃ d, some c = some d ∧ d.mode = c.mode ∧
      (d.aad_len = c.aad_len ∨
        ∃ a, k = SessionCall.absorb_aad (some a) ∧
          d.aad_len = (c.aad_len + a.length) % 2 ^ 64) ∧
      (d.ciphertext_len = c.ciphertext_len ∨
        ∃ i o, k = SessionCall.process (some i) o ∧
          d.ciphertext_len = (c.ciphertext_len + i.length) % 2 ^ 64) ∧
      (d.state = c.state ∨
        (c.state = AEAD_CHACHA20_POLY1305_STATE_AAD ∧
          d.state = AEAD_CHACHA20_POLY1305_STATE_CIPHERTEXT) ∨
        (c.state ≠ AEAD_CHACHA20_POLY1305_STATE_INIT ∧
          d.state = AEAD_CHACHA20_POLY1305_STATE_FINISHED)) :=
    ⟨c, rfl, rfl, Or.inl rfl, Or.inl rfl, Or.inl rfl⟩
  cases k with
  | set_key key =>
    cases key with
    | none => exact same
    | some k => exact ⟨_, rfl, rfl, Or.inl rfl, Or.inl rfl, Or.inl rfl⟩
  | absorb_aad aad =>
    cases aad with
    | none => exact same
    | some a =>
      by_cases hs : c.state = AEAD_CHACHA20_POLY1305_STATE_AAD
      · simp only [session_call]
        rw [update_aad_eq C c a hs]
        exact ⟨_, rfl, rfl, Or.inr ⟨a, rfl, rfl⟩, Or.inl rfl, Or.inl rfl⟩
      · have h : mbedtls_aead_chacha20_poly1305_update_aad C (some c) (some a) =
            { result := MBEDTLS_ERR_AEAD_CHACHA20_POLY1305_BAD_STATE, ctx := some c, out := [] } :=
                by
          simp [mbedtls_aead_chacha20_poly1305_update_aad, hs]
        simp only [session_call]
        rw [h]
        exact same
  | process input output =>
    cases input with
    | none => cases output <;> exact same
    | some i =>
      cases output with
      | false => exact same
      | true =>
        by_cases hs : c.state = AEAD_CHACHA20_POLY1305_STATE_AAD ∨
            c.state = AEAD_CHACHA20_POLY1305_STATE_CIPHERTEXT
        · simp only [session_call]
          rw [update_eq C c i hs]
          refine ⟨_, rfl, rfl, Or.inl rfl, Or.inr ⟨i, true, rfl, rfl⟩, ?_⟩
          rcases hs with hs | hs
          · exact Or.inr (Or.inl ⟨hs, rfl⟩)
          · exact Or.inl hs.symm
        · simp only [session_call]
          rw [update_bad_state C c i (not_or.mp hs)]
          exact same
  | finish mac =>
    cases mac with
    | false => exact same
    | true =>
      by_cases hs : c.state = AEAD_CHACHA20_POLY1305_STATE_INIT
      · have h : mbedtls_aead_chacha20_poly1305_finish C (some c) true =
            { result := MBEDTLS_ERR_AEAD_CHACHA20_POLY1305_BAD_STATE, ctx := some c, out := [] } :=
                by
          simp [mbedtls_aead_chacha20_poly1305_finish, hs]
        simp only [session_call]
        rw [h]
        exact same
      · simp only [session_call]
        rw [finish_eq C c hs]
        exact ⟨_, rfl, rfl, Or.inl rfl, Or.inl rfl, Or.inr (Or.inr ⟨hs, rfl⟩)⟩

theorem session_calls_append (C : Collaborators CS PS) (pre post : List SessionCall) :
    ∀ ctx : Option (mbedtls_aead_chacha20_poly1305_context CS PS),
      session_calls C ctx (pre ++ post) = session_calls C (session_calls C ctx pre) post := by
  induction pre with
  | nil => intro ctx; rfl
  | cons k ks ih => intro ctx; exact ih _

theorem aad_bytes_append (pre post : List SessionCall) :
    aad_bytes (pre ++ post) = aad_bytes pre + aad_bytes post := by
  induction pre with
  | nil => simp [aad_bytes]
  | cons k ks ih =>
    cases k with
    | absorb_aad aad =>
      cases aad with
      | none => simpa [aad_bytes] using ih
      | some a =>
        show a.length + aad_bytes (ks ++ post) = a.length + aad_bytes ks + aad_bytes post
        rw [ih]
        omega
    | set_key key => simpa [aad_bytes] using ih
    | process i o => simpa [aad_bytes] using ih
    | finish m => simpa [aad_bytes] using ih

theorem text_bytes_append (pre post : List SessionCall) :
    text_bytes (pre ++ post) = text_bytes pre + text_bytes post := by
  induction pre with
  | nil => simp [text_bytes]
  | cons k ks ih =>
    cases k with
    | process i o =>
      cases i with
      | none => simpa [text_bytes] using ih
      | some a =>
        show a.length + text_bytes (ks ++ post) = a.length + text_bytes ks + text_bytes post
        rw [ih]
        omega
    | set_key key => simpa [text_bytes] using ih
    | absorb_aad a => simpa [text_bytes] using ih
    | finish m => simpa [text_bytes] using ih

theorem aad_bytes_cons (k : SessionCall) (ks : List SessionCall) :
    aad_bytes (k :: ks) = aad_bytes [k] + aad_bytes ks :=
  aad_bytes_append [k] ks

theorem text_bytes_cons (k : SessionCall) (ks : List SessionCall) :
    text_bytes (k :: ks) = text_bytes [k] + text_bytes ks :=
  text_bytes_append [k] ks

/-- While no counter reaches `2^64`, a sequence of calls leaves each counter
between its value before and that value plus the lengths of the calls. -/
theorem session_calls_counters (C : Collaborators CS PS) (calls : List SessionCall) :
    ∀ c : mbedtls_aead_chacha20_poly1305_context CS PS,
      c.aad_len + aad_bytes calls < 2 ^ 64 →
      c.ciphertext_len + text_bytes calls < 2 ^ 64 →
      ∃ e, session_calls C (some c) calls = some e ∧
        c.aad_len ≤ e.aad_len ∧ e.aad_len ≤ c.aad_len + aad_bytes calls ∧
        c.ciphertext_len ≤ e.ciphertext_len ∧
        e.ciphertext_len ≤ c.ciphertext_len + text_bytes calls := by
  induction calls with
  | nil =>
    intro c _ _
    exact ⟨c, rfl, Nat.le_refl _, Nat.le_refl _, Nat.le_refl _, Nat.le_refl _⟩
  | cons k ks ih =>
    intro c ha hc
    rw [aad_bytes_cons] at ha ⊢
    rw [text_bytes_cons] at hc ⊢
    obtain ⟨d, hd, _, hda, hdc, _⟩ := session_call_effect C c k
    have hda' : c.aad_len ≤ d.aad_len ∧ d.aad_len ≤ c.aad_len + aad_bytes [k] := by
      rcases hda with h | ⟨a, hk, h⟩
      · omega
      · subst hk
        have : aad_bytes [SessionCall.absorb_aad (some a)] = a.length := by simp [aad_bytes]
        rw [this] at ha ⊢
        rw [h, Nat.mod_eq_of_lt (by omega)]
        omega
    have hdc' : c.ciphertext_len ≤ d.ciphertext_len ∧
        d.ciphertext_len ≤ c.ciphertext_len + text_bytes [k] := by
      rcases hdc with h | ⟨i, o, hk, h⟩
      · omega
      · subst hk
        have : text_bytes [SessionCall.process (some i) o] = i.length := by simp [text_bytes]
        rw [this] at hc ⊢
        rw [h, Nat.mod_eq_of_lt (by omega)]
        omega
    obtain ⟨e, he, h1, h2, h3, h4⟩ := ih d (by omega) (by omega)
    refine ⟨e, ?_, by omega, by omega, by omega, by omega⟩
    show session_calls C (session_call C (some c) k).ctx ks = some e
    rw [hd, he]

theorem valid_state_cases (s : Int) (h : valid_state s) : 0 ≤ s ∧ s ≤ 3 := by
  rcases h with h | h | h | h <;> subst h <;> decide

/-- One call never moves a valid state backwards. -/
theorem session_call_state (C : Collaborators CS PS)
    (c : mbedtls_aead_chacha20_poly1305_context CS PS) (k : SessionCall)
    (h : valid_state c.state) :
    ∃ d, (session_call C (some c) k).ctx = some d ∧ c.state ≤ d.state ∧ valid_state d.state ∧
      (d.state = AEAD_CHACHA20_POLY1305_STATE_AAD →
        c.state = AEAD_CHACHA20_POLY1305_STATE_AAD) := by
  obtain ⟨d, hd, _, _, _, hs⟩ := session_call_effect C c k
  have hb := valid_state_cases c.state h
  refine ⟨d, hd, ?_, ?_, ?_⟩
  · rcases hs with hs | ⟨h1, h2⟩ | ⟨_, h2⟩
    · rw [hs]
    · rw [h1, h2]; decide
    · rw [h2]; exact hb.2
  · rcases hs with hs | ⟨_, h2⟩ | ⟨_, h2⟩
    · rw [hs]; exact h
    · exact Or.inr (Or.inr (Or.inl h2))
    · exact Or.inr (Or.inr (Or.inr h2))
  · intro hda
    rcases hs with hs | ⟨_, h2⟩ | ⟨_, h2⟩
    · rw [← hs]; exact hda
    · rw [h2] at hda; exact absurd hda (by decide)
    · rw [h2] at hda; exact absurd hda (by decide)

/-- A sequence of calls never moves a valid state backwards. -/
theorem session_calls_state (C : Collaborators CS PS) (calls : List SessionCall) :
    ∀ c : mbedtls_aead_chacha20_poly1305_context CS PS, valid_state c.state →
      ∃ e, session_calls C (some c) calls = some e ∧ c.state ≤ e.state ∧
        valid_state e.state := by
  induction calls with
  | nil =>
    intro c h
    exact ⟨c, rfl, Int.le_refl _, h⟩
  | cons k ks ih =>
    intro c h
    obtain ⟨d, hd, h1, h2, _⟩ := session_call_state C c k h
    obtain ⟨e, he, h3, h4⟩ := ih d h2
    refine ⟨e, ?_, Int.le_trans h1 h3, h4⟩
    show session_calls C (session_call C (some c) k).ctx ks = some e
    rw [hd, he]

/-! ## A failed `starts` -/

/-- With present context and nonce, `starts` returns the result of the first
collaborator call that fails, or of the last one. -/
theorem starts_result (C : Collaborators CS PS)
    (c : mbedtls_aead_chacha20_poly1305_context CS PS) (nonce : List Byte)
    (mode : mbedtls_aead_chacha20_poly1305_mode_t) (scratch : List Byte) :
    (mbedtls_aead_chacha20_poly1305_starts C (some c) (some nonce) mode scratch).result =
      if (C.mbedtls_chacha20_starts c.chacha20_ctx nonce 1).1 ≠ 0 then
        (C.mbedtls_chacha20_starts c.chacha20_ctx nonce 1).1
      else if (C.mbedtls_chacha20_keystream_block
          (C.mbedtls_chacha20_starts c.chacha20_ctx nonce 1).2 0).1 ≠ 0 then
        (C.mbedtls_chacha20_keystream_block
          (C.mbedtls_chacha20_starts c.chacha20_ctx nonce 1).2 0).1
      else
        (C.mbedtls_poly1305_setkey c.poly1305_ctx
          (one_time_key C (C.mbedtls_chacha20_starts c.chacha20_ctx nonce 1).2)).1 := by
  simp only [mbedtls_aead_chacha20_poly1305_starts, one_time_key]
  split
  · rfl
  · split <;> rfl

/-- A `starts` that does not return 0 leaves the state, both counters and the
mode as they were. -/
theorem starts_failure_fields (C : Collaborators CS PS)
    (c : mbedtls_aead_chacha20_poly1305_context CS PS) (nonce : List Byte)
    (mode : mbedtls_aead_chacha20_poly1305_mode_t) (scratch : List Byte)
    (h : (mbedtls_aead_chacha20_poly1305_starts C (some c) (some nonce) mode scratch).result
      ≠ 0) :
    ∃ d, (mbedtls_aead_chacha20_poly1305_starts C (some c) (some nonce) mode scratch).ctx =
        some d ∧
      d.state = c.state ∧ d.aad_len = c.aad_len ∧ d.ciphertext_len = c.ciphertext_len ∧
      d.mode = c.mode := by
  simp only [mbedtls_aead_chacha20_poly1305_starts] at h ⊢
  by_cases h1 : (C.mbedtls_chacha20_starts c.chacha20_ctx nonce 1).1 = 0
  · by_cases h2 : (C.mbedtls_chacha20_keystream_block
        (C.mbedtls_chacha20_starts c.chacha20_ctx nonce 1).2 0).1 = 0
    · simp only [h1, h2, ne_eq, not_true_eq_false, if_false] at h ⊢
      simp only [h, if_false]
      exact ⟨_, rfl, rfl, rfl, rfl, rfl⟩
    · simp only [h1, h2, ne_eq, not_true_eq_false, not_false_eq_true, if_false, if_true]
      exact ⟨_, rfl, rfl, rfl, rfl, rfl⟩
  · simp only [h1, ne_eq, not_false_eq_true, if_true]
    exact ⟨_, rfl, rfl, rfl, rfl, rfl⟩

/-- What `update_aad` does in a state other than STATE_AAD. -/
theorem update_aad_bad_state (C : Collaborators CS PS)
    (c : mbedtls_aead_chacha20_poly1305_context CS PS) (a : List Byte)
    (h : c.state ≠ AEAD_CHACHA20_POLY1305_STATE_AAD) :
    mbedtls_aead_chacha20_poly1305_update_aad C (some c) (some a) =
      { result := MBEDTLS_ERR_AEAD_CHACHA20_POLY1305_BAD_STATE, ctx := some c, out := [] } := by
  simp [mbedtls_aead_chacha20_poly1305_update_aad, h]

/-! ## The authenticator calls of a whole message -/

theorem pad_chunk_of_ne (n : Nat) (h : n % 16 ≠ 0) :
    pad_chunk n = [List.replicate (16 - n % 16) 0] := by
  simp [pad_chunk, h]

theorem pad_chunk_of_eq (n : Nat) (h : n % 16 = 0) : pad_chunk n = [] := by
  simp [pad_chunk, h]

theorem pad_chunk_length (n : Nat) :
    total_length (pad_chunk n) ≤ 15 ∧ (n + total_length (pad_chunk n)) % 16 = 0 := by
  have h16 : n % 16 < 16 := Nat.mod_lt _ (by norm_num)
  by_cases h : n % 16 = 0
  · rw [pad_chunk_of_eq n h]
    simp [total_length, h]
  · rw [pad_chunk_of_ne n h]
    simp only [total_length, List.flatten_cons, List.flatten_nil, List.append_nil,
      List.length_replicate]
    omega

theorem pad_chunk_congr (a b : Nat) (h : a % 2 ^ 64 = b % 2 ^ 64) : pad_chunk a = pad_chunk b := by
  have h1 : a % 16 = b % 16 := by
    have ha : a % 2 ^ 64 % 16 = a % 16 := Nat.mod_mod_of_dvd a (by norm_num)
    have hb : b % 2 ^ 64 % 16 = b % 16 := Nat.mod_mod_of_dvd b (by norm_num)
    rw [← ha, ← hb, h]
  simp only [pad_chunk, h1]

theorem le64_congr (a b : Nat) (h : a % 2 ^ 64 = b % 2 ^ 64) : le64 a = le64 b := by
  rw [← le64_mod a, ← le64_mod b, h]

/-- The padding rule as a sequence of authenticator calls. -/
theorem absorb_pad_eq (C : Collaborators CS PS) (ps : PS) (n : Nat) :
    absorb_pad C ps n = absorb_all C ps (pad_chunk n) := by
  have h16 : n % 16 < 16 := Nat.mod_lt _ (by norm_num)
  by_cases h : n % 16 = 0
  · simp [absorb_pad, pad_chunk, absorb_all, h]
  · have hp : (16 - n % 16) % 16 = 16 - n % 16 := Nat.mod_eq_of_lt (by omega)
    simp [absorb_pad, pad_chunk, absorb_all, pad16, h, hp]

theorem absorb_all_append (C : Collaborators CS PS) (ps : PS) (a b : List (List Byte)) :
    absorb_all C ps (a ++ b) = absorb_all C (absorb_all C ps a) b := by
  simp [absorb_all, List.foldl_append]

theorem total_length_cons (a : List Byte) (rest : List (List Byte)) :
    total_length (a :: rest) = a.length + total_length rest := by
  simp [total_length]

/-- A sequence of `update_aad` calls in STATE_AAD: the authenticator absorbs the
chunks one by one and `aad_len` grows by their lengths modulo `2^64`. -/
theorem update_aad_chunks_eq (C : Collaborators CS PS) (aads : List (List Byte)) :
    ∀ c : mbedtls_aead_chacha20_poly1305_context CS PS,
      c.state = AEAD_CHACHA20_POLY1305_STATE_AAD →
      ∃ d, update_aad_chunks C (some c) aads = some d ∧
        d.state = AEAD_CHACHA20_POLY1305_STATE_AAD ∧
        d.chacha20_ctx = c.chacha20_ctx ∧
        d.poly1305_ctx = absorb_all C c.poly1305_ctx aads ∧
        d.aad_len % 2 ^ 64 = (c.aad_len + total_length aads) % 2 ^ 64 ∧
        d.ciphertext_len = c.ciphertext_len ∧ d.mode = c.mode := by
  induction aads with
  | nil =>
    intro c h
    exact ⟨c, rfl, h, rfl, rfl, rfl, rfl, rfl⟩
  | cons a rest ih =>
    intro c h
    obtain ⟨d, hd, h1, h2, h3, h4, h5, h6⟩ := ih
      { c with
        aad_len := (c.aad_len + a.length) % 2 ^ 64
        poly1305_ctx := (C.mbedtls_poly1305_update c.poly1305_ctx a).2 } h
    refine ⟨d, ?_, h1, h2, h3, ?_, h5, h6⟩
    · show update_aad_chunks C
          (mbedtls_aead_chacha20_poly1305_update_aad C (some c) (some a)).ctx rest = some d
      rw [update_aad_eq C c a h]
      exact hd
    · rw [h4, total_length_cons]
      simp only []
      omega

/-- A sequence of `update` calls in STATE_CIPHERTEXT: the authenticator absorbs
the ciphertext of the chunks one by one and `ciphertext_len` grows by their
lengths modulo `2^64`. -/
theorem update_chunks_ciphertext (C : Collaborators CS PS) (texts : List (List Byte)) :
    ∀ c : mbedtls_aead_chacha20_poly1305_context CS PS,
      c.state = AEAD_CHACHA20_POLY1305_STATE_CIPHERTEXT →
      ∃ d, (update_chunks C (some c) texts).ctx = some d ∧
        d.state = AEAD_CHACHA20_POLY1305_STATE_CIPHERTEXT ∧
        d.poly1305_ctx =
          absorb_all C c.poly1305_ctx (authenticated_chunks C c.mode c.chacha20_ctx texts) ∧
        d.aad_len = c.aad_len ∧
        d.ciphertext_len % 2 ^ 64 = (c.ciphertext_len + total_length texts) % 2 ^ 64 ∧
        d.mode = c.mode := by
  induction texts with
  | nil =>
    intro c h
    exact ⟨c, rfl, h, rfl, rfl, rfl, rfl⟩
  | cons t rest ih =>
    intro c h
    have e := update_eq C c t (Or.inr h)
    obtain ⟨d, hd, h1, h2, h3, h4, h5⟩ := ih
      { chacha20_ctx := (C.mbedtls_chacha20_update c.chacha20_ctx t).2.1
        poly1305_ctx :=
          (C.mbedtls_poly1305_update
            (if c.state = AEAD_CHACHA20_POLY1305_STATE_AAD then
              absorb_pad C c.poly1305_ctx c.aad_len
            else c.poly1305_ctx)
            (if c.mode = MBEDTLS_AEAD_CHACHA20_POLY1305_ENCRYPT then
              (C.mbedtls_chacha20_update c.chacha20_ctx t).2.2
            else t)).2
        aad_len := c.aad_len
        ciphertext_len := (c.ciphertext_len + t.length) % 2 ^ 64
        state := AEAD_CHACHA20_POLY1305_STATE_CIPHERTEXT
        mode := c.mode } rfl
    have hne : ¬ c.state = AEAD_CHACHA20_POLY1305_STATE_AAD := by
      rw [h]; exact state_ciphertext_ne_aad
    refine ⟨d, ?_, h1, ?_, h3, ?_, h5⟩
    · show (update_chunks C
          (mbedtls_aead_chacha20_poly1305_update C (some c) (some t) true).ctx rest).ctx = some d
      rw [e]
      exact hd
    · rw [h2]
      simp only [hne, if_false, authenticated_chunks, authenticated_text, absorb_all,
        List.foldl_cons]
    · rw [h4, total_length_cons]
      simp only []
      omega

/-- The authenticator calls of a whole message driven in chunks from a session
in STATE_AAD: the AAD chunks, the AAD padding, then, if there was an `update`
call, the ciphertext chunks and the ciphertext padding, then the length block;
then the finalisation. -/
theorem message_authenticator_calls (C : Collaborators CS PS)
    (c : mbedtls_aead_chacha20_poly1305_context CS PS) (aads texts : List (List Byte))
    (hs : c.state = AEAD_CHACHA20_POLY1305_STATE_AAD) :
    mbedtls_aead_chacha20_poly1305_finish C
        (update_chunks C (update_aad_chunks C (some c) aads) texts).ctx true =
      { result := 0
        ctx := (mbedtls_aead_chacha20_poly1305_finish C
          (update_chunks C (update_aad_chunks C (some c) aads) texts).ctx true).ctx
        out :=
          (C.mbedtls_poly1305_finish
            (absorb_all C c.poly1305_ctx
              (aads ++ pad_chunk (c.aad_len + total_length aads) ++
                (if texts = [] then []
                  else authenticated_chunks C c.mode c.chacha20_ctx texts ++
                    pad_chunk (c.ciphertext_len + total_length texts)) ++
                [le64 (c.aad_len + total_length aads) ++
                  le64 (c.ciphertext_len + total_length texts)]))).2.2 } ∧
    (mbedtls_aead_chacha20_poly1305_finish C
        (update_chunks C (update_aad_chunks C (some c) aads) texts).ctx true).ctx.map
          (fun d => d.poly1305_ctx) =
      some (C.mbedtls_poly1305_finish
        (absorb_all C c.poly1305_ctx
          (aads ++ pad_chunk (c.aad_len + total_length aads) ++
            (if texts = [] then []
              else authenticated_chunks C c.mode c.chacha20_ctx texts ++
                pad_chunk (c.ciphertext_len + total_length texts)) ++
            [le64 (c.aad_len + total_length aads) ++
              le64 (c.ciphertext_len + total_length texts)]))).2.1 := by
  obtain ⟨d, hd, ds, dcs, dps, daad, dct, dmode⟩ := update_aad_chunks_eq C aads c hs
  have hpadA : pad_chunk d.aad_len = pad_chunk (c.aad_len + total_length aads) :=
    pad_chunk_congr _ _ daad
  have hleA : le64 d.aad_len = le64 (c.aad_len + total_length aads) := le64_congr _ _ daad
  rw [hd]
  cases texts with
  | nil =>
    have hne : d.state ≠ AEAD_CHACHA20_POLY1305_STATE_INIT := by
      rw [ds]; exact state_aad_ne_init
    have hT : c.ciphertext_len + total_length ([] : List (List Byte)) = c.ciphertext_len := by
      simp [total_length]
    simp only [update_chunks]
    rw [finish_eq C d hne]
    simp only [ds, if_true, absorb_pad_eq, hpadA, hleA, dct, dps, hT, absorb_all_append,
      List.append_nil, Option.map_some']
    exact ⟨rfl, rfl⟩
  | cons t ts =>
    have e1 := update_eq C d t (Or.inl ds)
    obtain ⟨e, he, es, eps, eaad, ect, emode⟩ := update_chunks_ciphertext C ts
      { chacha20_ctx := (C.mbedtls_chacha20_update d.chacha20_ctx t).2.1
        poly1305_ctx :=
          (C.mbedtls_poly1305_update
            (if d.state = AEAD_CHACHA20_POLY1305_STATE_AAD then
              absorb_pad C d.poly1305_ctx d.aad_len
            else d.poly1305_ctx)
            (if d.mode = MBEDTLS_AEAD_CHACHA20_POLY1305_ENCRYPT then
              (C.mbedtls_chacha20_update d.chacha20_ctx t).2.2
            else t)).2
        aad_len := d.aad_len
        ciphertext_len := (d.ciphertext_len + t.length) % 2 ^ 64
        state := AEAD_CHACHA20_POLY1305_STATE_CIPHERTEXT
        mode := d.mode } rfl
    have hctx : (update_chunks C (some d) (t :: ts)).ctx = some e := by
      show (update_chunks C
        (mbedtls_aead_chacha20_poly1305_update C (some d) (some t) true).ctx ts).ctx = some e
      rw [e1]
      exact he
    have hne : e.state ≠ AEAD_CHACHA20_POLY1305_STATE_INIT := by
      rw [es]; exact state_ciphertext_ne_init
    have hT : e.ciphertext_len % 2 ^ 64 =
        (c.ciphertext_len + total_length (t :: ts)) % 2 ^ 64 := by
      rw [ect, total_length_cons]
      simp only [dct]
      omega
    have hpadT : pad_chunk e.ciphertext_len =
        pad_chunk (c.ciphertext_len + total_length (t :: ts)) := pad_chunk_congr _ _ hT
    have hleT : le64 e.ciphertext_len = le64 (c.ciphertext_len + total_length (t :: ts)) :=
      le64_congr _ _ hT
    have hps : e.poly1305_ctx =
        absorb_all C c.poly1305_ctx
          (aads ++ pad_chunk (c.aad_len + total_length aads) ++
            authenticated_chunks C c.mode c.chacha20_ctx (t :: ts)) := by
      rw [eps]
      simp only [ds, if_true, absorb_pad_eq, hpadA, dps, dmode, dcs,
        authenticated_chunks, authenticated_text, absorb_all, List.foldl_cons,
        List.foldl_append]
    rw [hctx, finish_eq C e hne]
    simp only [es, state_ciphertext_ne_aad, if_false, if_true, absorb_pad_eq, hpadT, hleT, hps,
      eaad, hleA, absorb_all_append, Option.map_some', reduceCtorEq]
    exact ⟨rfl, rfl⟩

/-! ## The byte stream determines the message -/

theorem le64_injective (a b : Nat) (ha : a < 2 ^ 64) (hb : b < 2 ^ 64) (h : le64 a = le64 b) :
    a = b := by
  rw [← le_decode_le64 a ha, ← le_decode_le64 b hb, h]

/-- The byte stream `A || pad || C || pad || le64(len A) || le64(len C)`
determines `A` and `C`, their lengths being below `2^64`. -/
theorem mac_data_injective (A Ct A' Ct' : List Byte)
    (hA : A.length < 2 ^ 64) (hC : Ct.length < 2 ^ 64)
    (hA' : A'.length < 2 ^ 64) (hC' : Ct'.length < 2 ^ 64)
    (h : mac_data A Ct = mac_data A' Ct') : A = A' ∧ Ct = Ct' := by
  unfold mac_data at h
  obtain ⟨h1, h2⟩ := List.append_inj' h (by rw [le64_length, le64_length])
  obtain ⟨h3, h4⟩ := List.append_inj' h1 (by rw [le64_length, le64_length])
  have eA : A.length = A'.length := le64_injective _ _ hA hA' h4
  have eC : Ct.length = Ct'.length := le64_injective _ _ hC hC' h2
  obtain ⟨h5, _⟩ := List.append_inj' h3 (by rw [eC])
  obtain ⟨h7, h8⟩ := List.append_inj' h5 eC
  obtain ⟨h9, _⟩ := List.append_inj' h7 (by rw [eA])
  exact ⟨h9, h8⟩

/-! ## The recorded byte stream of a session -/

theorem recording_streaming (C : Collaborators CS PS) : AbsorbStreaming (recording C) := by
  intro s a b
  simp [recording]

theorem recording_keeps_length (C : Collaborators CS PS) (hL : TransformKeepsLength C) :
    TransformKeepsLength (recording C) :=
  fun s a => hL s a

/-- The recorder never fails, so whether the collaborator calls of a session
succeed does not depend on the associated data. -/
theorem recording_succeed (C : Collaborators CS PS) (key nonce aad aad' : List Byte)
    (h : CollaboratorsSucceed (recording C) key nonce aad) :
    CollaboratorsSucceed (recording C) key nonce aad' :=
  ⟨h.1, h.2.1, h.2.2.1, rfl, rfl⟩

theorem recording_authenticate (C : Collaborators CS PS) (ps otk stream : List Byte) :
    authenticate (recording C) ps otk stream = stream := by
  simp [authenticate, recording]

theorem recording_absorb_pad (C : Collaborators CS PS) (ps : List Byte) (n : Nat) :
    absorb_pad (recording C) ps n = ps ++ pad16 n := by
  unfold absorb_pad
  by_cases h : n % 16 = 0
  · simp [h, pad16]
  · simp [h, recording]

/-- The length of what the authenticator is given for the text: that of the
input, the transform keeping lengths. -/
theorem authenticated_text_length (mode : mbedtls_aead_chacha20_poly1305_mode_t)
    (input output : List Byte) (h : output.length = input.length) :
    (authenticated_text mode input output).length = input.length := by
  unfold authenticated_text
  split
  · exact h
  · rfl

/-- The byte stream that a one-shot call gives to its authenticator, observed
with the recorder: the RFC 7539 stream of the associated data and the
ciphertext. -/
theorem recorded_stream (C : Collaborators CS PS) (key nonce aad input : List Byte)
    (mode : mbedtls_aead_chacha20_poly1305_mode_t)
    (ctx0 : mbedtls_aead_chacha20_poly1305_context CS (List Byte)) (scratch : List Byte)
    (hOk : CollaboratorsSucceed (recording C) key nonce aad) (hL : TransformKeepsLength C) :
    (mbedtls_aead_chacha20_poly1305_crypt_and_mac (recording C) (some key) (some nonce) mode
        (some aad) (some input) true true ctx0 scratch).result = 0 ∧
    (mbedtls_aead_chacha20_poly1305_crypt_and_mac (recording C) (some key) (some nonce) mode
        (some aad) (some input) true true ctx0 scratch).mac =
      mac_data aad
        (authenticated_text mode input
          (mbedtls_aead_chacha20_poly1305_crypt_and_mac (recording C) (some key) (some nonce)
            mode (some aad) (some input) true true ctx0 scratch).output) ∧
    (authenticated_text mode input
      (mbedtls_aead_chacha20_poly1305_crypt_and_mac (recording C) (some key) (some nonce)
        mode (some aad) (some input) true true ctx0 scratch).output).length = input.length := by
  obtain ⟨h1, h2, h3⟩ := crypt_and_mac_spec (recording C) key nonce aad input mode ctx0 scratch
    hOk (recording_streaming C) (recording_keeps_length C hL)
  refine ⟨h1, ?_, ?_⟩
  · rw [recording_authenticate] at h3
    exact h3
  · apply authenticated_text_length
    rw [h2]
    exact hL _ _

/-- The byte stream that `update_aad`, `update` and `finish` give to the
authenticator of a started session, observed with the recorder. -/
theorem recorded_stream_calls (C : Collaborators CS PS)
    (c : mbedtls_aead_chacha20_poly1305_context CS (List Byte)) (aad input : List Byte)
    (hs : c.state = AEAD_CHACHA20_POLY1305_STATE_AAD) (ha : c.aad_len = 0)
    (hc : c.ciphertext_len = 0) (hL : TransformKeepsLength C) :
    (mbedtls_aead_chacha20_poly1305_finish (recording C)
      (mbedtls_aead_chacha20_poly1305_update (recording C)
        (mbedtls_aead_chacha20_poly1305_update_aad (recording C) (some c) (some aad)).ctx
        (some input) true).ctx true).result = 0 ∧
    (mbedtls_aead_chacha20_poly1305_finish (recording C)
      (mbedtls_aead_chacha20_poly1305_update (recording C)
        (mbedtls_aead_chacha20_poly1305_update_aad (recording C) (some c) (some aad)).ctx
        (some input) true).ctx true).out =
      c.poly1305_ctx ++ mac_data aad
        (authenticated_text c.mode input
          (mbedtls_aead_chacha20_poly1305_update (recording C)
            (mbedtls_aead_chacha20_poly1305_update_aad (recording C) (some c) (some aad)).ctx
            (some input) true).out) := by
  have hlen : (authenticated_text c.mode input
      (C.mbedtls_chacha20_update c.chacha20_ctx input).2.2).length = input.length :=
    authenticated_text_length _ _ _ (hL _ _)
  rw [update_aad_eq (recording C) c aad hs]
  simp only []
  rw [update_eq (recording C)
    { c with
      aad_len := (c.aad_len + aad.length) % 2 ^ 64
      poly1305_ctx := ((recording C).mbedtls_poly1305_update c.poly1305_ctx aad).2 }
    input (Or.inl hs)]
  simp only []
  rw [finish_eq (recording C) _ (by exact state_ciphertext_ne_init)]
  refine ⟨rfl, ?_⟩
  simp only [hs, ha, hc, if_true, if_neg state_ciphertext_ne_aad, recording_absorb_pad,
    absorb_pad_mod_lit, absorb_pad_mod, le64_mod, le64_mod_lit, Nat.zero_add]
  simp only [recording, mac_data, authenticated_text, List.append_assoc] at hlen ⊢
  rw [hlen]

/-! ## Scrubbing -/

/-- `mbedtls_zeroize` on a buffer of at least `n` bytes: the first `n` bytes
are zero and the others are untouched. -/
theorem zeroize_eq (v : List Byte) :
    ∀ n, n ≤ v.length → mbedtls_zeroize v n = List.replicate n 0 ++ v.drop n := by
  induction v with
  | nil =>
    intro n h
    have : n = 0 := by simpa using h
    subst this
    rfl
  | cons x xs ih =>
    intro n h
    cases n with
    | zero => rfl
    | succ m =>
      have hm : m ≤ xs.length := by simpa using h
      simp only [mbedtls_zeroize, ih m hm, List.replicate_succ, List.drop_succ_cons,
        List.cons_append]

theorem zeroize_all (v : List Byte) : mbedtls_zeroize v v.length = List.replicate v.length 0 := by
  rw [zeroize_eq v v.length (Nat.le_refl _)]
  simp

theorem words_length (n : Nat) : ∀ bs : List Byte, (words n bs).length = n := by
  induction n with
  | zero => intro bs; rfl
  | succ m ih => intro bs; simp [words, ih]

theorem double_round_length (s : List Nat) : (double_round s).length = s.length := by
  unfold double_round
  split
  · rfl
  · rfl

theorem iterate_double_round_length (n : Nat) :
    ∀ s : List Nat, (Nat.iterate double_round n s).length = s.length := by
  induction n with
  | zero => intro s; rfl
  | succ m ih =>
    intro s
    rw [Function.iterate_succ_apply, ih, double_round_length]

theorem flatMap_word_bytes_length (ws : List Nat) :
    (ws.flatMap word_bytes).length = 4 * ws.length := by
  induction ws with
  | nil => rfl
  | cons w rest ih =>
    simp only [List.flatMap_cons, List.length_append, ih, word_bytes, List.length_cons,
      List.length_nil]
    omega

/-- The block function gives 64 bytes. -/
theorem chacha20_block_length (key nonce : List Byte) (counter : Nat) :
    (chacha20_block key nonce counter).length = 64 := by
  simp only [chacha20_block, flatMap_word_bytes_length, List.length_zipWith,
    iterate_double_round_length, List.length_append, words_length, List.length_cons,
    List.length_nil]
  rfl

/-! ## The one-shot function: functional correctness -/

/-- C1. For every key, nonce (in particular 32-byte keys and 12-byte nonces),
direction, associated data and input, all buffers present and the collaborators
succeeding, `crypt_and_mac` returns 0, writes to `output` the cipher transform
of the input in the cipher state keyed with the key and started with the nonce
at block counter 1, and writes to `mac` the finalisation of the authenticator,
keyed with the first 32 bytes of keystream block 0, over exactly
`A || pad || C || pad || le64(len A) || le64(len C)`, where `C` is the output
when encrypting and the input when decrypting. -/
theorem crypt_and_mac_correct (C : Collaborators CS PS) (key nonce aad input : List Byte)
    (mode : mbedtls_aead_chacha20_poly1305_mode_t)
    (ctx0 : mbedtls_aead_chacha20_poly1305_context CS PS) (scratch : List Byte)
    (hOk : CollaboratorsSucceed C key nonce aad) (hS : AbsorbStreaming C)
    (hL : TransformKeepsLength C) :
    (mbedtls_aead_chacha20_poly1305_crypt_and_mac C (some key) (some nonce) mode (some aad)
        (some input) true true ctx0 scratch).result = 0 ∧
    (mbedtls_aead_chacha20_poly1305_crypt_and_mac C (some key) (some nonce) mode (some aad)
        (some input) true true ctx0 scratch).output =
      (C.mbedtls_chacha20_update (keyed_cipher C key nonce) input).2.2 ∧
    (mbedtls_aead_chacha20_poly1305_crypt_and_mac C (some key) (some nonce) mode (some aad)
        (some input) true true ctx0 scratch).mac =
      authenticate C C.mbedtls_poly1305_init (one_time_key C (keyed_cipher C key nonce))
        (mac_data aad
          (authenticated_text mode input
            (mbedtls_aead_chacha20_poly1305_crypt_and_mac C (some key) (some nonce) mode
              (some aad) (some input) true true ctx0 scratch).output)) := by
  rw [crypt_and_mac_eq C key nonce aad input mode ctx0 scratch hOk]
  refine ⟨rfl, rfl, ?_⟩
  have hlen : (authenticated_text mode input
      (C.mbedtls_chacha20_update (keyed_cipher C key nonce) input).2.2).length = input.length := by
    unfold authenticated_text
    split
    · exact hL _ _
    · rfl
  simp only [authenticate]
  rw [← hlen, absorb_message_eq C hS]
  rfl

/-- Witness of C1: the one-shot call of the self-test, on the RFC 7539 section
2.8.2 vector with the ChaCha20 and Poly1305 of the RFC, to which the theorem
applies; evaluated, its output and tag are the expected ones of the self-test,
and the self-test returns 0. -/
theorem crypt_and_mac_correct_witness :
    CollaboratorsSucceed rfc7539 test_key test_nonce test_aad ∧
    AbsorbStreaming rfc7539 ∧ TransformKeepsLength rfc7539 ∧
    ((mbedtls_aead_chacha20_poly1305_crypt_and_mac rfc7539 (some test_key) (some test_nonce)
        MBEDTLS_AEAD_CHACHA20_POLY1305_ENCRYPT (some test_aad) (some test_input) true true
        junk_context junk_scratch).result = 0 ∧
      (mbedtls_aead_chacha20_poly1305_crypt_and_mac rfc7539 (some test_key) (some test_nonce)
        MBEDTLS_AEAD_CHACHA20_POLY1305_ENCRYPT (some test_aad) (some test_input) true true
        junk_context junk_scratch).output =
        (rfc7539.mbedtls_chacha20_update (keyed_cipher rfc7539 test_key test_nonce)
          test_input).2.2 ∧
      (mbedtls_aead_chacha20_poly1305_crypt_and_mac rfc7539 (some test_key) (some test_nonce)
        MBEDTLS_AEAD_CHACHA20_POLY1305_ENCRYPT (some test_aad) (some test_input) true true
        junk_context junk_scratch).mac =
        authenticate rfc7539 rfc7539.mbedtls_poly1305_init
          (one_time_key rfc7539 (keyed_cipher rfc7539 test_key test_nonce))
          (mac_data test_aad
            (authenticated_text MBEDTLS_AEAD_CHACHA20_POLY1305_ENCRYPT test_input
              (mbedtls_aead_chacha20_poly1305_crypt_and_mac rfc7539 (some test_key)
                (some test_nonce) MBEDTLS_AEAD_CHACHA20_POLY1305_ENCRYPT (some test_aad)
                (some test_input) true true junk_context junk_scratch).output))) ∧
    (self_test_call.result = 0 ∧ self_test_call.output = test_output ∧
      self_test_call.mac = test_mac ∧
      mbedtls_aead_chacha20_poly1305_self_test rfc7539 junk_context junk_scratch =
        0) :=
  ⟨rfc7539_succeed test_key test_nonce test_aad, rfc7539_absorb_streaming,
    rfc7539_transform_keeps_length,
    crypt_and_mac_correct rfc7539 test_key test_nonce test_aad test_input
      MBEDTLS_AEAD_CHACHA20_POLY1305_ENCRYPT junk_context junk_scratch
      (rfc7539_succeed test_key test_nonce test_aad) rfc7539_absorb_streaming
      rfc7539_transform_keeps_length,
    by decide!⟩

/-- C2. Round trip: when the cipher transform is XOR with a keystream that the
cipher state (key, nonce, position) determines, and the collaborators succeed,
then for every key, nonce (in particular 12-byte nonces), associated data and
plaintext, the one-shot function in DECRYPT mode on the output of the one-shot
function in ENCRYPT mode returns 0, writes the plaintext, and computes the tag
the encrypt run computed. -/
theorem crypt_and_mac_round_trip (C : Collaborators CS PS) (keystream : CS → Nat → List Byte)
    (K N A P : List Byte)
    (ctx0 ctx0' : mbedtls_aead_chacha20_poly1305_context CS PS) (scratch scratch' : List Byte)
    (hX : TransformIsXor C keystream) (hOk : CollaboratorsSucceed C K N A) :
    (mbedtls_aead_chacha20_poly1305_crypt_and_mac C (some K) (some N)
        MBEDTLS_AEAD_CHACHA20_POLY1305_DECRYPT (some A)
        (some (mbedtls_aead_chacha20_poly1305_crypt_and_mac C (some K) (some N)
          MBEDTLS_AEAD_CHACHA20_POLY1305_ENCRYPT (some A) (some P) true true
          ctx0 scratch).output) true true ctx0' scratch').result = 0 ∧
    (mbedtls_aead_chacha20_poly1305_crypt_and_mac C (some K) (some N)
        MBEDTLS_AEAD_CHACHA20_POLY1305_DECRYPT (some A)
        (some (mbedtls_aead_chacha20_poly1305_crypt_and_mac C (some K) (some N)
          MBEDTLS_AEAD_CHACHA20_POLY1305_ENCRYPT (some A) (some P) true true
          ctx0 scratch).output) true true ctx0' scratch').output = P ∧
    (mbedtls_aead_chacha20_poly1305_crypt_and_mac C (some K) (some N)
        MBEDTLS_AEAD_CHACHA20_POLY1305_DECRYPT (some A)
        (some (mbedtls_aead_chacha20_poly1305_crypt_and_mac C (some K) (some N)
          MBEDTLS_AEAD_CHACHA20_POLY1305_ENCRYPT (some A) (some P) true true
          ctx0 scratch).output) true true ctx0' scratch').mac =
      (mbedtls_aead_chacha20_poly1305_crypt_and_mac C (some K) (some N)
        MBEDTLS_AEAD_CHACHA20_POLY1305_ENCRYPT (some A) (some P) true true
        ctx0 scratch).mac := by
  obtain ⟨hk, hx⟩ := hX (keyed_cipher C K N) P
  have hlen : (C.mbedtls_chacha20_update (keyed_cipher C K N) P).2.2.length = P.length := by
    rw [hx]
    exact zipWith_xor_length P _ hk
  rw [crypt_and_mac_eq C K N A P _ ctx0 scratch hOk, crypt_and_mac_eq C K N A _ _ ctx0' scratch'
      hOk]
  refine ⟨rfl, ?_, ?_⟩
  · show (C.mbedtls_chacha20_update (keyed_cipher C K N)
        (C.mbedtls_chacha20_update (keyed_cipher C K N) P).2.2).2.2 = P
    rw [(hX (keyed_cipher C K N) _).2, hlen, hx]
    exact zipWith_xor_cancel P _ hk
  · simp only [authenticated_text, if_true, hlen]
    simp

/-- Witness of C2: the round trip of the self-test vector with the ChaCha20
and Poly1305 of RFC 7539. -/
theorem crypt_and_mac_round_trip_witness :
    TransformIsXor rfc7539 chacha20_keystream ∧
    CollaboratorsSucceed rfc7539 test_key test_nonce test_aad ∧
    ((mbedtls_aead_chacha20_poly1305_crypt_and_mac rfc7539 (some test_key) (some test_nonce)
        MBEDTLS_AEAD_CHACHA20_POLY1305_DECRYPT (some test_aad)
        (some (mbedtls_aead_chacha20_poly1305_crypt_and_mac rfc7539 (some test_key)
          (some test_nonce) MBEDTLS_AEAD_CHACHA20_POLY1305_ENCRYPT (some test_aad)
          (some test_input) true true junk_context junk_scratch).output)
        true true junk_context junk_scratch2).result = 0 ∧
      (mbedtls_aead_chacha20_poly1305_crypt_and_mac rfc7539 (some test_key) (some test_nonce)
        MBEDTLS_AEAD_CHACHA20_POLY1305_DECRYPT (some test_aad)
        (some (mbedtls_aead_chacha20_poly1305_crypt_and_mac rfc7539 (some test_key)
          (some test_nonce) MBEDTLS_AEAD_CHACHA20_POLY1305_ENCRYPT (some test_aad)
          (some test_input) true true junk_context junk_scratch).output)
        true true junk_context junk_scratch2).output = test_input ∧
      (mbedtls_aead_chacha20_poly1305_crypt_and_mac rfc7539 (some test_key) (some test_nonce)
        MBEDTLS_AEAD_CHACHA20_POLY1305_DECRYPT (some test_aad)
        (some (mbedtls_aead_chacha20_poly1305_crypt_and_mac rfc7539 (some test_key)
          (some test_nonce) MBEDTLS_AEAD_CHACHA20_POLY1305_ENCRYPT (some test_aad)
          (some test_input) true true junk_context junk_scratch).output)
        true true junk_context junk_scratch2).mac =
        (mbedtls_aead_chacha20_poly1305_crypt_and_mac rfc7539 (some test_key) (some test_nonce)
          MBEDTLS_AEAD_CHACHA20_POLY1305_ENCRYPT (some test_aad) (some test_input) true true
          junk_context junk_scratch).mac) :=
  ⟨rfc7539_transform_is_xor, rfc7539_succeed test_key test_nonce test_aad,
    crypt_and_mac_round_trip rfc7539 chacha20_keystream test_key test_nonce test_aad test_input
      junk_context junk_context junk_scratch junk_scratch2
      rfc7539_transform_is_xor (rfc7539_succeed test_key test_nonce test_aad)⟩

/-- C3. Chunk independence: in a started session (either direction, any
absorbed AAD: state STATE_AAD, no text processed yet), with streaming
collaborators, driving `update` with any sequence of chunks (non-empty chunks
in particular) and then calling `finish` gives the same concatenated output,
the same tag, and the same final counters, state and mode as one `update` call
on the concatenation of the chunks followed by `finish`; all calls return 0. -/
theorem update_chunk_independence (C : Collaborators CS PS)
    (c : mbedtls_aead_chacha20_poly1305_context CS PS) (chunks : List (List Byte))
    (hT : TransformStreaming C) (hS : AbsorbStreaming C) (hL : TransformKeepsLength C)
    (hstate : c.state = AEAD_CHACHA20_POLY1305_STATE_AAD) (hct : c.ciphertext_len = 0) :
    (update_chunks C (some c) chunks).result = 0 ∧
    (update_chunks C (some c) chunks).out =
      (mbedtls_aead_chacha20_poly1305_update C (some c) (some chunks.flatten) true).out ∧
    (mbedtls_aead_chacha20_poly1305_finish C (update_chunks C (some c) chunks).ctx true).result
      = 0 ∧
    (mbedtls_aead_chacha20_poly1305_finish C
      (mbedtls_aead_chacha20_poly1305_update C (some c) (some chunks.flatten) true).ctx
      true).result = 0 ∧
    (mbedtls_aead_chacha20_poly1305_finish C (update_chunks C (some c) chunks).ctx true).out =
      (mbedtls_aead_chacha20_poly1305_finish C
        (mbedtls_aead_chacha20_poly1305_update C (some c) (some chunks.flatten) true).ctx
        true).out ∧
    ∃ d d',
      (mbedtls_aead_chacha20_poly1305_finish C (update_chunks C (some c) chunks).ctx true).ctx =
        some d ∧
      (mbedtls_aead_chacha20_poly1305_finish C
        (mbedtls_aead_chacha20_poly1305_update C (some c) (some chunks.flatten) true).ctx
        true).ctx = some d' ∧
      d.aad_len = d'.aad_len ∧ d.ciphertext_len = d'.ciphertext_len ∧
      d.state = d'.state ∧ d.mode = d'.mode := by
  cases chunks with
  | nil =>
    have hout : (C.mbedtls_chacha20_update c.chacha20_ctx []).2.2 = [] :=
      List.length_eq_zero.mp (hL _ _)
    have hne : c.state ≠ AEAD_CHACHA20_POLY1305_STATE_INIT := by
      rw [hstate]; exact state_aad_ne_init
    have hpad : ∀ ps : PS, absorb_pad C ps 0 = ps := fun ps => by simp [absorb_pad]
    have habs : ∀ ps : PS, (C.mbedtls_poly1305_update (C.mbedtls_poly1305_update ps []).2
        (le64 c.aad_len ++ le64 0)).2 =
        (C.mbedtls_poly1305_update ps (le64 c.aad_len ++ le64 0)).2 := fun ps => by
      rw [hS]; rfl
    simp only [update_chunks, List.flatten_nil]
    rw [update_eq C c [] (Or.inl hstate), finish_eq C c hne]
    simp only []
    rw [finish_eq C _ state_ciphertext_ne_init]
    simp [hstate, hct, hout, state_ciphertext_ne_aad, hpad, habs]
  | cons ch rest =>
    obtain ⟨i1, i2, i3⟩ := update_chunks_cons C hT hS rest c ch (Or.inl hstate)
    obtain ⟨c1, hc1, hs1⟩ := update_state C c (ch ++ rest.flatten) (Or.inl hstate)
    have hne : c1.state ≠ AEAD_CHACHA20_POLY1305_STATE_INIT := by
      rw [hs1]; exact state_ciphertext_ne_init
    rw [List.flatten_cons, i1, i2, hc1, finish_eq C c1 hne]
    exact ⟨i3, rfl, rfl, rfl, rfl, _, _, rfl, rfl, rfl, rfl, rfl, rfl⟩

/-- Witness of C3: the self-test message processed in three chunks of 7, 64
and 43 bytes, with the ChaCha20 and Poly1305 of RFC 7539; evaluated, the
chunked run gives the expected output and tag of the self-test. -/
theorem update_chunk_independence_witness :
    TransformStreaming rfc7539 ∧ AbsorbStreaming rfc7539 ∧ TransformKeepsLength rfc7539 ∧
    self_test_session.state = AEAD_CHACHA20_POLY1305_STATE_AAD ∧
    self_test_session.ciphertext_len = 0 ∧
    ((update_chunks rfc7539 (some self_test_session) test_chunks).result = 0 ∧
      (update_chunks rfc7539 (some self_test_session) test_chunks).out =
        (mbedtls_aead_chacha20_poly1305_update rfc7539 (some self_test_session)
          (some test_chunks.flatten) true).out ∧
      (mbedtls_aead_chacha20_poly1305_finish rfc7539
        (update_chunks rfc7539 (some self_test_session) test_chunks).ctx true).result = 0 ∧
      (mbedtls_aead_chacha20_poly1305_finish rfc7539
        (mbedtls_aead_chacha20_poly1305_update rfc7539 (some self_test_session)
          (some test_chunks.flatten) true).ctx true).result = 0 ∧
      (mbedtls_aead_chacha20_poly1305_finish rfc7539
        (update_chunks rfc7539 (some self_test_session) test_chunks).ctx true).out =
        (mbedtls_aead_chacha20_poly1305_finish rfc7539
          (mbedtls_aead_chacha20_poly1305_update rfc7539 (some self_test_session)
            (some test_chunks.flatten) true).ctx true).out ∧
      ∃ d d',
        (mbedtls_aead_chacha20_poly1305_finish rfc7539
          (update_chunks rfc7539 (some self_test_session) test_chunks).ctx true).ctx = some d ∧
        (mbedtls_aead_chacha20_poly1305_finish rfc7539
          (mbedtls_aead_chacha20_poly1305_update rfc7539 (some self_test_session)
            (some test_chunks.flatten) true).ctx true).ctx = some d' ∧
        d.aad_len = d'.aad_len ∧ d.ciphertext_len = d'.ciphertext_len ∧
        d.state = d'.state ∧ d.mode = d'.mode) ∧
    (test_chunks.flatten = test_input ∧
      (update_chunks rfc7539 (some self_test_session) test_chunks).out = test_output ∧
      (mbedtls_aead_chacha20_poly1305_finish rfc7539
        (update_chunks rfc7539 (some self_test_session) test_chunks).ctx true).out = test_mac) :=
  ⟨rfc7539_transform_streaming, rfc7539_absorb_streaming, rfc7539_transform_keeps_length,
    rfl, rfl,
    update_chunk_independence rfc7539 self_test_session test_chunks
      rfc7539_transform_streaming rfc7539_absorb_streaming rfc7539_transform_keeps_length
      rfl rfl,
    by decide!⟩

/-! ## The session state machine: error contracts -/

/-- C4. AAD-before-text ordering, for calls with present buffers: `update_aad`
returns BAD_STATE in every state other than STATE_AAD and leaves the whole
context (so `aad_len` and the authenticator) as it was; and after any `update`
call, whatever its length and whatever it returned, `update_aad` returns
BAD_STATE and leaves the context as that call left it. -/
theorem update_aad_after_text_is_bad_state (C : Collaborators CS PS)
    (c c' : mbedtls_aead_chacha20_poly1305_context CS PS) (inp a : List Byte)
    (h : c'.state ≠ AEAD_CHACHA20_POLY1305_STATE_AAD) :
    mbedtls_aead_chacha20_poly1305_update_aad C (some c') (some a) =
        { result := MBEDTLS_ERR_AEAD_CHACHA20_POLY1305_BAD_STATE, ctx := some c', out := [] } ∧
    mbedtls_aead_chacha20_poly1305_update_aad C
        (mbedtls_aead_chacha20_poly1305_update C (some c) (some inp) true).ctx (some a) =
      { result := MBEDTLS_ERR_AEAD_CHACHA20_POLY1305_BAD_STATE
        ctx := (mbedtls_aead_chacha20_poly1305_update C (some c) (some inp) true).ctx
        out := [] } := by
  have key : ∀ d : mbedtls_aead_chacha20_poly1305_context CS PS,
      d.state ≠ AEAD_CHACHA20_POLY1305_STATE_AAD →
      mbedtls_aead_chacha20_poly1305_update_aad C (some d) (some a) =
        { result := MBEDTLS_ERR_AEAD_CHACHA20_POLY1305_BAD_STATE, ctx := some d, out := [] } := by
    intro d hd
    simp [mbedtls_aead_chacha20_poly1305_update_aad, hd]
  refine ⟨key c' h, ?_⟩
  by_cases hs : c.state = AEAD_CHACHA20_POLY1305_STATE_AAD ∨
      c.state = AEAD_CHACHA20_POLY1305_STATE_CIPHERTEXT
  · obtain ⟨c1, hc1, hs1⟩ := update_state C c inp hs
    rw [hc1]
    exact key c1 (by rw [hs1]; exact state_ciphertext_ne_aad)
  · rw [update_bad_state C c inp (not_or.mp hs)]
    exact key c (not_or.mp hs).1

/-- Witness of C4: in the self-test session, `update_aad` after an `update`
call of length 0, and `update_aad` in a finished session. -/
theorem update_aad_after_text_is_bad_state_witness :
    junk_context.state ≠ AEAD_CHACHA20_POLY1305_STATE_AAD ∧
    (mbedtls_aead_chacha20_poly1305_update_aad rfc7539 (some junk_context) (some test_aad) =
        { result := MBEDTLS_ERR_AEAD_CHACHA20_POLY1305_BAD_STATE
          ctx := some junk_context, out := [] } ∧
      mbedtls_aead_chacha20_poly1305_update_aad rfc7539
          (mbedtls_aead_chacha20_poly1305_update rfc7539 (some self_test_session) (some [])
            true).ctx (some test_aad) =
        { result := MBEDTLS_ERR_AEAD_CHACHA20_POLY1305_BAD_STATE
          ctx := (mbedtls_aead_chacha20_poly1305_update rfc7539 (some self_test_session)
            (some []) true).ctx
          out := [] }) :=
  ⟨by decide,
    update_aad_after_text_is_bad_state rfc7539 self_test_session junk_context [] test_aad
      (by decide)⟩

/-! ## Zero-length messages -/

/-- C5. Zero-length edge cases, for every key and nonce, collaborators
succeeding: the one-shot function with empty plaintext, with empty AAD and
with both empty returns 0 and its tag is the authenticator's finalisation over
the stream of the message; and the incremental sequence without any `update`
call (`starts`, `update_aad`, `finish`, or `starts`, `finish`) returns 0 at
every step, `finish` padding the AAD itself, so that the authenticated stream
is `A || pad || le64(len A) || le64(0)`, 16 zero bytes when `A` is empty; and
whenever the one-shot function returns 0, the incremental sequence `starts`,
`update_aad`, `update`, `finish` on the same data returns 0 at every step and
gives the same tag. -/
theorem zero_length_cases (C : Collaborators CS PS) (key nonce A P : List Byte)
    (mode : mbedtls_aead_chacha20_poly1305_mode_t)
    (ctx0 : mbedtls_aead_chacha20_poly1305_context CS PS) (scratch : List Byte)
    (hOkA : CollaboratorsSucceed C key nonce A) (hOk0 : CollaboratorsSucceed C key nonce [])
    (hS : AbsorbStreaming C) (hL : TransformKeepsLength C) :
    ((mbedtls_aead_chacha20_poly1305_crypt_and_mac C (some key) (some nonce) mode (some A)
          (some []) true true ctx0 scratch).result = 0 ∧
      (mbedtls_aead_chacha20_poly1305_crypt_and_mac C (some key) (some nonce) mode (some A)
          (some []) true true ctx0 scratch).output = [] ∧
      (mbedtls_aead_chacha20_poly1305_crypt_and_mac C (some key) (some nonce) mode (some A)
          (some []) true true ctx0 scratch).mac =
        authenticate C C.mbedtls_poly1305_init (one_time_key C (keyed_cipher C key nonce))
          (A ++ pad16 A.length ++ le64 A.length ++ le64 0)) ∧
    ((mbedtls_aead_chacha20_poly1305_crypt_and_mac C (some key) (some nonce) mode (some [])
          (some P) true true ctx0 scratch).result = 0 ∧
      (mbedtls_aead_chacha20_poly1305_crypt_and_mac C (some key) (some nonce) mode (some [])
          (some P) true true ctx0 scratch).mac =
        authenticate C C.mbedtls_poly1305_init (one_time_key C (keyed_cipher C key nonce))
          (authenticated_text mode P
              (mbedtls_aead_chacha20_poly1305_crypt_and_mac C (some key) (some nonce) mode
                (some []) (some P) true true ctx0 scratch).output ++
            pad16 (authenticated_text mode P
              (mbedtls_aead_chacha20_poly1305_crypt_and_mac C (some key) (some nonce) mode
                (some []) (some P) true true ctx0 scratch).output).length ++
            le64 0 ++
            le64 (authenticated_text mode P
              (mbedtls_aead_chacha20_poly1305_crypt_and_mac C (some key) (some nonce) mode
                (some []) (some P) true true ctx0 scratch).output).length)) ∧
    ((mbedtls_aead_chacha20_poly1305_crypt_and_mac C (some key) (some nonce) mode (some [])
          (some []) true true ctx0 scratch).result = 0 ∧
      (mbedtls_aead_chacha20_poly1305_crypt_and_mac C (some key) (some nonce) mode (some [])
          (some []) true true ctx0 scratch).mac =
        authenticate C C.mbedtls_poly1305_init (one_time_key C (keyed_cipher C key nonce))
          (List.replicate 16 0)) ∧
    ((one_shot_update_aad C (some key) (some nonce) mode (some A) ctx0 scratch).result = 0 ∧
      (mbedtls_aead_chacha20_poly1305_finish C
          (one_shot_update_aad C (some key) (some nonce) mode (some A) ctx0 scratch).ctx
          true).result = 0 ∧
      (mbedtls_aead_chacha20_poly1305_finish C
          (one_shot_update_aad C (some key) (some nonce) mode (some A) ctx0 scratch).ctx
          true).out =
        authenticate C C.mbedtls_poly1305_init (one_time_key C (keyed_cipher C key nonce))
          (A ++ pad16 A.length ++ le64 A.length ++ le64 0)) ∧
    ((one_shot_starts C (some key) (some nonce) mode ctx0 scratch).result = 0 ∧
      (mbedtls_aead_chacha20_poly1305_finish C
          (one_shot_starts C (some key) (some nonce) mode ctx0 scratch).ctx true).result = 0 ∧
      (mbedtls_aead_chacha20_poly1305_finish C
          (one_shot_starts C (some key) (some nonce) mode ctx0 scratch).ctx true).out =
        authenticate C C.mbedtls_poly1305_init (one_time_key C (keyed_cipher C key nonce))
          (List.replicate 16 0)) ∧
    (∀ aad input : List Byte,
      (mbedtls_aead_chacha20_poly1305_crypt_and_mac C (some key) (some nonce) mode (some aad)
          (some input) true true ctx0 scratch).result = 0 →
      (one_shot_starts C (some key) (some nonce) mode ctx0 scratch).result = 0 ∧
      (one_shot_update_aad C (some key) (some nonce) mode (some aad) ctx0 scratch).result = 0 ∧
      (one_shot_update C (some key) (some nonce) mode (some aad) (some input) true
          ctx0 scratch).result = 0 ∧
      (one_shot_finish C (some key) (some nonce) mode (some aad) (some input) true true
          ctx0 scratch).result = 0 ∧
      (one_shot_finish C (some key) (some nonce) mode (some aad) (some input) true true
          ctx0 scratch).out =
        (mbedtls_aead_chacha20_poly1305_crypt_and_mac C (some key) (some nonce) mode (some aad)
          (some input) true true ctx0 scratch).mac) := by
  have hnil : ∀ s : CS, (C.mbedtls_chacha20_update s []).2.2 = [] := fun s =>
    List.length_eq_zero.mp (hL s [])
  have htext : ∀ out : List Byte, out = [] → authenticated_text mode [] out = [] := by
    intro out h
    simp [authenticated_text, h]
  refine ⟨?_, ?_, ?_, ?_, ?_, ?_⟩
  · obtain ⟨h1, h2, h3⟩ := crypt_and_mac_spec C key nonce A [] mode ctx0 scratch hOkA hS hL
    rw [h2, htext _ (hnil _), mac_data_nil_text] at h3
    exact ⟨h1, h2.trans (hnil _), h3⟩
  · obtain ⟨h1, _, h3⟩ := crypt_and_mac_spec C key nonce [] P mode ctx0 scratch hOk0 hS hL
    rw [mac_data_nil_aad] at h3
    exact ⟨h1, h3⟩
  · obtain ⟨h1, h2, h3⟩ := crypt_and_mac_spec C key nonce [] [] mode ctx0 scratch hOk0 hS hL
    rw [h2, htext _ (hnil _), mac_data_nil_nil] at h3
    exact ⟨h1, h3⟩
  · rw [one_shot_update_aad_eq C key nonce A mode ctx0 scratch hOkA]
    rw [finish_eq C _ state_aad_ne_init]
    refine ⟨rfl, rfl, ?_⟩
    simp only [if_true, authenticate, absorb_pad_mod]
    rw [pad_then_absorb C hS, hS]
    simp [keyed_authenticator, List.append_assoc, le64_mod_lit]
  · obtain ⟨h2, e2⟩ := one_shot_starts_eq C key nonce A mode ctx0 scratch hOkA
    rw [e2, finish_eq C _ state_aad_ne_init]
    refine ⟨h2, rfl, ?_⟩
    simp [authenticate, absorb_pad, keyed_authenticator, le64_zero]
  · intro aad input h
    obtain ⟨_, h2, h3, h4, h5, _, h7⟩ := crypt_and_mac_zero C _ _ mode _ _ true true ctx0 scratch h
    exact ⟨h2, h3, h4, h5, h7.symm⟩

/-- Witness of C5: the self-test key, nonce and associated data with the
ChaCha20 and Poly1305 of RFC 7539, in ENCRYPT mode. -/
theorem zero_length_cases_witness :
    CollaboratorsSucceed rfc7539 test_key test_nonce test_aad ∧
    CollaboratorsSucceed rfc7539 test_key test_nonce [] ∧
    AbsorbStreaming rfc7539 ∧ TransformKeepsLength rfc7539 ∧
    (((mbedtls_aead_chacha20_poly1305_crypt_and_mac rfc7539 (some test_key) (some test_nonce)
        MBEDTLS_AEAD_CHACHA20_POLY1305_ENCRYPT (some test_aad)
            (some []) true true junk_context junk_scratch).result = 0 ∧
        (mbedtls_aead_chacha20_poly1305_crypt_and_mac rfc7539 (some test_key) (some test_nonce)
            MBEDTLS_AEAD_CHACHA20_POLY1305_ENCRYPT (some test_aad)
            (some []) true true junk_context junk_scratch).output = [] ∧
        (mbedtls_aead_chacha20_poly1305_crypt_and_mac rfc7539 (some test_key) (some test_nonce)
            MBEDTLS_AEAD_CHACHA20_POLY1305_ENCRYPT (some test_aad)
            (some []) true true junk_context junk_scratch).mac =
          authenticate rfc7539 rfc7539.mbedtls_poly1305_init (one_time_key rfc7539 (keyed_cipher
              rfc7539 test_key test_nonce))
            (test_aad ++ pad16 test_aad.length ++ le64 test_aad.length ++ le64 0)) ∧
      ((mbedtls_aead_chacha20_poly1305_crypt_and_mac rfc7539 (some test_key) (some test_nonce)
          MBEDTLS_AEAD_CHACHA20_POLY1305_ENCRYPT (some [])
            (some test_input) true true junk_context junk_scratch).result = 0 ∧
        (mbedtls_aead_chacha20_poly1305_crypt_and_mac rfc7539 (some test_key) (some test_nonce)
            MBEDTLS_AEAD_CHACHA20_POLY1305_ENCRYPT (some [])
            (some test_input) true true junk_context junk_scratch).mac =
          authenticate rfc7539 rfc7539.mbedtls_poly1305_init (one_time_key rfc7539 (keyed_cipher
              rfc7539 test_key test_nonce))
            (authenticated_text MBEDTLS_AEAD_CHACHA20_POLY1305_ENCRYPT test_input
                (mbedtls_aead_chacha20_poly1305_crypt_and_mac rfc7539 (some test_key) (some
                    test_nonce) MBEDTLS_AEAD_CHACHA20_POLY1305_ENCRYPT
                  (some []) (some test_input) true true junk_context junk_scratch).output ++
              pad16 (authenticated_text MBEDTLS_AEAD_CHACHA20_POLY1305_ENCRYPT test_input
                (mbedtls_aead_chacha20_poly1305_crypt_and_mac rfc7539 (some test_key) (some
                    test_nonce) MBEDTLS_AEAD_CHACHA20_POLY1305_ENCRYPT
                  (some []) (some test_input) true true junk_context junk_scratch).output).length ++
              le64 0 ++
              le64 (authenticated_text MBEDTLS_AEAD_CHACHA20_POLY1305_ENCRYPT test_input
                (mbedtls_aead_chacha20_poly1305_crypt_and_mac rfc7539 (some test_key) (some
                    test_nonce) MBEDTLS_AEAD_CHACHA20_POLY1305_ENCRYPT
                  (some []) (some test_input) true true junk_context junk_scratch).output).length))
                      ∧
      ((mbedtls_aead_chacha20_poly1305_crypt_and_mac rfc7539 (some test_key) (some test_nonce)
          MBEDTLS_AEAD_CHACHA20_POLY1305_ENCRYPT (some [])
            (some []) true true junk_context junk_scratch).result = 0 ∧
        (mbedtls_aead_chacha20_poly1305_crypt_and_mac rfc7539 (some test_key) (some test_nonce)
            MBEDTLS_AEAD_CHACHA20_POLY1305_ENCRYPT (some [])
            (some []) true true junk_context junk_scratch).mac =
          authenticate rfc7539 rfc7539.mbedtls_poly1305_init (one_time_key rfc7539 (keyed_cipher
              rfc7539 test_key test_nonce))
            (List.replicate 16 0)) ∧
      ((one_shot_update_aad rfc7539 (some test_key) (some test_nonce)
          MBEDTLS_AEAD_CHACHA20_POLY1305_ENCRYPT (some test_aad) junk_context junk_scratch).result
          = 0 ∧
        (mbedtls_aead_chacha20_poly1305_finish rfc7539
            (one_shot_update_aad rfc7539 (some test_key) (some test_nonce)
                MBEDTLS_AEAD_CHACHA20_POLY1305_ENCRYPT (some test_aad) junk_context
                junk_scratch).ctx
            true).result = 0 ∧
        (mbedtls_aead_chacha20_poly1305_finish rfc7539
            (one_shot_update_aad rfc7539 (some test_key) (some test_nonce)
                MBEDTLS_AEAD_CHACHA20_POLY1305_ENCRYPT (some test_aad) junk_context
                junk_scratch).ctx
            true).out =
          authenticate rfc7539 rfc7539.mbedtls_poly1305_init (one_time_key rfc7539 (keyed_cipher
              rfc7539 test_key test_nonce))
            (test_aad ++ pad16 test_aad.length ++ le64 test_aad.length ++ le64 0)) ∧
      ((one_shot_starts rfc7539 (some test_key) (some test_nonce)
          MBEDTLS_AEAD_CHACHA20_POLY1305_ENCRYPT junk_context junk_scratch).result = 0 ∧
        (mbedtls_aead_chacha20_poly1305_finish rfc7539
            (one_shot_starts rfc7539 (some test_key) (some test_nonce)
                MBEDTLS_AEAD_CHACHA20_POLY1305_ENCRYPT junk_context junk_scratch).ctx true).result
                = 0 ∧
        (mbedtls_aead_chacha20_poly1305_finish rfc7539
            (one_shot_starts rfc7539 (some test_key) (some test_nonce)
                MBEDTLS_AEAD_CHACHA20_POLY1305_ENCRYPT junk_context junk_scratch).ctx true).out =
          authenticate rfc7539 rfc7539.mbedtls_poly1305_init (one_time_key rfc7539 (keyed_cipher
              rfc7539 test_key test_nonce))
            (List.replicate 16 0)) ∧
      (∀ aad input : List Byte,
        (mbedtls_aead_chacha20_poly1305_crypt_and_mac rfc7539 (some test_key) (some test_nonce)
            MBEDTLS_AEAD_CHACHA20_POLY1305_ENCRYPT (some aad)
            (some input) true true junk_context junk_scratch).result = 0 →
        (one_shot_starts rfc7539 (some test_key) (some test_nonce)
            MBEDTLS_AEAD_CHACHA20_POLY1305_ENCRYPT junk_context junk_scratch).result = 0 ∧
        (one_shot_update_aad rfc7539 (some test_key) (some test_nonce)
            MBEDTLS_AEAD_CHACHA20_POLY1305_ENCRYPT (some aad) junk_context junk_scratch).result = 0
            ∧
        (one_shot_update rfc7539 (some test_key) (some test_nonce)
            MBEDTLS_AEAD_CHACHA20_POLY1305_ENCRYPT (some aad) (some input) true
            junk_context junk_scratch).result = 0 ∧
        (one_shot_finish rfc7539 (some test_key) (some test_nonce)
            MBEDTLS_AEAD_CHACHA20_POLY1305_ENCRYPT (some aad) (some input) true true
            junk_context junk_scratch).result = 0 ∧
        (one_shot_finish rfc7539 (some test_key) (some test_nonce)
            MBEDTLS_AEAD_CHACHA20_POLY1305_ENCRYPT (some aad) (some input) true true
            junk_context junk_scratch).out =
          (mbedtls_aead_chacha20_poly1305_crypt_and_mac rfc7539 (some test_key) (some test_nonce)
              MBEDTLS_AEAD_CHACHA20_POLY1305_ENCRYPT (some aad)
            (some input) true true junk_context junk_scratch).mac)) :=
  ⟨rfc7539_succeed test_key test_nonce test_aad, rfc7539_succeed test_key test_nonce [],
    rfc7539_absorb_streaming, rfc7539_transform_keeps_length,
    zero_length_cases rfc7539 test_key test_nonce test_aad test_input
      MBEDTLS_AEAD_CHACHA20_POLY1305_ENCRYPT junk_context junk_scratch
      (rfc7539_succeed test_key test_nonce test_aad) (rfc7539_succeed test_key test_nonce [])
      rfc7539_absorb_streaming rfc7539_transform_keeps_length⟩

/-! ## The length trailer -/

/-- C6. Length trailer: for all values of `aad_len` and `ciphertext_len` below
`2^64`, `finish` (called where it proceeds: tag buffer present, state not
STATE_INIT) gives the authenticator, after the padding, exactly one block and
then finalises it; the block has 16 bytes, byte `i` of its first half is
`(aad_len >> 8i) mod 256` and byte `i` of its second half is
`(ciphertext_len >> 8i) mod 256`, so that little-endian decoding of the halves
returns the two counters. -/
theorem finish_length_trailer (C : Collaborators CS PS)
    (c : mbedtls_aead_chacha20_poly1305_context CS PS)
    (hs : c.state ≠ AEAD_CHACHA20_POLY1305_STATE_INIT)
    (ha : c.aad_len < 2 ^ 64) (hc : c.ciphertext_len < 2 ^ 64) :
    (mbedtls_aead_chacha20_poly1305_finish C (some c) true).out =
      (C.mbedtls_poly1305_finish
        (C.mbedtls_poly1305_update (authenticator_after_padding C c) (len_block c)).2).2.2 ∧
    (mbedtls_aead_chacha20_poly1305_finish C (some c) true).ctx.map (·.poly1305_ctx) =
      some (C.mbedtls_poly1305_finish
        (C.mbedtls_poly1305_update (authenticator_after_padding C c) (len_block c)).2).2.1 ∧
    (len_block c).length = 16 ∧
    (∀ i, i < 8 →
      (len_block c).getD i 0 = (c.aad_len >>> (8 * i)) % 256 ∧
      (len_block c).getD (8 + i) 0 = (c.ciphertext_len >>> (8 * i)) % 256) ∧
    le_decode ((len_block c).take 8) = c.aad_len ∧
    le_decode ((len_block c).drop 8) = c.ciphertext_len := by
  have hblk : len_block c = le64 c.aad_len ++ le64 c.ciphertext_len := by
    rw [← len_block_eq]
    rfl
  have hpad : authenticator_after_padding C c =
      (if c.state = AEAD_CHACHA20_POLY1305_STATE_AAD then
        absorb_pad C c.poly1305_ctx c.aad_len
      else if c.state = AEAD_CHACHA20_POLY1305_STATE_CIPHERTEXT then
        absorb_pad C c.poly1305_ctx c.ciphertext_len
      else c.poly1305_ctx) := by
    simp only [authenticator_after_padding, pad_aad_eq, pad_ciphertext_eq]
  refine ⟨?_, ?_, rfl, ?_, ?_, ?_⟩
  · rw [finish_eq C c hs, hpad, hblk]
  · rw [finish_eq C c hs, hpad, hblk]
    rfl
  · intro i hi
    interval_cases i <;> exact ⟨rfl, rfl⟩
  · rw [hblk, List.take_left' (le64_length _)]
    exact le_decode_le64 _ ha
  · rw [hblk, List.drop_left' (le64_length _)]
    exact le_decode_le64 _ hc

/-- Witness of C6: a session with `aad_len = 2^64 - 1` and
`ciphertext_len = 0x0102030405060708`, in STATE_CIPHERTEXT; its length block
evaluated. -/
theorem finish_length_trailer_witness :
    trailer_session.state ≠ AEAD_CHACHA20_POLY1305_STATE_INIT ∧
    trailer_session.aad_len < 2 ^ 64 ∧ trailer_session.ciphertext_len < 2 ^ 64 ∧
    ((mbedtls_aead_chacha20_poly1305_finish rfc7539 (some trailer_session) true).out =
        (rfc7539.mbedtls_poly1305_finish
          (rfc7539.mbedtls_poly1305_update (authenticator_after_padding rfc7539 trailer_session)
            (len_block trailer_session)).2).2.2 ∧
      (mbedtls_aead_chacha20_poly1305_finish rfc7539 (some trailer_session) true).ctx.map
          (·.poly1305_ctx) =
        some (rfc7539.mbedtls_poly1305_finish
          (rfc7539.mbedtls_poly1305_update (authenticator_after_padding rfc7539 trailer_session)
            (len_block trailer_session)).2).2.1 ∧
      (len_block trailer_session).length = 16 ∧
      (∀ i, i < 8 →
        (len_block trailer_session).getD i 0 = (trailer_session.aad_len >>> (8 * i)) % 256 ∧
        (len_block trailer_session).getD (8 + i) 0 =
          (trailer_session.ciphertext_len >>> (8 * i)) % 256) ∧
      le_decode ((len_block trailer_session).take 8) = trailer_session.aad_len ∧
      le_decode ((len_block trailer_session).drop 8) = trailer_session.ciphertext_len) ∧
    len_block trailer_session =
      [0xff, 0xff, 0xff, 0xff, 0xff, 0xff, 0xff, 0xff,
        0x08, 0x07, 0x06, 0x05, 0x04, 0x03, 0x02, 0x01] :=
  ⟨by decide, by decide, by decide,
    finish_length_trailer rfc7539 trailer_session (by decide) (by decide) (by decide),
    by decide⟩

/-! ## Error contracts of `update`, `finish`, `starts` and the one-shot function -/

/-- C7. Error contract of `update`: BAD_INPUT_DATA when the context, the input
or the output is absent; otherwise BAD_STATE exactly when the state is neither
STATE_AAD nor STATE_CIPHERTEXT; otherwise 0.  On every nonzero return the
context (state, both counters, mode, collaborators) is as it was and nothing is
written. -/
theorem update_error_contract (C : Collaborators CS PS)
    (ctx : Option (mbedtls_aead_chacha20_poly1305_context CS PS))
    (input : Option (List Byte)) (output : Bool) :
    ((ctx = none ∨ input = none ∨ output = false) →
      (mbedtls_aead_chacha20_poly1305_update C ctx input output).result =
        MBEDTLS_ERR_AEAD_CHACHA20_POLY1305_BAD_INPUT_DATA) ∧
    (∀ c inp, ctx = some c → input = some inp → output = true →
      ((mbedtls_aead_chacha20_poly1305_update C ctx input output).result =
          MBEDTLS_ERR_AEAD_CHACHA20_POLY1305_BAD_STATE ↔
        (c.state ≠ AEAD_CHACHA20_POLY1305_STATE_AAD ∧
          c.state ≠ AEAD_CHACHA20_POLY1305_STATE_CIPHERTEXT)) ∧
      (¬ (c.state ≠ AEAD_CHACHA20_POLY1305_STATE_AAD ∧
          c.state ≠ AEAD_CHACHA20_POLY1305_STATE_CIPHERTEXT) →
        (mbedtls_aead_chacha20_poly1305_update C ctx input output).result = 0)) ∧
    ((mbedtls_aead_chacha20_poly1305_update C ctx input output).result ≠ 0 →
      (mbedtls_aead_chacha20_poly1305_update C ctx input output).ctx = ctx ∧
      (mbedtls_aead_chacha20_poly1305_update C ctx input output).out = []) := by
  have hok : ∀ (c : mbedtls_aead_chacha20_poly1305_context CS PS) (inp : List Byte),
      ¬ (c.state ≠ AEAD_CHACHA20_POLY1305_STATE_AAD ∧
        c.state ≠ AEAD_CHACHA20_POLY1305_STATE_CIPHERTEXT) →
      (mbedtls_aead_chacha20_poly1305_update C (some c) (some inp) true).result = 0 := by
    intro c inp hs
    have hs' : c.state = AEAD_CHACHA20_POLY1305_STATE_AAD ∨
        c.state = AEAD_CHACHA20_POLY1305_STATE_CIPHERTEXT := by
      by_cases h1 : c.state = AEAD_CHACHA20_POLY1305_STATE_AAD
      · exact Or.inl h1
      · by_cases h2 : c.state = AEAD_CHACHA20_POLY1305_STATE_CIPHERTEXT
        · exact Or.inr h2
        · exact absurd ⟨h1, h2⟩ hs
    rw [update_eq C c inp hs']
  refine ⟨?_, ?_, ?_⟩
  · rintro (h | h | h) <;> subst h
    · simp [mbedtls_aead_chacha20_poly1305_update]
    · cases ctx <;> simp [mbedtls_aead_chacha20_poly1305_update]
    · cases ctx <;> cases input <;> simp [mbedtls_aead_chacha20_poly1305_update]
  · intro c inp hc hi ho
    subst hc hi ho
    refine ⟨⟨?_, ?_⟩, hok c inp⟩
    · intro hr
      by_contra hs
      rw [hok c inp hs] at hr
      exact bad_state_ne_zero hr.symm
    · intro hs
      rw [update_bad_state C c inp hs]
  · intro hr
    cases ctx with
    | none => simp [mbedtls_aead_chacha20_poly1305_update]
    | some c =>
      cases input with
      | none => simp [mbedtls_aead_chacha20_poly1305_update]
      | some inp =>
        cases output with
        | false => simp [mbedtls_aead_chacha20_poly1305_update]
        | true =>
          by_cases hs : c.state ≠ AEAD_CHACHA20_POLY1305_STATE_AAD ∧
              c.state ≠ AEAD_CHACHA20_POLY1305_STATE_CIPHERTEXT
          · rw [update_bad_state C c inp hs]
            exact ⟨rfl, rfl⟩
          · exact absurd (hok c inp hs) hr

/-- C8. Contract of `finish`: BAD_INPUT_DATA when the context or the tag buffer
is absent (the context as it was); BAD_STATE in STATE_INIT, the context as it
was; otherwise 0 with the state STATE_FINISHED and both byte counters as they
were. -/
theorem finish_contract (C : Collaborators CS PS)
    (ctx : Option (mbedtls_aead_chacha20_poly1305_context CS PS)) (mac : Bool) :
    ((ctx = none ∨ mac = false) →
      mbedtls_aead_chacha20_poly1305_finish C ctx mac =
        { result := MBEDTLS_ERR_AEAD_CHACHA20_POLY1305_BAD_INPUT_DATA, ctx := ctx, out := [] }) ∧
    (∀ c, ctx = some c → mac = true →
      (c.state = AEAD_CHACHA20_POLY1305_STATE_INIT →
        mbedtls_aead_chacha20_poly1305_finish C ctx mac =
          { result := MBEDTLS_ERR_AEAD_CHACHA20_POLY1305_BAD_STATE, ctx := some c, out := [] }) ∧
      (c.state ≠ AEAD_CHACHA20_POLY1305_STATE_INIT →
        (mbedtls_aead_chacha20_poly1305_finish C ctx mac).result = 0 ∧
        ∃ c', (mbedtls_aead_chacha20_poly1305_finish C ctx mac).ctx = some c' ∧
          c'.state = AEAD_CHACHA20_POLY1305_STATE_FINISHED ∧
          c'.aad_len = c.aad_len ∧ c'.ciphertext_len = c.ciphertext_len)) := by
  refine ⟨?_, ?_⟩
  · rintro (h | h) <;> subst h
    · simp [mbedtls_aead_chacha20_poly1305_finish]
    · cases ctx <;> simp [mbedtls_aead_chacha20_poly1305_finish]
  · intro c hc hm
    subst hc hm
    refine ⟨?_, ?_⟩
    · intro hs
      simp [mbedtls_aead_chacha20_poly1305_finish, hs]
    · intro hs
      rw [finish_eq C c hs]
      exact ⟨rfl, _, rfl, rfl, rfl, rfl⟩

/-- C9. Postcondition of `starts`: from every prior context, when `starts`
returns 0 the cipher is the prior cipher started with the nonce and block
counter 1, the authenticator is the prior one keyed with the first 32 bytes of
keystream block 0 of that cipher, both counters are 0, the state is STATE_AAD
and the mode is the requested one; so counters, state and mode after a
successful `starts` are the same from any two prior contexts. -/
theorem starts_postcondition (C : Collaborators CS PS)
    (c c' : mbedtls_aead_chacha20_poly1305_context CS PS) (nonce : List Byte)
    (mode : mbedtls_aead_chacha20_poly1305_mode_t) (scratch scratch' : List Byte)
    (h : (mbedtls_aead_chacha20_poly1305_starts C (some c) (some nonce) mode scratch).result = 0)
    (h' : (mbedtls_aead_chacha20_poly1305_starts C (some c') (some nonce) mode
      scratch').result = 0) :
    (mbedtls_aead_chacha20_poly1305_starts C (some c) (some nonce) mode scratch).ctx =
      some
        { chacha20_ctx := (C.mbedtls_chacha20_starts c.chacha20_ctx nonce 1).2
          poly1305_ctx :=
            (C.mbedtls_poly1305_setkey c.poly1305_ctx
              ((C.mbedtls_chacha20_keystream_block
                (C.mbedtls_chacha20_starts c.chacha20_ctx nonce 1).2 0).2.take 32)).2
          aad_len := 0
          ciphertext_len := 0
          state := AEAD_CHACHA20_POLY1305_STATE_AAD
          mode := mode } ∧
    ∃ d d',
      (mbedtls_aead_chacha20_poly1305_starts C (some c) (some nonce) mode scratch).ctx = some d ∧
      (mbedtls_aead_chacha20_poly1305_starts C (some c') (some nonce) mode scratch').ctx =
        some d' ∧
      d.aad_len = d'.aad_len ∧ d.ciphertext_len = d'.ciphertext_len ∧
      d.state = d'.state ∧ d.mode = d'.mode := by
  have e := starts_eq C c nonce mode scratch h
  have e' := starts_eq C c' nonce mode scratch' h'
  exact ⟨e, _, _, e, e', rfl, rfl, rfl, rfl⟩

/-- Witness of C9: `starts` with the self-test nonce in DECRYPT mode on a
finished session and on a session in the middle of a message. -/
theorem starts_postcondition_witness :
    (mbedtls_aead_chacha20_poly1305_starts rfc7539 (some junk_context) (some test_nonce)
      MBEDTLS_AEAD_CHACHA20_POLY1305_DECRYPT junk_scratch).result = 0 ∧
    (mbedtls_aead_chacha20_poly1305_starts rfc7539 (some self_test_session) (some test_nonce)
      MBEDTLS_AEAD_CHACHA20_POLY1305_DECRYPT junk_scratch2).result = 0 ∧
    ((mbedtls_aead_chacha20_poly1305_starts rfc7539 (some junk_context) (some test_nonce)
        MBEDTLS_AEAD_CHACHA20_POLY1305_DECRYPT junk_scratch).ctx =
        some
          { chacha20_ctx :=
              (rfc7539.mbedtls_chacha20_starts junk_context.chacha20_ctx test_nonce 1).2
            poly1305_ctx :=
              (rfc7539.mbedtls_poly1305_setkey junk_context.poly1305_ctx
                ((rfc7539.mbedtls_chacha20_keystream_block
                  (rfc7539.mbedtls_chacha20_starts junk_context.chacha20_ctx test_nonce 1).2
                  0).2.take 32)).2
            aad_len := 0
            ciphertext_len := 0
            state := AEAD_CHACHA20_POLY1305_STATE_AAD
            mode := MBEDTLS_AEAD_CHACHA20_POLY1305_DECRYPT } ∧
      ∃ d d',
        (mbedtls_aead_chacha20_poly1305_starts rfc7539 (some junk_context) (some test_nonce)
          MBEDTLS_AEAD_CHACHA20_POLY1305_DECRYPT junk_scratch).ctx = some d ∧
        (mbedtls_aead_chacha20_poly1305_starts rfc7539 (some self_test_session)
          (some test_nonce) MBEDTLS_AEAD_CHACHA20_POLY1305_DECRYPT
          junk_scratch2).ctx = some d' ∧
        d.aad_len = d'.aad_len ∧ d.ciphertext_len = d'.ciphertext_len ∧
        d.state = d'.state ∧ d.mode = d'.mode) :=
  ⟨rfl, rfl,
    starts_postcondition rfc7539 junk_context self_test_session test_nonce
      MBEDTLS_AEAD_CHACHA20_POLY1305_DECRYPT junk_scratch junk_scratch2
      rfl rfl⟩

/-- C10. One-shot error propagation: `crypt_and_mac` runs `setkey`, `starts`,
`update_aad`, `update`, `finish` in this order on its local context; it returns
the result of the first step that is not 0, with nothing written by a later
step, and returns 0 only when the five steps do; on every path the local
context is the one `free` leaves; an absent key, nonce, AAD, input, output or
tag buffer makes the call fail, with BAD_INPUT_DATA from the step that takes
the absent buffer when the steps before it returned 0, so with BAD_INPUT_DATA
in any case when the collaborators never fail. -/
theorem crypt_and_mac_error_propagation (C : Collaborators CS PS)
    (key nonce : Option (List Byte)) (mode : mbedtls_aead_chacha20_poly1305_mode_t)
    (aad input : Option (List Byte)) (output mac : Bool)
    (ctx0 : mbedtls_aead_chacha20_poly1305_context CS PS) (scratch : List Byte) :
    ((one_shot_setkey C key ctx0).result ≠ 0 →
      (mbedtls_aead_chacha20_poly1305_crypt_and_mac C key nonce mode aad input output mac
        ctx0 scratch) =
        { result := (one_shot_setkey C key ctx0).result, output := [], mac := []
          ctx := mbedtls_aead_chacha20_poly1305_free C (one_shot_setkey C key ctx0).ctx }) ∧
    ((one_shot_setkey C key ctx0).result = 0 →
      (one_shot_starts C key nonce mode ctx0 scratch).result ≠ 0 →
      (mbedtls_aead_chacha20_poly1305_crypt_and_mac C key nonce mode aad input output mac
        ctx0 scratch) =
        { result := (one_shot_starts C key nonce mode ctx0 scratch).result, output := [], mac := []
          ctx := mbedtls_aead_chacha20_poly1305_free C
            (one_shot_starts C key nonce mode ctx0 scratch).ctx }) ∧
    ((one_shot_setkey C key ctx0).result = 0 →
      (one_shot_starts C key nonce mode ctx0 scratch).result = 0 →
      (one_shot_update_aad C key nonce mode aad ctx0 scratch).result ≠ 0 →
      (mbedtls_aead_chacha20_poly1305_crypt_and_mac C key nonce mode aad input output mac
        ctx0 scratch) =
        { result := (one_shot_update_aad C key nonce mode aad ctx0 scratch).result
          output := [], mac := []
          ctx := mbedtls_aead_chacha20_poly1305_free C
            (one_shot_update_aad C key nonce mode aad ctx0 scratch).ctx }) ∧
    ((one_shot_setkey C key ctx0).result = 0 →
      (one_shot_starts C key nonce mode ctx0 scratch).result = 0 →
      (one_shot_update_aad C key nonce mode aad ctx0 scratch).result = 0 →
      (one_shot_update C key nonce mode aad input output ctx0 scratch).result ≠ 0 →
      (mbedtls_aead_chacha20_poly1305_crypt_and_mac C key nonce mode aad input output mac
        ctx0 scratch) =
        { result := (one_shot_update C key nonce mode aad input output ctx0 scratch).result
          output := [], mac := []
          ctx := mbedtls_aead_chacha20_poly1305_free C
            (one_shot_update C key nonce mode aad input output ctx0 scratch).ctx }) ∧
    ((one_shot_setkey C key ctx0).result = 0 →
      (one_shot_starts C key nonce mode ctx0 scratch).result = 0 →
      (one_shot_update_aad C key nonce mode aad ctx0 scratch).result = 0 →
      (one_shot_update C key nonce mode aad input output ctx0 scratch).result = 0 →
      (mbedtls_aead_chacha20_poly1305_crypt_and_mac C key nonce mode aad input output mac
        ctx0 scratch) =
        { result := (one_shot_finish C key nonce mode aad input output mac ctx0 scratch).result
          output := (one_shot_update C key nonce mode aad input output ctx0 scratch).out
          mac := (one_shot_finish C key nonce mode aad input output mac ctx0 scratch).out
          ctx := mbedtls_aead_chacha20_poly1305_free C
            (one_shot_finish C key nonce mode aad input output mac ctx0 scratch).ctx }) ∧
    ((mbedtls_aead_chacha20_poly1305_crypt_and_mac C key nonce mode aad input output mac
        ctx0 scratch).result = 0 ↔
      (one_shot_setkey C key ctx0).result = 0 ∧
      (one_shot_starts C key nonce mode ctx0 scratch).result = 0 ∧
      (one_shot_update_aad C key nonce mode aad ctx0 scratch).result = 0 ∧
      (one_shot_update C key nonce mode aad input output ctx0 scratch).result = 0 ∧
      (one_shot_finish C key nonce mode aad input output mac ctx0 scratch).result = 0) ∧
    (∃ d,
      (mbedtls_aead_chacha20_poly1305_crypt_and_mac C key nonce mode aad input output mac
        ctx0 scratch).ctx = some d ∧
      d.aad_len = 0 ∧ d.ciphertext_len = 0 ∧ d.state = AEAD_CHACHA20_POLY1305_STATE_INIT ∧
      d.mode = MBEDTLS_AEAD_CHACHA20_POLY1305_ENCRYPT) ∧
    ((key = none ∨ nonce = none ∨ aad = none ∨ input = none ∨ output = false ∨ mac = false) →
      (mbedtls_aead_chacha20_poly1305_crypt_and_mac C key nonce mode aad input output mac
        ctx0 scratch).result ≠ 0) ∧
    (key = none →
      (mbedtls_aead_chacha20_poly1305_crypt_and_mac C key nonce mode aad input output mac
        ctx0 scratch).result =
        MBEDTLS_ERR_AEAD_CHACHA20_POLY1305_BAD_INPUT_DATA) ∧
    (nonce = none → (one_shot_setkey C key ctx0).result = 0 →
      (mbedtls_aead_chacha20_poly1305_crypt_and_mac C key nonce mode aad input output mac
        ctx0 scratch).result =
        MBEDTLS_ERR_AEAD_CHACHA20_POLY1305_BAD_INPUT_DATA) ∧
    (aad = none → (one_shot_setkey C key ctx0).result = 0 →
      (one_shot_starts C key nonce mode ctx0 scratch).result = 0 →
      (mbedtls_aead_chacha20_poly1305_crypt_and_mac C key nonce mode aad input output mac
        ctx0 scratch).result =
        MBEDTLS_ERR_AEAD_CHACHA20_POLY1305_BAD_INPUT_DATA) ∧
    ((input = none ∨ output = false) → (one_shot_setkey C key ctx0).result = 0 →
      (one_shot_starts C key nonce mode ctx0 scratch).result = 0 →
      (one_shot_update_aad C key nonce mode aad ctx0 scratch).result = 0 →
      (mbedtls_aead_chacha20_poly1305_crypt_and_mac C key nonce mode aad input output mac
        ctx0 scratch).result =
        MBEDTLS_ERR_AEAD_CHACHA20_POLY1305_BAD_INPUT_DATA) ∧
    (mac = false → (one_shot_setkey C key ctx0).result = 0 →
      (one_shot_starts C key nonce mode ctx0 scratch).result = 0 →
      (one_shot_update_aad C key nonce mode aad ctx0 scratch).result = 0 →
      (one_shot_update C key nonce mode aad input output ctx0 scratch).result = 0 →
      (mbedtls_aead_chacha20_poly1305_crypt_and_mac C key nonce mode aad input output mac
        ctx0 scratch).result =
        MBEDTLS_ERR_AEAD_CHACHA20_POLY1305_BAD_INPUT_DATA) ∧
    (CollaboratorsNeverFail C →
      (key = none ∨ nonce = none ∨ aad = none ∨ input = none ∨ output = false ∨ mac = false) →
      (mbedtls_aead_chacha20_poly1305_crypt_and_mac C key nonce mode aad input output mac
        ctx0 scratch).result =
        MBEDTLS_ERR_AEAD_CHACHA20_POLY1305_BAD_INPUT_DATA) := by
  obtain ⟨s1, s2, s3, s4, s5⟩ :=
    one_shot_ctx_isSome C key nonce mode aad input output mac ctx0 scratch
  have hR := crypt_and_mac_steps C key nonce mode aad input output mac ctx0 scratch
  have hout : (one_shot_update C key nonce mode aad input output ctx0 scratch).result ≠ 0 →
      (one_shot_update C key nonce mode aad input output ctx0 scratch).out = [] := by
    intro h
    exact ((update_error_contract_aux C _ input output) h).2
  have b1 : key = none → (one_shot_setkey C key ctx0).result =
      MBEDTLS_ERR_AEAD_CHACHA20_POLY1305_BAD_INPUT_DATA := by
    intro h; subst h
    exact (absent_buffer_results C _ mode scratch input output).1
  have b2 : nonce = none → (one_shot_starts C key nonce mode ctx0 scratch).result =
      MBEDTLS_ERR_AEAD_CHACHA20_POLY1305_BAD_INPUT_DATA := by
    intro h; subst h
    exact (absent_buffer_results C _ mode scratch input output).2.1
  have b3 : aad = none → (one_shot_update_aad C key nonce mode aad ctx0 scratch).result =
      MBEDTLS_ERR_AEAD_CHACHA20_POLY1305_BAD_INPUT_DATA := by
    intro h; subst h
    exact (absent_buffer_results C _ mode scratch input output).2.2.1
  have b4 : (input = none ∨ output = false) →
      (one_shot_update C key nonce mode aad input output ctx0 scratch).result =
          MBEDTLS_ERR_AEAD_CHACHA20_POLY1305_BAD_INPUT_DATA := by
    rintro (h | h) <;> subst h
    · exact (absent_buffer_results C _ mode scratch none output).2.2.2.1
    · exact (absent_buffer_results C _ mode scratch input false).2.2.2.2.1
  have b5 : mac = false →
      (one_shot_finish C key nonce mode aad input output mac ctx0 scratch).result =
          MBEDTLS_ERR_AEAD_CHACHA20_POLY1305_BAD_INPUT_DATA := by
    intro h; subst h
    exact (absent_buffer_results C _ mode scratch input output).2.2.2.2.2
  have c1 : (one_shot_setkey C key ctx0).result ≠ 0 → (mbedtls_aead_chacha20_poly1305_crypt_and_mac
      C key nonce mode aad input output mac
        ctx0 scratch) = _ := fun h => by
    rw [hR, if_pos h]
  have c2 : (one_shot_setkey C key ctx0).result = 0 → (one_shot_starts C key nonce mode ctx0
      scratch).result ≠ 0 → (mbedtls_aead_chacha20_poly1305_crypt_and_mac C key nonce mode aad
      input output mac
        ctx0 scratch) = _ := fun h1 h => by
    rw [hR, if_neg (not_not.mpr h1), if_pos h]
  have c3 : (one_shot_setkey C key ctx0).result = 0 → (one_shot_starts C key nonce mode ctx0
      scratch).result = 0 → (one_shot_update_aad C key nonce mode aad ctx0 scratch).result ≠ 0 →
      (mbedtls_aead_chacha20_poly1305_crypt_and_mac C key nonce mode aad input output mac
        ctx0 scratch) = _ := fun h1 h2 h => by
    rw [hR, if_neg (not_not.mpr h1), if_neg (not_not.mpr h2), if_pos h]
  have c4 : (one_shot_setkey C key ctx0).result = 0 → (one_shot_starts C key nonce mode ctx0
      scratch).result = 0 → (one_shot_update_aad C key nonce mode aad ctx0 scratch).result = 0 →
      (one_shot_update C key nonce mode aad input output ctx0 scratch).result ≠ 0 →
      (mbedtls_aead_chacha20_poly1305_crypt_and_mac C key nonce mode aad input output mac
        ctx0 scratch) =
      { result := (one_shot_update C key nonce mode aad input output ctx0 scratch).result
        output := [], mac := []
        ctx := mbedtls_aead_chacha20_poly1305_free C (one_shot_update C key nonce mode aad input
            output ctx0 scratch).ctx } := fun h1 h2 h3 h => by
    rw [hR, if_neg (not_not.mpr h1), if_neg (not_not.mpr h2), if_neg (not_not.mpr h3), if_pos h,
      hout h]
  have c5 : (one_shot_setkey C key ctx0).result = 0 → (one_shot_starts C key nonce mode ctx0
      scratch).result = 0 → (one_shot_update_aad C key nonce mode aad ctx0 scratch).result = 0 →
      (one_shot_update C key nonce mode aad input output ctx0 scratch).result = 0 →
      (mbedtls_aead_chacha20_poly1305_crypt_and_mac C key nonce mode aad input output mac
        ctx0 scratch) = _ := fun h1 h2 h3 h4 => by
    rw [hR, if_neg (not_not.mpr h1), if_neg (not_not.mpr h2), if_neg (not_not.mpr h3),
      if_neg (not_not.mpr h4)]
  have hiff : (mbedtls_aead_chacha20_poly1305_crypt_and_mac C key nonce mode aad input output mac
        ctx0 scratch).result = 0 ↔
      (one_shot_setkey C key ctx0).result = 0 ∧ (one_shot_starts C key nonce mode ctx0
          scratch).result = 0 ∧ (one_shot_update_aad C key nonce mode aad ctx0 scratch).result = 0
          ∧ (one_shot_update C key nonce mode aad input output ctx0 scratch).result = 0 ∧
          (one_shot_finish C key nonce mode aad input output mac ctx0 scratch).result = 0 := by
    by_cases h1 : (one_shot_setkey C key ctx0).result = 0
    · by_cases h2 : (one_shot_starts C key nonce mode ctx0 scratch).result = 0
      · by_cases h3 : (one_shot_update_aad C key nonce mode aad ctx0 scratch).result = 0
        · by_cases h4 : (one_shot_update C key nonce mode aad input output ctx0 scratch).result = 0
          · rw [c5 h1 h2 h3 h4]
            exact ⟨fun h => ⟨h1, h2, h3, h4, h⟩, fun h => h.2.2.2.2⟩
          · rw [c4 h1 h2 h3 h4]
            exact ⟨fun h => absurd h h4, fun h => absurd h.2.2.2.1 h4⟩
        · rw [c3 h1 h2 h3]
          exact ⟨fun h => absurd h h3, fun h => absurd h.2.2.1 h3⟩
      · rw [c2 h1 h2]
        exact ⟨fun h => absurd h h2, fun h => absurd h.2.1 h2⟩
    · rw [c1 h1]
      exact ⟨fun h => absurd h h1, fun h => absurd h.1 h1⟩
  have k1 : key = none → (mbedtls_aead_chacha20_poly1305_crypt_and_mac C key nonce mode aad input
      output mac
        ctx0 scratch).result = MBEDTLS_ERR_AEAD_CHACHA20_POLY1305_BAD_INPUT_DATA := by
    intro h
    have hb := b1 h
    rw [c1 (by rw [hb]; exact bad_input_ne_zero)]
    exact hb
  have k2 : nonce = none → (one_shot_setkey C key ctx0).result = 0 →
      (mbedtls_aead_chacha20_poly1305_crypt_and_mac C key nonce mode aad input output mac
        ctx0 scratch).result = MBEDTLS_ERR_AEAD_CHACHA20_POLY1305_BAD_INPUT_DATA := by
    intro h h1
    have hb := b2 h
    rw [c2 h1 (by rw [hb]; exact bad_input_ne_zero)]
    exact hb
  have k3 : aad = none → (one_shot_setkey C key ctx0).result = 0 →
      (one_shot_starts C key nonce mode ctx0 scratch).result = 0 →
      (mbedtls_aead_chacha20_poly1305_crypt_and_mac C key nonce mode aad input output mac
        ctx0 scratch).result = MBEDTLS_ERR_AEAD_CHACHA20_POLY1305_BAD_INPUT_DATA := by
    intro h h1 h2
    have hb := b3 h
    rw [c3 h1 h2 (by rw [hb]; exact bad_input_ne_zero)]
    exact hb
  have k4 : (input = none ∨ output = false) → (one_shot_setkey C key ctx0).result = 0 →
      (one_shot_starts C key nonce mode ctx0 scratch).result = 0 →
      (one_shot_update_aad C key nonce mode aad ctx0 scratch).result = 0 →
      (mbedtls_aead_chacha20_poly1305_crypt_and_mac C key nonce mode aad input output mac
        ctx0 scratch).result = MBEDTLS_ERR_AEAD_CHACHA20_POLY1305_BAD_INPUT_DATA := by
    intro h h1 h2 h3
    have hb := b4 h
    rw [c4 h1 h2 h3 (by rw [hb]; exact bad_input_ne_zero)]
    exact hb
  have k5 : mac = false → (one_shot_setkey C key ctx0).result = 0 →
      (one_shot_starts C key nonce mode ctx0 scratch).result = 0 →
      (one_shot_update_aad C key nonce mode aad ctx0 scratch).result = 0 →
      (one_shot_update C key nonce mode aad input output ctx0 scratch).result = 0 →
      (mbedtls_aead_chacha20_poly1305_crypt_and_mac C key nonce mode aad input output mac
        ctx0 scratch).result = MBEDTLS_ERR_AEAD_CHACHA20_POLY1305_BAD_INPUT_DATA := by
    intro h h1 h2 h3 h4
    rw [c5 h1 h2 h3 h4]
    exact b5 h
  refine ⟨c1, c2, c3, c4, c5, hiff, ?_, ?_, k1, k2, k3, k4, k5, ?_⟩
  · by_cases h1 : (one_shot_setkey C key ctx0).result = 0
    · by_cases h2 : (one_shot_starts C key nonce mode ctx0 scratch).result = 0
      · by_cases h3 : (one_shot_update_aad C key nonce mode aad ctx0 scratch).result = 0
        · by_cases h4 : (one_shot_update C key nonce mode aad input output ctx0 scratch).result = 0
          · rw [c5 h1 h2 h3 h4]
            exact free_fields C _ s5
          · rw [c4 h1 h2 h3 h4]
            exact free_fields C _ s4
        · rw [c3 h1 h2 h3]
          exact free_fields C _ s3
      · rw [c2 h1 h2]
        exact free_fields C _ s2
    · rw [c1 h1]
      exact free_fields C _ s1
  · intro habs hz
    obtain ⟨h1, h2, h3, h4, h5⟩ := hiff.mp hz
    rcases habs with h | h | h | h | h | h
    · exact bad_input_ne_zero ((b1 h).symm.trans h1)
    · exact bad_input_ne_zero ((b2 h).symm.trans h2)
    · exact bad_input_ne_zero ((b3 h).symm.trans h3)
    · exact bad_input_ne_zero ((b4 (Or.inl h)).symm.trans h4)
    · exact bad_input_ne_zero ((b4 (Or.inr h)).symm.trans h4)
    · exact bad_input_ne_zero ((b5 h).symm.trans h5)
  · intro hNF habs
    cases key with
    | none => exact k1 rfl
    | some k =>
      have h1 : (one_shot_setkey C (some k) ctx0).result = 0 := hNF.1 _ _
      cases nonce with
      | none => exact k2 rfl h1
      | some n =>
        have hOk : ∀ a, CollaboratorsSucceed C k n a := never_fail_succeed C hNF k n
        have h2 := (one_shot_starts_eq C k n [] mode ctx0 scratch (hOk [])).1
        cases aad with
        | none => exact k3 rfl h1 h2
        | some a =>
          have e3 := one_shot_update_aad_eq C k n a mode ctx0 scratch (hOk a)
          have h3 : (one_shot_update_aad C (some k) (some n) mode (some a) ctx0 scratch).result
              = 0 := by
            rw [e3]
          cases input with
          | none => exact k4 (Or.inl rfl) h1 h2 h3
          | some i =>
            cases output with
            | false => exact k4 (Or.inr rfl) h1 h2 h3
            | true =>
              have h4 : (one_shot_update C (some k) (some n) mode (some a) (some i) true
                  ctx0 scratch).result = 0 := by
                unfold one_shot_update
                rw [e3, update_eq C _ i (Or.inl rfl)]
              cases mac with
              | false => exact k5 rfl h1 h2 h3 h4
              | true => simp at habs

/-! ## Collaborator failure in `starts` -/

/-- C11, counterexample: with a keystream-block derivation that fails, `starts`
on a session in STATE_AAD returns the collaborator's code -1, and the session
then accepts `update_aad` and `update`: both return 0. -/
theorem starts_failure_counterexample :
    (mbedtls_aead_chacha20_poly1305_starts keystream_failing (some self_test_session)
        (some test_nonce) MBEDTLS_AEAD_CHACHA20_POLY1305_DECRYPT junk_scratch).result = -1 ∧
    (mbedtls_aead_chacha20_poly1305_update_aad keystream_failing
        (mbedtls_aead_chacha20_poly1305_starts keystream_failing (some self_test_session)
          (some test_nonce) MBEDTLS_AEAD_CHACHA20_POLY1305_DECRYPT junk_scratch).ctx
        (some test_aad)).result = 0 ∧
    (mbedtls_aead_chacha20_poly1305_update keystream_failing
        (mbedtls_aead_chacha20_poly1305_starts keystream_failing (some self_test_session)
          (some test_nonce) MBEDTLS_AEAD_CHACHA20_POLY1305_DECRYPT junk_scratch).ctx
        (some test_input) true).result = 0 := by
  decide

/-- C11, amended: when a collaborator of `starts` fails, `starts` returns the
code of the first collaborator call that failed and leaves the state, both
counters and the mode as they were; the session can be released; after the
failed `starts` it rejects `update_aad` with BAD_STATE when its state before
was not STATE_AAD and rejects `update` with BAD_STATE when its state before was
neither STATE_AAD nor STATE_CIPHERTEXT (so in STATE_INIT and STATE_FINISHED it
rejects both), and it accepts `update` when its state before was STATE_AAD or
STATE_CIPHERTEXT. -/
theorem starts_failure_keeps_state (C : Collaborators CS PS)
    (c : mbedtls_aead_chacha20_poly1305_context CS PS) (nonce : List Byte)
    (mode : mbedtls_aead_chacha20_poly1305_mode_t) (scratch : List Byte)
    (h : (mbedtls_aead_chacha20_poly1305_starts C (some c) (some nonce) mode scratch).result
      ≠ 0) :
    (((C.mbedtls_chacha20_starts c.chacha20_ctx nonce 1).1 ≠ 0 ∧
        (mbedtls_aead_chacha20_poly1305_starts C (some c) (some nonce) mode scratch).result =
          (C.mbedtls_chacha20_starts c.chacha20_ctx nonce 1).1) ∨
      ((C.mbedtls_chacha20_starts c.chacha20_ctx nonce 1).1 = 0 ∧
        (C.mbedtls_chacha20_keystream_block
          (C.mbedtls_chacha20_starts c.chacha20_ctx nonce 1).2 0).1 ≠ 0 ∧
        (mbedtls_aead_chacha20_poly1305_starts C (some c) (some nonce) mode scratch).result =
          (C.mbedtls_chacha20_keystream_block
            (C.mbedtls_chacha20_starts c.chacha20_ctx nonce 1).2 0).1) ∨
      ((C.mbedtls_chacha20_starts c.chacha20_ctx nonce 1).1 = 0 ∧
        (C.mbedtls_chacha20_keystream_block
          (C.mbedtls_chacha20_starts c.chacha20_ctx nonce 1).2 0).1 = 0 ∧
        (mbedtls_aead_chacha20_poly1305_starts C (some c) (some nonce) mode scratch).result =
          (C.mbedtls_poly1305_setkey c.poly1305_ctx
            (one_time_key C (C.mbedtls_chacha20_starts c.chacha20_ctx nonce 1).2)).1)) ∧
    ∃ d,
      (mbedtls_aead_chacha20_poly1305_starts C (some c) (some nonce) mode scratch).ctx =
        some d ∧
      d.state = c.state ∧ d.aad_len = c.aad_len ∧ d.ciphertext_len = c.ciphertext_len ∧
      d.mode = c.mode ∧
      (∃ f, mbedtls_aead_chacha20_poly1305_free C (some d) = some f ∧
        f.state = AEAD_CHACHA20_POLY1305_STATE_INIT ∧ f.aad_len = 0 ∧ f.ciphertext_len = 0) ∧
      (c.state ≠ AEAD_CHACHA20_POLY1305_STATE_AAD →
        ∀ a, (mbedtls_aead_chacha20_poly1305_update_aad C (some d) (some a)).result =
          MBEDTLS_ERR_AEAD_CHACHA20_POLY1305_BAD_STATE) ∧
      (c.state ≠ AEAD_CHACHA20_POLY1305_STATE_AAD →
        c.state ≠ AEAD_CHACHA20_POLY1305_STATE_CIPHERTEXT →
        ∀ i, (mbedtls_aead_chacha20_poly1305_update C (some d) (some i) true).result =
          MBEDTLS_ERR_AEAD_CHACHA20_POLY1305_BAD_STATE) ∧
      ((c.state = AEAD_CHACHA20_POLY1305_STATE_AAD ∨
          c.state = AEAD_CHACHA20_POLY1305_STATE_CIPHERTEXT) →
        ∀ i, (mbedtls_aead_chacha20_poly1305_update C (some d) (some i) true).result = 0) := by
  have hr := starts_result C c nonce mode scratch
  obtain ⟨d, hd, hs, ha, hc, hm⟩ := starts_failure_fields C c nonce mode scratch h
  refine ⟨?_, d, hd, hs, ha, hc, hm, ⟨_, rfl, rfl, rfl, rfl⟩, ?_, ?_, ?_⟩
  · by_cases h1 : (C.mbedtls_chacha20_starts c.chacha20_ctx nonce 1).1 = 0
    · by_cases h2 : (C.mbedtls_chacha20_keystream_block
          (C.mbedtls_chacha20_starts c.chacha20_ctx nonce 1).2 0).1 = 0
      · rw [if_neg (not_not.mpr h1), if_neg (not_not.mpr h2)] at hr
        exact Or.inr (Or.inr ⟨h1, h2, hr⟩)
      · rw [if_neg (not_not.mpr h1), if_pos h2] at hr
        exact Or.inr (Or.inl ⟨h1, h2, hr⟩)
    · rw [if_pos h1] at hr
      exact Or.inl ⟨h1, hr⟩
  · intro h1 a
    rw [update_aad_bad_state C d a (by rw [hs]; exact h1)]
  · intro h1 h2 i
    rw [update_bad_state C d i ⟨by rw [hs]; exact h1, by rw [hs]; exact h2⟩]
  · intro h1 i
    rw [update_eq C d i (by rw [hs]; exact h1)]

/-- Witness of C11: `starts` on a finished session with a keystream-block
derivation that fails. -/
theorem starts_failure_keeps_state_witness :
    (mbedtls_aead_chacha20_poly1305_starts keystream_failing (some junk_context)
        (some test_nonce) MBEDTLS_AEAD_CHACHA20_POLY1305_DECRYPT junk_scratch).result ≠ 0 ∧
    ((((keystream_failing.mbedtls_chacha20_starts junk_context.chacha20_ctx test_nonce 1).1 ≠ 0 ∧
          (mbedtls_aead_chacha20_poly1305_starts keystream_failing (some junk_context) (some
              test_nonce) MBEDTLS_AEAD_CHACHA20_POLY1305_DECRYPT junk_scratch).result =
            (keystream_failing.mbedtls_chacha20_starts junk_context.chacha20_ctx test_nonce 1).1) ∨
        ((keystream_failing.mbedtls_chacha20_starts junk_context.chacha20_ctx test_nonce 1).1 = 0 ∧
          (keystream_failing.mbedtls_chacha20_keystream_block
            (keystream_failing.mbedtls_chacha20_starts junk_context.chacha20_ctx test_nonce 1).2
                0).1 ≠ 0 ∧
          (mbedtls_aead_chacha20_poly1305_starts keystream_failing (some junk_context) (some
              test_nonce) MBEDTLS_AEAD_CHACHA20_POLY1305_DECRYPT junk_scratch).result =
            (keystream_failing.mbedtls_chacha20_keystream_block
              (keystream_failing.mbedtls_chacha20_starts junk_context.chacha20_ctx test_nonce 1).2
                  0).1) ∨
        ((keystream_failing.mbedtls_chacha20_starts junk_context.chacha20_ctx test_nonce 1).1 = 0 ∧
          (keystream_failing.mbedtls_chacha20_keystream_block
            (keystream_failing.mbedtls_chacha20_starts junk_context.chacha20_ctx test_nonce 1).2
                0).1 = 0 ∧
          (mbedtls_aead_chacha20_poly1305_starts keystream_failing (some junk_context) (some
              test_nonce) MBEDTLS_AEAD_CHACHA20_POLY1305_DECRYPT junk_scratch).result =
            (keystream_failing.mbedtls_poly1305_setkey junk_context.poly1305_ctx
              (one_time_key keystream_failing (keystream_failing.mbedtls_chacha20_starts
                  junk_context.chacha20_ctx test_nonce 1).2)).1)) ∧
      ∃ d,
        (mbedtls_aead_chacha20_poly1305_starts keystream_failing (some junk_context) (some
            test_nonce) MBEDTLS_AEAD_CHACHA20_POLY1305_DECRYPT junk_scratch).ctx =
          some d ∧
        d.state = junk_context.state ∧ d.aad_len = junk_context.aad_len ∧ d.ciphertext_len =
            junk_context.ciphertext_len ∧
        d.mode = junk_context.mode ∧
        (∃ f, mbedtls_aead_chacha20_poly1305_free keystream_failing (some d) = some f ∧
          f.state = AEAD_CHACHA20_POLY1305_STATE_INIT ∧ f.aad_len = 0 ∧ f.ciphertext_len = 0) ∧
        (junk_context.state ≠ AEAD_CHACHA20_POLY1305_STATE_AAD →
          ∀ a, (mbedtls_aead_chacha20_poly1305_update_aad keystream_failing (some d) (some
              a)).result =
            MBEDTLS_ERR_AEAD_CHACHA20_POLY1305_BAD_STATE) ∧
        (junk_context.state ≠ AEAD_CHACHA20_POLY1305_STATE_AAD →
          junk_context.state ≠ AEAD_CHACHA20_POLY1305_STATE_CIPHERTEXT →
          ∀ i, (mbedtls_aead_chacha20_poly1305_update keystream_failing (some d) (some i)
              true).result =
            MBEDTLS_ERR_AEAD_CHACHA20_POLY1305_BAD_STATE) ∧
        ((junk_context.state = AEAD_CHACHA20_POLY1305_STATE_AAD ∨
            junk_context.state = AEAD_CHACHA20_POLY1305_STATE_CIPHERTEXT) →
          ∀ i, (mbedtls_aead_chacha20_poly1305_update keystream_failing (some d) (some i)
              true).result = 0)) :=
  ⟨by decide,
    starts_failure_keeps_state keystream_failing junk_context test_nonce
      MBEDTLS_AEAD_CHACHA20_POLY1305_DECRYPT junk_scratch (by decide)⟩

/-! ## Release and key setup -/

/-- C12. Idempotent release: on an absent context `free` does nothing; on every
context it leaves `aad_len = 0`, `ciphertext_len = 0`, the state STATE_INIT and
the mode ENCRYPT; a second `free` in succession leaves these four fields as
the first did, and leaves the whole context as the first did when the `free`
operations of the collaborators are idempotent. -/
theorem free_idempotent (C : Collaborators CS PS)
    (c : mbedtls_aead_chacha20_poly1305_context CS PS) :
    mbedtls_aead_chacha20_poly1305_free C none = none ∧
    (∃ d, mbedtls_aead_chacha20_poly1305_free C (some c) = some d ∧
      d.aad_len = 0 ∧ d.ciphertext_len = 0 ∧
      d.state = AEAD_CHACHA20_POLY1305_STATE_INIT ∧
      d.mode = MBEDTLS_AEAD_CHACHA20_POLY1305_ENCRYPT ∧
      ∃ e, mbedtls_aead_chacha20_poly1305_free C
          (mbedtls_aead_chacha20_poly1305_free C (some c)) = some e ∧
        e.aad_len = d.aad_len ∧ e.ciphertext_len = d.ciphertext_len ∧
        e.state = d.state ∧ e.mode = d.mode ∧
        e.chacha20_ctx = C.mbedtls_chacha20_free d.chacha20_ctx ∧
        e.poly1305_ctx = C.mbedtls_poly1305_free d.poly1305_ctx) ∧
    ((∀ s, C.mbedtls_chacha20_free (C.mbedtls_chacha20_free s) = C.mbedtls_chacha20_free s) →
      (∀ s, C.mbedtls_poly1305_free (C.mbedtls_poly1305_free s) = C.mbedtls_poly1305_free s) →
      mbedtls_aead_chacha20_poly1305_free C (mbedtls_aead_chacha20_poly1305_free C (some c)) =
        mbedtls_aead_chacha20_poly1305_free C (some c)) := by
  refine ⟨rfl, ⟨_, rfl, rfl, rfl, rfl, rfl, _, rfl, rfl, rfl, rfl, rfl, rfl, rfl⟩, ?_⟩
  intro h1 h2
  simp only [mbedtls_aead_chacha20_poly1305_free, h1, h2]

/-- C13. `setkey` returns BAD_INPUT_DATA when the context or the key is absent
and then leaves the context as it was; with both present it returns the result
of the cipher's `setkey` and, whatever that result and whatever the state,
changes nothing but the cipher state, which is the one the cipher's `setkey`
leaves: state, both counters, mode and authenticator are as they were. -/
theorem setkey_frame (C : Collaborators CS PS)
    (ctx : Option (mbedtls_aead_chacha20_poly1305_context CS PS)) (key : Option (List Byte)) :
    ((ctx = none ∨ key = none) →
      mbedtls_aead_chacha20_poly1305_setkey C ctx key =
        { result := MBEDTLS_ERR_AEAD_CHACHA20_POLY1305_BAD_INPUT_DATA, ctx := ctx, out := [] }) ∧
    (∀ c k, ctx = some c → key = some k →
      mbedtls_aead_chacha20_poly1305_setkey C ctx key =
        { result := (C.mbedtls_chacha20_setkey c.chacha20_ctx k).1
          ctx := some
            { chacha20_ctx := (C.mbedtls_chacha20_setkey c.chacha20_ctx k).2
              poly1305_ctx := c.poly1305_ctx
              aad_len := c.aad_len
              ciphertext_len := c.ciphertext_len
              state := c.state
              mode := c.mode }
          out := [] }) ∧
    (mbedtls_aead_chacha20_poly1305_setkey C ctx key).ctx.map
        (fun d => (d.poly1305_ctx, d.aad_len, d.ciphertext_len, d.state, d.mode)) =
      ctx.map (fun d => (d.poly1305_ctx, d.aad_len, d.ciphertext_len, d.state, d.mode)) := by
  refine ⟨?_, ?_, ?_⟩
  · rintro (h | h) <;> subst h
    · cases key <;> rfl
    · cases ctx <;> rfl
  · intro c k hc hk
    subst hc hk
    rfl
  · cases ctx <;> cases key <;> rfl

/-! ## Invariants of the counters and of the state -/

/-- C14, counterexample: in the self-test session, where `aad_len` is 12, an
`update_aad` call of length `2^64 - 12` returns 0 and leaves `aad_len = 0`; in
a session in STATE_CIPHERTEXT with `ciphertext_len = 0x0102030405060708`, an
`update` call of length `2^64 - 0x0102030405060708` returns 0 and leaves
`ciphertext_len = 0`: the counters decrease without any `starts`. -/
theorem counters_wrap_counterexample :
    self_test_session.aad_len = 12 ∧
    (mbedtls_aead_chacha20_poly1305_update_aad rfc7539 (some self_test_session)
        (some (List.replicate (2 ^ 64 - 12) 0))).result = 0 ∧
    (mbedtls_aead_chacha20_poly1305_update_aad rfc7539 (some self_test_session)
        (some (List.replicate (2 ^ 64 - 12) 0))).ctx.map (fun d => d.aad_len) = some 0 ∧
    trailer_session.ciphertext_len = 0x0102030405060708 ∧
    (mbedtls_aead_chacha20_poly1305_update rfc7539 (some trailer_session)
        (some (List.replicate (2 ^ 64 - 0x0102030405060708) 0)) true).result = 0 ∧
    (mbedtls_aead_chacha20_poly1305_update rfc7539 (some trailer_session)
        (some (List.replicate (2 ^ 64 - 0x0102030405060708) 0)) true).ctx.map
          (fun d => d.ciphertext_len) = some 0 := by
  refine ⟨rfl, ?_, ?_, rfl, ?_, ?_⟩
  · rw [update_aad_eq rfc7539 self_test_session _ rfl]
    rfl
  · rw [update_aad_eq rfc7539 self_test_session _ rfl]
    simp only [Option.map_some', List.length_replicate]
    rfl
  · rw [update_eq rfc7539 trailer_session _ (Or.inr rfl)]
  · rw [update_eq rfc7539 trailer_session _ (Or.inr rfl)]
    simp only [Option.map_some', List.length_replicate]
    rfl

/-- C14, amended: each `setkey`, `update_aad`, `update` or `finish` call leaves
`aad_len` and `ciphertext_len` as they were or adds the length of the call to
one of them modulo `2^64`; so along every sequence of such calls whose lengths,
added to the counters, stay below `2^64`, both counters are non-decreasing;
and a `starts` that returns 0 resets both to 0. -/
theorem counters_monotone_below_wrap (C : Collaborators CS PS)
    (c : mbedtls_aead_chacha20_poly1305_context CS PS) (pre post : List SessionCall)
    (ha : c.aad_len + aad_bytes (pre ++ post) < 2 ^ 64)
    (hc : c.ciphertext_len + text_bytes (pre ++ post) < 2 ^ 64) :
    (∃ d e, session_calls C (some c) pre = some d ∧
      session_calls C (some c) (pre ++ post) = some e ∧
      c.aad_len ≤ d.aad_len ∧ d.aad_len ≤ e.aad_len ∧
      c.ciphertext_len ≤ d.ciphertext_len ∧ d.ciphertext_len ≤ e.ciphertext_len) ∧
    (∀ k, ∃ d, (session_call C (some c) k).ctx = some d ∧
      (d.aad_len = c.aad_len ∨
        ∃ a, k = SessionCall.absorb_aad (some a) ∧
          d.aad_len = (c.aad_len + a.length) % 2 ^ 64) ∧
      (d.ciphertext_len = c.ciphertext_len ∨
        ∃ i o, k = SessionCall.process (some i) o ∧
          d.ciphertext_len = (c.ciphertext_len + i.length) % 2 ^ 64)) ∧
    (∀ nonce mode scratch,
      (mbedtls_aead_chacha20_poly1305_starts C (some c) (some nonce) mode scratch).result = 0 →
      ∃ d, (mbedtls_aead_chacha20_poly1305_starts C (some c) (some nonce) mode scratch).ctx =
          some d ∧ d.aad_len = 0 ∧ d.ciphertext_len = 0) := by
  rw [aad_bytes_append] at ha
  rw [text_bytes_append] at hc
  refine ⟨?_, ?_, ?_⟩
  · obtain ⟨d, hd, h1, h2, h3, h4⟩ := session_calls_counters C pre c (by omega) (by omega)
    obtain ⟨e, he, h5, _, h6, _⟩ := session_calls_counters C post d (by omega) (by omega)
    refine ⟨d, e, hd, ?_, h1, h5, h3, h6⟩
    rw [session_calls_append, hd, he]
  · intro k
    obtain ⟨d, hd, _, h1, h2, _⟩ := session_call_effect C c k
    exact ⟨d, hd, h1, h2⟩
  · intro nonce mode scratch h
    exact ⟨_, starts_eq C c nonce mode scratch h, rfl, rfl⟩

/-- Witness of C14: the self-test session driven with seven calls, two of them
rejected; evaluated, the counters are 24 and 7 after the first two calls and 24
and 114 after all of them. -/
theorem counters_monotone_below_wrap_witness :
    self_test_session.aad_len + aad_bytes (test_calls_before ++ test_calls_after) < 2 ^ 64 ∧
    self_test_session.ciphertext_len + text_bytes (test_calls_before ++ test_calls_after) <
      2 ^ 64 ∧
    ((∃ d e, session_calls rfc7539 (some self_test_session) test_calls_before = some d ∧
        session_calls rfc7539 (some self_test_session) (test_calls_before ++ test_calls_after) =
            some e ∧
        self_test_session.aad_len ≤ d.aad_len ∧ d.aad_len ≤ e.aad_len ∧
        self_test_session.ciphertext_len ≤ d.ciphertext_len ∧ d.ciphertext_len ≤ e.ciphertext_len) ∧
      (∀ k, ∃ d, (session_call rfc7539 (some self_test_session) k).ctx = some d ∧
        (d.aad_len = self_test_session.aad_len ∨
          ∃ a, k = SessionCall.absorb_aad (some a) ∧
            d.aad_len = (self_test_session.aad_len + a.length) % 2 ^ 64) ∧
        (d.ciphertext_len = self_test_session.ciphertext_len ∨
          ∃ i o, k = SessionCall.process (some i) o ∧
            d.ciphertext_len = (self_test_session.ciphertext_len + i.length) % 2 ^ 64)) ∧
      (∀ nonce mode scratch,
        (mbedtls_aead_chacha20_poly1305_starts rfc7539 (some self_test_session) (some nonce) mode
            scratch).result = 0 →
        ∃ d, (mbedtls_aead_chacha20_poly1305_starts rfc7539 (some self_test_session) (some nonce)
            mode scratch).ctx =
            some d ∧ d.aad_len = 0 ∧ d.ciphertext_len = 0)) ∧
    ((session_calls rfc7539 (some self_test_session) test_calls_before).map
        (fun d => (d.aad_len, d.ciphertext_len)) = some (24, 7) ∧
      (session_calls rfc7539 (some self_test_session)
          (test_calls_before ++ test_calls_after)).map
        (fun d => (d.aad_len, d.ciphertext_len)) = some (24, 114)) :=
  ⟨by decide, by decide,
    counters_monotone_below_wrap rfc7539 self_test_session test_calls_before test_calls_after
      (by decide) (by decide),
    by decide⟩

/-- C15. Phase transitions are forward: with the order STATE_INIT < STATE_AAD <
STATE_CIPHERTEXT < STATE_FINISHED, every `setkey`, `update_aad`, `update` or
`finish` call, whatever it returns, leaves the state equal to or later than it
was, so that along every sequence of such calls the state never goes back; none
of these calls enters STATE_AAD (if the state is STATE_AAD after the call it
was before); `starts` leaves STATE_AAD when it returns 0 and the state as it
was otherwise; `free` leaves STATE_INIT. -/
theorem state_moves_forward (C : Collaborators CS PS)
    (c : mbedtls_aead_chacha20_poly1305_context CS PS) (pre post : List SessionCall)
    (h : valid_state c.state) :
    (AEAD_CHACHA20_POLY1305_STATE_INIT < AEAD_CHACHA20_POLY1305_STATE_AAD ∧
      AEAD_CHACHA20_POLY1305_STATE_AAD < AEAD_CHACHA20_POLY1305_STATE_CIPHERTEXT ∧
      AEAD_CHACHA20_POLY1305_STATE_CIPHERTEXT < AEAD_CHACHA20_POLY1305_STATE_FINISHED) ∧
    (∃ d e, session_calls C (some c) pre = some d ∧
      session_calls C (some c) (pre ++ post) = some e ∧
      c.state ≤ d.state ∧ d.state ≤ e.state ∧ valid_state e.state) ∧
    (∀ k, ∃ d, (session_call C (some c) k).ctx = some d ∧ c.state ≤ d.state ∧
      (d.state = AEAD_CHACHA20_POLY1305_STATE_AAD →
        c.state = AEAD_CHACHA20_POLY1305_STATE_AAD)) ∧
    (∀ nonce mode scratch,
      ((mbedtls_aead_chacha20_poly1305_starts C (some c) (some nonce) mode scratch).result = 0 →
        ∃ d, (mbedtls_aead_chacha20_poly1305_starts C (some c) (some nonce) mode scratch).ctx =
            some d ∧ d.state = AEAD_CHACHA20_POLY1305_STATE_AAD) ∧
      ((mbedtls_aead_chacha20_poly1305_starts C (some c) (some nonce) mode scratch).result ≠ 0 →
        ∃ d, (mbedtls_aead_chacha20_poly1305_starts C (some c) (some nonce) mode scratch).ctx =
            some d ∧ d.state = c.state)) ∧
    (∃ f, mbedtls_aead_chacha20_poly1305_free C (some c) = some f ∧
      f.state = AEAD_CHACHA20_POLY1305_STATE_INIT) := by
  refine ⟨by decide, ?_, ?_, ?_, ⟨_, rfl, rfl⟩⟩
  · obtain ⟨d, hd, h1, h2⟩ := session_calls_state C pre c h
    obtain ⟨e, he, h3, h4⟩ := session_calls_state C post d h2
    refine ⟨d, e, hd, ?_, h1, h3, h4⟩
    rw [session_calls_append, hd, he]
  · intro k
    obtain ⟨d, hd, h1, _, h2⟩ := session_call_state C c k h
    exact ⟨d, hd, h1, h2⟩
  · intro nonce mode scratch
    refine ⟨?_, ?_⟩
    · intro hr
      exact ⟨_, starts_eq C c nonce mode scratch hr, rfl⟩
    · intro hr
      obtain ⟨d, hd, hs, _⟩ := starts_failure_fields C c nonce mode scratch hr
      exact ⟨d, hd, hs⟩

/-- Witness of C15: the self-test session, in STATE_AAD, driven with seven
calls, two of them rejected; evaluated, the state after the first two calls is
STATE_CIPHERTEXT and the state after all of them is STATE_FINISHED. -/
theorem state_moves_forward_witness :
    valid_state self_test_session.state ∧
    ((AEAD_CHACHA20_POLY1305_STATE_INIT < AEAD_CHACHA20_POLY1305_STATE_AAD ∧
        AEAD_CHACHA20_POLY1305_STATE_AAD < AEAD_CHACHA20_POLY1305_STATE_CIPHERTEXT ∧
        AEAD_CHACHA20_POLY1305_STATE_CIPHERTEXT < AEAD_CHACHA20_POLY1305_STATE_FINISHED) ∧
      (∃ d e, session_calls rfc7539 (some self_test_session) test_calls_before = some d ∧
        session_calls rfc7539 (some self_test_session) (test_calls_before ++ test_calls_after) =
            some e ∧
        self_test_session.state ≤ d.state ∧ d.state ≤ e.state ∧ valid_state e.state) ∧
      (∀ k, ∃ d, (session_call rfc7539 (some self_test_session) k).ctx = some d ∧
          self_test_session.state ≤ d.state ∧
        (d.state = AEAD_CHACHA20_POLY1305_STATE_AAD →
          self_test_session.state = AEAD_CHACHA20_POLY1305_STATE_AAD)) ∧
      (∀ nonce mode scratch,
        ((mbedtls_aead_chacha20_poly1305_starts rfc7539 (some self_test_session) (some nonce) mode
            scratch).result = 0 →
          ∃ d, (mbedtls_aead_chacha20_poly1305_starts rfc7539 (some self_test_session) (some nonce)
              mode scratch).ctx =
              some d ∧ d.state = AEAD_CHACHA20_POLY1305_STATE_AAD) ∧
        ((mbedtls_aead_chacha20_poly1305_starts rfc7539 (some self_test_session) (some nonce) mode
            scratch).result ≠ 0 →
          ∃ d, (mbedtls_aead_chacha20_poly1305_starts rfc7539 (some self_test_session) (some nonce)
              mode scratch).ctx =
              some d ∧ d.state = self_test_session.state)) ∧
      (∃ f, mbedtls_aead_chacha20_poly1305_free rfc7539 (some self_test_session) = some f ∧
        f.state = AEAD_CHACHA20_POLY1305_STATE_INIT)) ∧
    ((session_calls rfc7539 (some self_test_session) test_calls_before).map (fun d => d.state) =
        some AEAD_CHACHA20_POLY1305_STATE_CIPHERTEXT ∧
      (session_calls rfc7539 (some self_test_session)
          (test_calls_before ++ test_calls_after)).map (fun d => d.state) =
        some AEAD_CHACHA20_POLY1305_STATE_FINISHED) :=
  ⟨Or.inr (Or.inl rfl),
    state_moves_forward rfc7539 self_test_session test_calls_before test_calls_after
      (Or.inr (Or.inl rfl)),
    by decide⟩

/-! ## The padding rule -/

/-- C16. Padding rule: for a stream total `n` (`aad_len` for `pad_aad`,
`ciphertext_len` for `pad_ciphertext`) the helper gives the authenticator one
call with `16 - n mod 16` zero bytes when `n mod 16` is not 0 and no call when
it is 0; the pad is at most 15 bytes and `n` plus the pad is a multiple of 16.
In a message driven from a session in STATE_AAD with any number of
`update_aad` calls and then any number of `update` calls, followed by
`finish`, the authenticator calls are: the AAD chunks, the AAD padding once,
then, only if there was an `update` call, the ciphertext chunks and the
ciphertext padding once, then the length block; an `update_aad` call outside
STATE_AAD leaves the context untouched. -/
theorem padding_rule (C : Collaborators CS PS)
    (c : mbedtls_aead_chacha20_poly1305_context CS PS) (aads texts : List (List Byte))
    (hs : c.state = AEAD_CHACHA20_POLY1305_STATE_AAD) :
    (∀ x : mbedtls_aead_chacha20_poly1305_context CS PS,
      mbedtls_aead_chacha20_poly1305_pad_aad C x =
          { x with poly1305_ctx := absorb_all C x.poly1305_ctx (pad_chunk x.aad_len) } ∧
        mbedtls_aead_chacha20_poly1305_pad_ciphertext C x =
          { x with poly1305_ctx := absorb_all C x.poly1305_ctx (pad_chunk x.ciphertext_len) }) ∧
    (∀ n : Nat,
      (n % 16 ≠ 0 → pad_chunk n = [List.replicate (16 - n % 16) 0]) ∧
      (n % 16 = 0 → pad_chunk n = []) ∧
      total_length (pad_chunk n) ≤ 15 ∧ (n + total_length (pad_chunk n)) % 16 = 0) ∧
    (mbedtls_aead_chacha20_poly1305_finish C
        (update_chunks C (update_aad_chunks C (some c) aads) texts).ctx true).result = 0 ∧
    (mbedtls_aead_chacha20_poly1305_finish C
        (update_chunks C (update_aad_chunks C (some c) aads) texts).ctx true).out =
      (C.mbedtls_poly1305_finish
        (absorb_all C c.poly1305_ctx
          (aads ++ pad_chunk (c.aad_len + total_length aads) ++
            (if texts = [] then []
              else authenticated_chunks C c.mode c.chacha20_ctx texts ++
                pad_chunk (c.ciphertext_len + total_length texts)) ++
            [le64 (c.aad_len + total_length aads) ++
              le64 (c.ciphertext_len + total_length texts)]))).2.2 ∧
    (mbedtls_aead_chacha20_poly1305_finish C
        (update_chunks C (update_aad_chunks C (some c) aads) texts).ctx true).ctx.map
          (fun d => d.poly1305_ctx) =
      some (C.mbedtls_poly1305_finish
        (absorb_all C c.poly1305_ctx
          (aads ++ pad_chunk (c.aad_len + total_length aads) ++
            (if texts = [] then []
              else authenticated_chunks C c.mode c.chacha20_ctx texts ++
                pad_chunk (c.ciphertext_len + total_length texts)) ++
            [le64 (c.aad_len + total_length aads) ++
              le64 (c.ciphertext_len + total_length texts)]))).2.1 ∧
    (∀ (x : mbedtls_aead_chacha20_poly1305_context CS PS) (a : List Byte),
      x.state ≠ AEAD_CHACHA20_POLY1305_STATE_AAD →
      (mbedtls_aead_chacha20_poly1305_update_aad C (some x) (some a)).ctx = some x) := by
  obtain ⟨m1, m2⟩ := message_authenticator_calls C c aads texts hs
  refine ⟨?_, ?_, ?_, ?_, m2, ?_⟩
  · intro x
    rw [pad_aad_eq, pad_ciphertext_eq, absorb_pad_eq, absorb_pad_eq]
    exact ⟨rfl, rfl⟩
  · intro n
    exact ⟨pad_chunk_of_ne n, pad_chunk_of_eq n, (pad_chunk_length n).1, (pad_chunk_length n).2⟩
  · rw [m1]
  · rw [m1]
  · intro x a hx
    rw [update_aad_bad_state C x a hx]

/-- Witness of C16: the self-test message driven with two `update_aad` calls
and three `update` calls, with the ChaCha20 and Poly1305 of RFC 7539;
evaluated, the AAD padding is four zero bytes, the ciphertext padding is
fourteen zero bytes, and the tag is the expected one of the self-test. -/
theorem padding_rule_witness :
    started_session.state = AEAD_CHACHA20_POLY1305_STATE_AAD ∧
    ((∀ x : mbedtls_aead_chacha20_poly1305_context chacha20_context poly1305_context,
        mbedtls_aead_chacha20_poly1305_pad_aad rfc7539 x =
            { x with poly1305_ctx := absorb_all rfc7539 x.poly1305_ctx (pad_chunk x.aad_len) } ∧
          mbedtls_aead_chacha20_poly1305_pad_ciphertext rfc7539 x =
            { x with poly1305_ctx := absorb_all rfc7539 x.poly1305_ctx (pad_chunk x.ciphertext_len)
                }) ∧
      (∀ n : Nat,
        (n % 16 ≠ 0 → pad_chunk n = [List.replicate (16 - n % 16) 0]) ∧
        (n % 16 = 0 → pad_chunk n = []) ∧
        total_length (pad_chunk n) ≤ 15 ∧ (n + total_length (pad_chunk n)) % 16 = 0) ∧
      (mbedtls_aead_chacha20_poly1305_finish rfc7539
          (update_chunks rfc7539 (update_aad_chunks rfc7539 (some started_session) test_aad_chunks)
              test_chunks).ctx true).result = 0 ∧
      (mbedtls_aead_chacha20_poly1305_finish rfc7539
          (update_chunks rfc7539 (update_aad_chunks rfc7539 (some started_session) test_aad_chunks)
              test_chunks).ctx true).out =
        (rfc7539.mbedtls_poly1305_finish
          (absorb_all rfc7539 started_session.poly1305_ctx
            (test_aad_chunks ++ pad_chunk (started_session.aad_len + total_length test_aad_chunks)
                ++
              (if test_chunks = [] then []
                else authenticated_chunks rfc7539 started_session.mode started_session.chacha20_ctx
                    test_chunks ++
                  pad_chunk (started_session.ciphertext_len + total_length test_chunks)) ++
              [le64 (started_session.aad_len + total_length test_aad_chunks) ++
                le64 (started_session.ciphertext_len + total_length test_chunks)]))).2.2 ∧
      (mbedtls_aead_chacha20_poly1305_finish rfc7539
          (update_chunks rfc7539 (update_aad_chunks rfc7539 (some started_session) test_aad_chunks)
              test_chunks).ctx true).ctx.map
            (fun d => d.poly1305_ctx) =
        some (rfc7539.mbedtls_poly1305_finish
          (absorb_all rfc7539 started_session.poly1305_ctx
            (test_aad_chunks ++ pad_chunk (started_session.aad_len + total_length test_aad_chunks)
                ++
              (if test_chunks = [] then []
                else authenticated_chunks rfc7539 started_session.mode started_session.chacha20_ctx
                    test_chunks ++
                  pad_chunk (started_session.ciphertext_len + total_length test_chunks)) ++
              [le64 (started_session.aad_len + total_length test_aad_chunks) ++
                le64 (started_session.ciphertext_len + total_length test_chunks)]))).2.1 ∧
      (∀ (x : mbedtls_aead_chacha20_poly1305_context chacha20_context poly1305_context) (a : List
          Byte),
        x.state ≠ AEAD_CHACHA20_POLY1305_STATE_AAD →
        (mbedtls_aead_chacha20_poly1305_update_aad rfc7539 (some x) (some a)).ctx = some x)) ∧
    (pad_chunk (started_session.aad_len + total_length test_aad_chunks) =
        [[0, 0, 0, 0]] ∧
      pad_chunk (started_session.ciphertext_len + total_length test_chunks) =
        [[0, 0, 0, 0, 0, 0, 0, 0, 0, 0, 0, 0, 0, 0]] ∧
      (mbedtls_aead_chacha20_poly1305_finish rfc7539
        (update_chunks rfc7539 (update_aad_chunks rfc7539 (some started_session)
          test_aad_chunks) test_chunks).ctx true).out = test_mac) :=
  ⟨rfl, padding_rule rfc7539 started_session test_aad_chunks test_chunks rfl, by decide!⟩

/-! ## Length binding -/

/-- C17. Length binding: the byte stream that a complete session feeds to its
authenticator is `A || zero-pad to 16 || C || zero-pad to 16 || le64(len A) ||
le64(len C)`, and it is injective in the pair `(A, C)` for lengths below `2^64`.
The stream is observed by running the session on the collaborators `recording
C`, whose authenticator returns the bytes it was given: the cipher calls
succeeding and the transform keeping lengths, the one-shot function returns 0
and the recorded stream is `mac_data A C`, where `C` is the output when
encrypting and the input when decrypting; two sessions (any keys, nonces and
modes) whose recorded streams are equal have equal `A` and equal `C`; in
particular the stream of `(A, I)` differs from that of `(A, I` followed by one
zero byte`)` and from that of `(A` followed by one zero byte`, I)`.  The same
stream is what `update_aad`, `update` and `finish`, called in this order on a
started session, add to the record.  As a fact on byte strings, `mac_data` is
injective below `2^64`, and a streaming authenticator that is given the calls of
a message one by one is in the state that `mac_data` in one piece leaves. -/
theorem length_binding (C : Collaborators CS PS) (key nonce key' nonce' : List Byte)
    (mode mode' : mbedtls_aead_chacha20_poly1305_mode_t) (A I A' I' : List Byte)
    (ctx0 ctx0' : mbedtls_aead_chacha20_poly1305_context CS (List Byte))
    (scratch scratch' : List Byte)
    (hA : A.length < 2 ^ 64) (hI : I.length < 2 ^ 64)
    (hA' : A'.length < 2 ^ 64) (hI' : I'.length < 2 ^ 64)
    (hOk : CollaboratorsSucceed (recording C) key nonce A)
    (hOk' : CollaboratorsSucceed (recording C) key' nonce' A')
    (hL : TransformKeepsLength C) :
    (mbedtls_aead_chacha20_poly1305_crypt_and_mac (recording C) (some key) (some nonce) mode
        (some A) (some I) true true ctx0 scratch).result = 0 ∧
    (mbedtls_aead_chacha20_poly1305_crypt_and_mac (recording C) (some key) (some nonce) mode
        (some A) (some I) true true ctx0 scratch).mac =
      mac_data A
        (authenticated_text mode I
          (mbedtls_aead_chacha20_poly1305_crypt_and_mac (recording C) (some key) (some nonce) mode
              (some A) (some I) true true ctx0 scratch).output) ∧
    ((mbedtls_aead_chacha20_poly1305_crypt_and_mac (recording C) (some key) (some nonce) mode
        (some A) (some I) true true ctx0 scratch).mac =
        (mbedtls_aead_chacha20_poly1305_crypt_and_mac (recording C) (some key') (some nonce') mode'
            (some A') (some I') true true ctx0' scratch').mac →
      A = A' ∧
      authenticated_text mode I
          (mbedtls_aead_chacha20_poly1305_crypt_and_mac (recording C) (some key) (some nonce) mode
              (some A) (some I) true true ctx0 scratch).output =
        authenticated_text mode' I'
          (mbedtls_aead_chacha20_poly1305_crypt_and_mac (recording C) (some key') (some nonce')
              mode' (some A') (some I') true true ctx0' scratch').output) ∧
    (I.length + 1 < 2 ^ 64 →
      (mbedtls_aead_chacha20_poly1305_crypt_and_mac (recording C) (some key) (some nonce) mode
          (some A) (some I) true true ctx0 scratch).mac ≠
        (mbedtls_aead_chacha20_poly1305_crypt_and_mac (recording C) (some key) (some nonce) mode
            (some A) (some (I ++ [0])) true true ctx0 scratch).mac) ∧
    (A.length + 1 < 2 ^ 64 →
      (mbedtls_aead_chacha20_poly1305_crypt_and_mac (recording C) (some key) (some nonce) mode
          (some A) (some I) true true ctx0 scratch).mac ≠
        (mbedtls_aead_chacha20_poly1305_crypt_and_mac (recording C) (some key) (some nonce) mode
            (some (A ++ [0])) (some I) true true ctx0 scratch).mac) ∧
    (∀ c : mbedtls_aead_chacha20_poly1305_context CS (List Byte),
      c.state = AEAD_CHACHA20_POLY1305_STATE_AAD → c.aad_len = 0 → c.ciphertext_len = 0 →
      (mbedtls_aead_chacha20_poly1305_finish (recording C)
        (mbedtls_aead_chacha20_poly1305_update (recording C)
          (mbedtls_aead_chacha20_poly1305_update_aad (recording C) (some c) (some A)).ctx
          (some I) true).ctx true).result = 0 ∧
      (mbedtls_aead_chacha20_poly1305_finish (recording C)
        (mbedtls_aead_chacha20_poly1305_update (recording C)
          (mbedtls_aead_chacha20_poly1305_update_aad (recording C) (some c) (some A)).ctx
          (some I) true).ctx true).out =
        c.poly1305_ctx ++
          mac_data A
            (authenticated_text c.mode I
              (mbedtls_aead_chacha20_poly1305_update (recording C)
                (mbedtls_aead_chacha20_poly1305_update_aad (recording C) (some c)
                  (some A)).ctx
                (some I) true).out)) ∧
    (∀ Ct Ct' : List Byte, Ct.length < 2 ^ 64 → Ct'.length < 2 ^ 64 →
      mac_data A Ct = mac_data A' Ct' → A = A' ∧ Ct = Ct') ∧
    (∀ Ct : List Byte, Ct.length + 1 < 2 ^ 64 → mac_data A Ct ≠ mac_data A (Ct ++ [0])) ∧
    (∀ Ct : List Byte, Ct.length < 2 ^ 64 → A.length + 1 < 2 ^ 64 →
      mac_data A Ct ≠ mac_data (A ++ [0]) Ct) ∧
    (∀ (D : Collaborators CS PS) (ps : PS) (Ct : List Byte), AbsorbStreaming D →
      absorb_message D ps A Ct Ct.length =
        (D.mbedtls_poly1305_update ps (mac_data A Ct)).2) := by
  obtain ⟨r1, r2, r3⟩ := recorded_stream C key nonce A I mode ctx0 scratch hOk hL
  obtain ⟨_, s2, s3⟩ := recorded_stream C key' nonce' A' I' mode' ctx0' scratch' hOk' hL
  refine ⟨r1, r2, ?_, ?_, ?_, ?_, ?_, ?_, ?_, ?_⟩
  · intro h
    rw [r2, s2] at h
    exact mac_data_injective _ _ _ _ hA (by rw [r3]; exact hI) hA' (by rw [s3]; exact hI') h
  · intro hlen h
    obtain ⟨_, t2, t3⟩ := recorded_stream C key nonce A (I ++ [0]) mode ctx0 scratch hOk hL
    rw [r2, t2] at h
    have hl : (I ++ [0]).length < 2 ^ 64 := by
      rw [List.length_append]
      exact hlen
    have e := (mac_data_injective _ _ _ _ hA (by rw [r3]; exact hI) hA
      (by rw [t3]; exact hl) h).2
    have hh := congrArg List.length e
    rw [r3, t3] at hh
    simp at hh
  · intro hlen h
    obtain ⟨_, t2, t3⟩ := recorded_stream C key nonce (A ++ [0]) I mode ctx0 scratch
      (recording_succeed C key nonce A (A ++ [0]) hOk) hL
    rw [r2, t2] at h
    have hl : (A ++ [0]).length < 2 ^ 64 := by
      rw [List.length_append]
      exact hlen
    have e := (mac_data_injective _ _ _ _ hA (by rw [r3]; exact hI) hl
      (by rw [t3]; exact hI) h).1
    have hh := congrArg List.length e
    simp at hh
  · intro c hs ha hc
    exact recorded_stream_calls C c A I hs ha hc hL
  · intro Ct Ct' hC hC' h
    exact mac_data_injective A Ct A' Ct' hA hC hA' hC' h
  · intro Ct hlen h
    have hl : (Ct ++ [0]).length < 2 ^ 64 := by
      rw [List.length_append]
      exact hlen
    have hC : Ct.length < 2 ^ 64 := by omega
    have e := (mac_data_injective A Ct A (Ct ++ [0]) hA hC hA hl h).2
    have hh := congrArg List.length e
    simp at hh
  · intro Ct hC hlen h
    have hl : (A ++ [0]).length < 2 ^ 64 := by
      rw [List.length_append]
      exact hlen
    have e := (mac_data_injective A Ct (A ++ [0]) Ct hA hC hl hC h).1
    have hh := congrArg List.length e
    simp at hh
  · intro D ps Ct hS
    exact absorb_message_eq D hS ps A Ct

/-- Witness of C17: the session of the self-test (RFC 7539 section 2.8.2) against
a decrypting session on other buffers, with the ChaCha20 of the RFC and the
recording authenticator; evaluated, the recorded stream of the self-test is
its 12 bytes of associated data, 4 zero bytes, its 114 bytes of ciphertext, 14
zero bytes and the two lengths. -/
theorem length_binding_witness :
    test_aad.length < 2 ^ 64 ∧
    test_input.length < 2 ^ 64 ∧
    test_nonce.length < 2 ^ 64 ∧
    test_output.length < 2 ^ 64 ∧
    CollaboratorsSucceed (recording rfc7539) test_key test_nonce test_aad ∧
    CollaboratorsSucceed (recording rfc7539) test_key test_nonce test_nonce ∧
    TransformKeepsLength rfc7539 ∧
    ((mbedtls_aead_chacha20_poly1305_crypt_and_mac (recording rfc7539) (some test_key)
        (some test_nonce) MBEDTLS_AEAD_CHACHA20_POLY1305_ENCRYPT (some test_aad) (some test_input)
        true true junk_recording_context junk_scratch).result = 0 ∧
      (mbedtls_aead_chacha20_poly1305_crypt_and_mac (recording rfc7539) (some test_key)
          (some test_nonce) MBEDTLS_AEAD_CHACHA20_POLY1305_ENCRYPT (some test_aad) (some test_input)
          true true junk_recording_context junk_scratch).mac =
        mac_data test_aad
          (authenticated_text MBEDTLS_AEAD_CHACHA20_POLY1305_ENCRYPT test_input
            (mbedtls_aead_chacha20_poly1305_crypt_and_mac (recording rfc7539) (some test_key)
                (some test_nonce) MBEDTLS_AEAD_CHACHA20_POLY1305_ENCRYPT (some test_aad)
                (some test_input) true true junk_recording_context junk_scratch).output) ∧
      ((mbedtls_aead_chacha20_poly1305_crypt_and_mac (recording rfc7539) (some test_key)
          (some test_nonce) MBEDTLS_AEAD_CHACHA20_POLY1305_ENCRYPT (some test_aad) (some test_input)
          true true junk_recording_context junk_scratch).mac =
          (mbedtls_aead_chacha20_poly1305_crypt_and_mac (recording rfc7539) (some test_key)
              (some test_nonce) MBEDTLS_AEAD_CHACHA20_POLY1305_DECRYPT (some test_nonce)
              (some test_output) true true junk_recording_context junk_scratch2).mac →
        test_aad = test_nonce ∧
        authenticated_text MBEDTLS_AEAD_CHACHA20_POLY1305_ENCRYPT test_input
            (mbedtls_aead_chacha20_poly1305_crypt_and_mac (recording rfc7539) (some test_key)
                (some test_nonce) MBEDTLS_AEAD_CHACHA20_POLY1305_ENCRYPT (some test_aad)
                (some test_input) true true junk_recording_context junk_scratch).output =
          authenticated_text MBEDTLS_AEAD_CHACHA20_POLY1305_DECRYPT test_output
            (mbedtls_aead_chacha20_poly1305_crypt_and_mac (recording rfc7539) (some test_key)
                (some test_nonce) MBEDTLS_AEAD_CHACHA20_POLY1305_DECRYPT (some test_nonce)
                (some test_output) true true junk_recording_context junk_scratch2).output) ∧
      (test_input.length + 1 < 2 ^ 64 →
        (mbedtls_aead_chacha20_poly1305_crypt_and_mac (recording rfc7539) (some test_key)
            (some test_nonce) MBEDTLS_AEAD_CHACHA20_POLY1305_ENCRYPT (some test_aad)
            (some test_input) true true junk_recording_context junk_scratch).mac ≠
          (mbedtls_aead_chacha20_poly1305_crypt_and_mac (recording rfc7539) (some test_key)
              (some test_nonce) MBEDTLS_AEAD_CHACHA20_POLY1305_ENCRYPT (some test_aad)
              (some (test_input ++ [0])) true true junk_recording_context junk_scratch).mac) ∧
      (test_aad.length + 1 < 2 ^ 64 →
        (mbedtls_aead_chacha20_poly1305_crypt_and_mac (recording rfc7539) (some test_key)
            (some test_nonce) MBEDTLS_AEAD_CHACHA20_POLY1305_ENCRYPT (some test_aad)
            (some test_input) true true junk_recording_context junk_scratch).mac ≠
          (mbedtls_aead_chacha20_poly1305_crypt_and_mac (recording rfc7539) (some test_key)
              (some test_nonce) MBEDTLS_AEAD_CHACHA20_POLY1305_ENCRYPT (some (test_aad ++ [0]))
              (some test_input) true true junk_recording_context junk_scratch).mac) ∧
      (∀ c : mbedtls_aead_chacha20_poly1305_context chacha20_context (List Byte),
        c.state = AEAD_CHACHA20_POLY1305_STATE_AAD → c.aad_len = 0 → c.ciphertext_len = 0 →
        (mbedtls_aead_chacha20_poly1305_finish (recording rfc7539)
          (mbedtls_aead_chacha20_poly1305_update (recording rfc7539)
            (mbedtls_aead_chacha20_poly1305_update_aad (recording rfc7539) (some c)
              (some test_aad)).ctx
            (some test_input) true).ctx true).result = 0 ∧
        (mbedtls_aead_chacha20_poly1305_finish (recording rfc7539)
          (mbedtls_aead_chacha20_poly1305_update (recording rfc7539)
            (mbedtls_aead_chacha20_poly1305_update_aad (recording rfc7539) (some c)
              (some test_aad)).ctx
            (some test_input) true).ctx true).out =
          c.poly1305_ctx ++
            mac_data test_aad
              (authenticated_text c.mode test_input
                (mbedtls_aead_chacha20_poly1305_update (recording rfc7539)
                  (mbedtls_aead_chacha20_poly1305_update_aad (recording rfc7539) (some c)
                    (some test_aad)).ctx
                  (some test_input) true).out)) ∧
      (∀ Ct Ct' : List Byte, Ct.length < 2 ^ 64 → Ct'.length < 2 ^ 64 →
        mac_data test_aad Ct = mac_data test_nonce Ct' → test_aad = test_nonce ∧ Ct = Ct') ∧
      (∀ Ct : List Byte, Ct.length + 1 < 2 ^ 64 →
        mac_data test_aad Ct ≠ mac_data test_aad (Ct ++ [0])) ∧
      (∀ Ct : List Byte, Ct.length < 2 ^ 64 → test_aad.length + 1 < 2 ^ 64 →
        mac_data test_aad Ct ≠ mac_data (test_aad ++ [0]) Ct) ∧
      (∀ (D : Collaborators chacha20_context poly1305_context) (ps : poly1305_context)
          (Ct : List Byte), AbsorbStreaming D →
        absorb_message D ps test_aad Ct Ct.length =
          (D.mbedtls_poly1305_update ps (mac_data test_aad Ct)).2)) ∧
    (mbedtls_aead_chacha20_poly1305_crypt_and_mac (recording rfc7539) (some test_key)
        (some test_nonce) MBEDTLS_AEAD_CHACHA20_POLY1305_ENCRYPT (some test_aad) (some test_input)
        true true junk_recording_context junk_scratch).mac =
      test_aad ++ [0, 0, 0, 0] ++ test_output ++ [0, 0, 0, 0, 0, 0, 0, 0, 0, 0, 0, 0, 0, 0] ++
        [12, 0, 0, 0, 0, 0, 0, 0] ++ [114, 0, 0, 0, 0, 0, 0, 0] :=
  ⟨by decide, by decide, by decide, by decide, ⟨rfl, rfl, rfl, rfl, rfl⟩,
    ⟨rfl, rfl, rfl, rfl, rfl⟩, rfc7539_transform_keeps_length,
    length_binding rfc7539 test_key test_nonce test_key test_nonce
      MBEDTLS_AEAD_CHACHA20_POLY1305_ENCRYPT MBEDTLS_AEAD_CHACHA20_POLY1305_DECRYPT
      test_aad test_input test_nonce test_output junk_recording_context junk_recording_context
      junk_scratch junk_scratch2 (by decide) (by decide) (by decide) (by decide)
      ⟨rfl, rfl, rfl, rfl, rfl⟩ ⟨rfl, rfl, rfl, rfl, rfl⟩ rfc7539_transform_keeps_length,
    by decide!⟩

/-! ## Scrubbing of the key material -/

/-- C18. Key-material scrubbing: `mbedtls_zeroize( v, n )` on a buffer of at
least `n` bytes sets each of its first `n` bytes to zero (and leaves the
others); and when `starts`, called with present context and nonce, returns,
its 64-byte array `poly1305_key` is all zeros, whatever the collaborators
return: on normal completion and on the three error exits (cipher start
failure, keystream-block failure, authenticator keying failure).  On the
BAD_INPUT_DATA return, which precedes every write to the array, the array is
as it was. -/
theorem scratch_is_zeroized (C : Collaborators CS PS)
    (c : mbedtls_aead_chacha20_poly1305_context CS PS) (nonce : List Byte)
    (mode : mbedtls_aead_chacha20_poly1305_mode_t) (scratch v : List Byte) (n : Nat)
    (hn : n ≤ v.length) (hlen : scratch.length = 64)
    (hks : ∀ s counter, (C.mbedtls_chacha20_keystream_block s counter).2.length = 64) :
    (mbedtls_zeroize v n = List.replicate n 0 ++ v.drop n ∧
      (mbedtls_zeroize v n).length = v.length ∧
      (∀ i, i < n → (mbedtls_zeroize v n).getD i 1 = 0) ∧
      (∀ i, n ≤ i → (mbedtls_zeroize v n).getD i 1 = v.getD i 1)) ∧
    (mbedtls_aead_chacha20_poly1305_starts C (some c) (some nonce) mode scratch).poly1305_key =
      List.replicate 64 0 ∧
    ((mbedtls_aead_chacha20_poly1305_starts C (some c) (some nonce) mode scratch).result = 0 ∨
      (mbedtls_aead_chacha20_poly1305_starts C (some c) (some nonce) mode scratch).result =
        (C.mbedtls_chacha20_starts c.chacha20_ctx nonce 1).1 ∨
      (mbedtls_aead_chacha20_poly1305_starts C (some c) (some nonce) mode scratch).result =
        (C.mbedtls_chacha20_keystream_block
          (C.mbedtls_chacha20_starts c.chacha20_ctx nonce 1).2 0).1 ∨
      (mbedtls_aead_chacha20_poly1305_starts C (some c) (some nonce) mode scratch).result =
        (C.mbedtls_poly1305_setkey c.poly1305_ctx
          (one_time_key C (C.mbedtls_chacha20_starts c.chacha20_ctx nonce 1).2)).1) ∧
    (mbedtls_aead_chacha20_poly1305_starts C none (some nonce) mode scratch).poly1305_key =
      scratch ∧
    (mbedtls_aead_chacha20_poly1305_starts C (some c) none mode scratch).poly1305_key =
      scratch := by
  have hz := zeroize_eq v n hn
  refine ⟨⟨hz, ?_, ?_, ?_⟩, ?_, ?_, rfl, rfl⟩
  · rw [hz]
    simp only [List.length_append, List.length_replicate, List.length_drop]
    omega
  · intro i hi
    rw [hz, List.getD_append _ _ _ _ (by simpa using hi)]
    simp [List.getD_eq_getElem?_getD, hi]
  · intro i hi
    rw [hz, List.getD_append_right _ _ _ _ (by simpa using hi)]
    simp only [List.length_replicate, List.getD_eq_getElem?_getD, List.getElem?_drop]
    congr 2
    omega
  · have h1 : mbedtls_zeroize scratch 64 = List.replicate 64 0 := by
      have := zeroize_all scratch
      rwa [hlen] at this
    have h2 : ∀ s counter, mbedtls_zeroize
        (C.mbedtls_chacha20_keystream_block s counter).2 64 = List.replicate 64 0 := by
      intro s counter
      have := zeroize_all (C.mbedtls_chacha20_keystream_block s counter).2
      rwa [hks] at this
    simp only [mbedtls_aead_chacha20_poly1305_starts]
    split
    · exact h1
    · split <;> exact h2 _ _
  · rw [starts_result]
    split
    · exact Or.inr (Or.inl rfl)
    · split
      · exact Or.inr (Or.inr (Or.inl rfl))
      · exact Or.inr (Or.inr (Or.inr rfl))

/-- Witness of C18: `starts` with a keystream-block derivation that fails;
evaluated, the array is zero as well on normal completion, when the cipher
start fails and when the authenticator keying fails, and `mbedtls_zeroize` of
five bytes of the nonce gives five zero bytes followed by the other seven. -/
theorem scratch_is_zeroized_witness :
    5 ≤ test_nonce.length ∧ junk_scratch.length = 64 ∧
    (∀ s counter, (keystream_failing.mbedtls_chacha20_keystream_block s counter).2.length = 64) ∧
    ((mbedtls_zeroize test_nonce 5 = List.replicate 5 0 ++ test_nonce.drop 5 ∧
        (mbedtls_zeroize test_nonce 5).length = test_nonce.length ∧
        (∀ i, i < 5 → (mbedtls_zeroize test_nonce 5).getD i 1 = 0) ∧
        (∀ i, 5 ≤ i → (mbedtls_zeroize test_nonce 5).getD i 1 = test_nonce.getD i 1)) ∧
      (mbedtls_aead_chacha20_poly1305_starts keystream_failing (some junk_context) (some
          test_nonce) MBEDTLS_AEAD_CHACHA20_POLY1305_ENCRYPT junk_scratch).poly1305_key =
        List.replicate 64 0 ∧
      ((mbedtls_aead_chacha20_poly1305_starts keystream_failing (some junk_context) (some
          test_nonce) MBEDTLS_AEAD_CHACHA20_POLY1305_ENCRYPT junk_scratch).result = 0 ∨
        (mbedtls_aead_chacha20_poly1305_starts keystream_failing (some junk_context) (some
            test_nonce) MBEDTLS_AEAD_CHACHA20_POLY1305_ENCRYPT junk_scratch).result =
          (keystream_failing.mbedtls_chacha20_starts junk_context.chacha20_ctx test_nonce 1).1 ∨
        (mbedtls_aead_chacha20_poly1305_starts keystream_failing (some junk_context) (some
            test_nonce) MBEDTLS_AEAD_CHACHA20_POLY1305_ENCRYPT junk_scratch).result =
          (keystream_failing.mbedtls_chacha20_keystream_block
            (keystream_failing.mbedtls_chacha20_starts junk_context.chacha20_ctx test_nonce 1).2
                0).1 ∨
        (mbedtls_aead_chacha20_poly1305_starts keystream_failing (some junk_context) (some
            test_nonce) MBEDTLS_AEAD_CHACHA20_POLY1305_ENCRYPT junk_scratch).result =
          (keystream_failing.mbedtls_poly1305_setkey junk_context.poly1305_ctx
            (one_time_key keystream_failing (keystream_failing.mbedtls_chacha20_starts
                junk_context.chacha20_ctx test_nonce 1).2)).1) ∧
      (mbedtls_aead_chacha20_poly1305_starts keystream_failing none (some test_nonce)
          MBEDTLS_AEAD_CHACHA20_POLY1305_ENCRYPT junk_scratch).poly1305_key =
        junk_scratch ∧
      (mbedtls_aead_chacha20_poly1305_starts keystream_failing (some junk_context) none
          MBEDTLS_AEAD_CHACHA20_POLY1305_ENCRYPT junk_scratch).poly1305_key =
        junk_scratch) ∧
    ((mbedtls_aead_chacha20_poly1305_starts keystream_failing (some junk_context)
          (some test_nonce) MBEDTLS_AEAD_CHACHA20_POLY1305_ENCRYPT junk_scratch).result = -1 ∧
      (mbedtls_aead_chacha20_poly1305_starts rfc7539 (some junk_context)
          (some test_nonce) MBEDTLS_AEAD_CHACHA20_POLY1305_ENCRYPT junk_scratch).result = 0 ∧
      (mbedtls_aead_chacha20_poly1305_starts rfc7539 (some junk_context)
          (some test_nonce) MBEDTLS_AEAD_CHACHA20_POLY1305_ENCRYPT junk_scratch).poly1305_key =
        List.replicate 64 0 ∧
      (mbedtls_aead_chacha20_poly1305_starts (rfc7539_failing (-3) 0 0 0) (some junk_context)
          (some test_nonce) MBEDTLS_AEAD_CHACHA20_POLY1305_ENCRYPT junk_scratch).result = -3 ∧
      (mbedtls_aead_chacha20_poly1305_starts (rfc7539_failing (-3) 0 0 0) (some junk_context)
          (some test_nonce) MBEDTLS_AEAD_CHACHA20_POLY1305_ENCRYPT junk_scratch).poly1305_key =
        List.replicate 64 0 ∧
      (mbedtls_aead_chacha20_poly1305_starts (rfc7539_failing 0 0 (-4) 0) (some junk_context)
          (some test_nonce) MBEDTLS_AEAD_CHACHA20_POLY1305_ENCRYPT junk_scratch).result = -4 ∧
      (mbedtls_aead_chacha20_poly1305_starts (rfc7539_failing 0 0 (-4) 0) (some junk_context)
          (some test_nonce) MBEDTLS_AEAD_CHACHA20_POLY1305_ENCRYPT junk_scratch).poly1305_key =
        List.replicate 64 0 ∧
      mbedtls_zeroize test_nonce 5 = [0, 0, 0, 0, 0, 0x41, 0x42, 0x43, 0x44, 0x45, 0x46, 0x47]) :=
  ⟨by decide, by decide, fun s counter => chacha20_block_length s.key s.nonce counter,
    scratch_is_zeroized keystream_failing junk_context test_nonce
      MBEDTLS_AEAD_CHACHA20_POLY1305_ENCRYPT junk_scratch test_nonce 5 (by decide) (by decide)
      (fun s counter => chacha20_block_length s.key s.nonce counter),
    by decide!⟩

/-! ## Implicit behaviour: `finish` twice, and failure atomicity -/

/-- C19. `finish` is not rejected in STATE_FINISHED: after a `finish` that
succeeded (tag buffer present, state not STATE_INIT) the state is
STATE_FINISHED, and a second `finish` without `starts` in between returns 0,
applies no padding, leaves the state STATE_FINISHED and both counters as they
were, and gives the authenticator one more update, with the 16-byte length
block, before finalising it again. -/
theorem finish_twice (C : Collaborators CS PS)
    (c : mbedtls_aead_chacha20_poly1305_context CS PS)
    (hs : c.state ≠ AEAD_CHACHA20_POLY1305_STATE_INIT) :
    (mbedtls_aead_chacha20_poly1305_finish C (some c) true).result = 0 ∧
    ∃ d, (mbedtls_aead_chacha20_poly1305_finish C (some c) true).ctx = some d ∧
      d.state = AEAD_CHACHA20_POLY1305_STATE_FINISHED ∧
      d.aad_len = c.aad_len ∧ d.ciphertext_len = c.ciphertext_len ∧
      authenticator_after_padding C d = d.poly1305_ctx ∧
      (len_block d).length = 16 ∧
      mbedtls_aead_chacha20_poly1305_finish C
          (mbedtls_aead_chacha20_poly1305_finish C (some c) true).ctx true =
        { result := 0
          ctx := some
            { chacha20_ctx := d.chacha20_ctx
              poly1305_ctx :=
                (C.mbedtls_poly1305_finish
                  (C.mbedtls_poly1305_update d.poly1305_ctx (len_block d)).2).2.1
              aad_len := d.aad_len
              ciphertext_len := d.ciphertext_len
              state := AEAD_CHACHA20_POLY1305_STATE_FINISHED
              mode := d.mode }
          out :=
            (C.mbedtls_poly1305_finish
              (C.mbedtls_poly1305_update d.poly1305_ctx (len_block d)).2).2.2 } := by
  have h30 : AEAD_CHACHA20_POLY1305_STATE_FINISHED ≠ AEAD_CHACHA20_POLY1305_STATE_INIT := by
    decide
  have h31 : AEAD_CHACHA20_POLY1305_STATE_FINISHED ≠ AEAD_CHACHA20_POLY1305_STATE_AAD := by
    decide
  have h32 : AEAD_CHACHA20_POLY1305_STATE_FINISHED ≠
      AEAD_CHACHA20_POLY1305_STATE_CIPHERTEXT := by
    decide
  have hblk : ∀ x : mbedtls_aead_chacha20_poly1305_context CS PS,
      len_block x = le64 x.aad_len ++ le64 x.ciphertext_len := by
    intro x
    rw [← len_block_eq]
    rfl
  rw [finish_eq C c hs]
  refine ⟨rfl, _, rfl, rfl, rfl, rfl, ?_, rfl, ?_⟩
  · simp [authenticator_after_padding, h31, h32]
  · rw [finish_eq C _ h30, hblk]
    simp [h31, h32]

/-- Witness of C19: `finish` twice on the self-test session. -/
theorem finish_twice_witness :
    self_test_session.state ≠ AEAD_CHACHA20_POLY1305_STATE_INIT ∧
    ((mbedtls_aead_chacha20_poly1305_finish rfc7539 (some self_test_session) true).result = 0 ∧
      ∃ d, (mbedtls_aead_chacha20_poly1305_finish rfc7539 (some self_test_session) true).ctx =
          some d ∧
        d.state = AEAD_CHACHA20_POLY1305_STATE_FINISHED ∧
        d.aad_len = self_test_session.aad_len ∧
        d.ciphertext_len = self_test_session.ciphertext_len ∧
        authenticator_after_padding rfc7539 d = d.poly1305_ctx ∧
        (len_block d).length = 16 ∧
        mbedtls_aead_chacha20_poly1305_finish rfc7539
            (mbedtls_aead_chacha20_poly1305_finish rfc7539 (some self_test_session) true).ctx
            true =
          { result := 0
            ctx := some
              { chacha20_ctx := d.chacha20_ctx
                poly1305_ctx :=
                  (rfc7539.mbedtls_poly1305_finish
                    (rfc7539.mbedtls_poly1305_update d.poly1305_ctx (len_block d)).2).2.1
                aad_len := d.aad_len
                ciphertext_len := d.ciphertext_len
                state := AEAD_CHACHA20_POLY1305_STATE_FINISHED
                mode := d.mode }
            out :=
              (rfc7539.mbedtls_poly1305_finish
                (rfc7539.mbedtls_poly1305_update d.poly1305_ctx (len_block d)).2).2.2 }) :=
  ⟨by decide, finish_twice rfc7539 self_test_session (by decide)⟩

end Session

end AeadChacha20Poly1305
